import Mathlib

/-! # NodeActiveX: the dispatch proxy layer (`src/disp.h`, `src/disp.cpp`, `src/utils.h`)

A shallow embedding of the resolver `DispInfo`, the proxy `DispObject`, and the helpers of
`utils.h` they use, followed by theorems about them.

Modelling conventions.

* The foreign automation transport (`IDispatch::GetIDsOfNames`, `IDispatch::Invoke`,
  `IUnknown::QueryInterface`, and the type-description reads) is a black box, given as the record
  `Transport`.  Every answer may depend on the whole history of name lookups and invocations made
  so far, so a transport with internal state (a counter object, a volatile value) is covered.
* That history is the `Trace`: each `GetIDsOfNames` and each `Invoke` the code performs appends one
  `Call`.  Interface queries and type-description reads are reads of the transport that leave no
  entry.
* An interface pointer is `Option Handle`, `none` being the null pointer.  Calling through a null
  pointer is undefined behaviour in the source; the embedding returns `none` for the whole
  operation there.
* A `std::weak_ptr` parent is recorded by the constructor of `DispInfo`: `attached p d` is a
  resolver whose `parent.lock()` yields `p`, `detached d` one whose `parent.lock()` yields nothing.
  A resolver lives as long as a proxy owns it; which proxies are alive is up to the garbage
  collector of the host, so the owner count `use_count` of a resolver is given with the transport.
  `prepare` reads it where it resets the proxy's own reference to the old resolver.
* `HRESULT`, `DISPID` and `LONG` are signed 32-bit values, held as `Int`; bit sets are `Nat`.
* The scalar members of the union of a `VARIANT` are its bytes, read as a little-endian number;
  a pointer to a scalar cell is the address together with the bytes found there (`VarData`).
* The job queue is a transition system: a schedule is a list of `Action`s, each a `push` of the
  calling thread or one step of the worker thread, whose position in `process` is a `WorkerPC`.
-/

namespace NodeActiveX

/-! ## Windows SDK constants used by the sources -/

abbrev HRESULT := Int
abbrev DISPID := Int
abbrev LONG := Int
/-- An interface pointer target (an `IDispatch` or `IUnknown` object of the transport). -/
abbrev Handle := Nat

def S_OK : HRESULT := 0
def E_NOTIMPL : HRESULT := -2147467263      -- 0x80004001
def E_NOINTERFACE : HRESULT := -2147467262  -- 0x80004002
def E_FAIL : HRESULT := -2147467259         -- 0x80004005
def E_INVALIDARG : HRESULT := -2147024809   -- 0x80070057

/-- The macro `FAILED(hr)`: the severity bit is set, that is, the signed code is negative. -/
def FAILED (hr : HRESULT) : Bool := decide (hr < 0)
/-- The macro `SUCCEEDED(hr)`. -/
def SUCCEEDED (hr : HRESULT) : Bool := decide (0 ≤ hr)

def DISPID_VALUE : DISPID := 0
def DISPID_UNKNOWN : DISPID := -1
def DISPID_PROPERTYPUT : DISPID := -3

def DISPATCH_METHOD : Nat := 1
def DISPATCH_PROPERTYGET : Nat := 2
def DISPATCH_PROPERTYPUT : Nat := 4

def INVOKE_FUNC : Nat := 1
def INVOKE_PROPERTYGET : Nat := 2
def INVOKE_PROPERTYPUT : Nat := 4
def INVOKE_PROPERTYPUTREF : Nat := 8

def VT_EMPTY : Nat := 0
def VT_NULL : Nat := 1
def VT_I2 : Nat := 2
def VT_I4 : Nat := 3
def VT_R4 : Nat := 4
def VT_R8 : Nat := 5
def VT_DATE : Nat := 7
def VT_BSTR : Nat := 8
def VT_DISPATCH : Nat := 9
def VT_BOOL : Nat := 11
def VT_VARIANT : Nat := 12
def VT_UNKNOWN : Nat := 13
def VT_I1 : Nat := 16
def VT_UI1 : Nat := 17
def VT_UI2 : Nat := 18
def VT_UI4 : Nat := 19
def VT_INT : Nat := 22
def VT_UINT : Nat := 23
def VT_BYREF : Nat := 0x4000
def VT_TYPEMASK : Nat := 0xfff

/-! ## `options_t` (disp.h) -/

def option_none : Nat := 0
def option_async : Nat := 0x01
def option_type : Nat := 0x02
def option_activate : Nat := 0x04
def option_prepared : Nat := 0x10
def option_owned : Nat := 0x20
def option_mask : Nat := 0x0F

/-! ## The tagged value `VARIANT` -/

/-- The data of a `VARIANT`, that is, what its union holds.

* `scalar bits`: the scalar members of the union (`lVal`, `ulVal`, `iVal`, `boolVal`, `fltVal`,
  `dblVal`, ...) share the bytes of the union; `bits` is these bytes read as a little-endian
  number.
* `bstr s`: a string.
* `dispatch p`, `unknown p`: the interface pointer `pdispVal` resp. `punkVal`, or, under
  `VT_BYREF`, the pointer `*ppdispVal` resp. `*ppunkVal` found in the cell.
* `ref addr mem`: a pointer to a scalar cell (`plVal`, `pulVal`, `pfltVal`, ...): `addr` is the
  address the union holds, `mem` the bytes found at that address, read as a little-endian
  number.
* `variant vt val`: the pointer `pvarVal`, not null, and the tag and data of the `VARIANT` it
  points at. -/
inductive VarData where
  | scalar (bits : Nat)
  | bstr (s : String)
  | dispatch (p : Option Handle)
  | unknown (p : Option Handle)
  | ref (addr : Nat) (mem : Nat)
  | variant (vt : Nat) (val : VarData)
deriving DecidableEq, Repr

/-- A `VARIANT`: the type tag `vt` with its flag bits, and the data. -/
structure VARIANT where
  vt : Nat
  val : VarData
deriving DecidableEq, Repr

/-- Reading `pdispVal` (`*ppdispVal` under `VT_BYREF`); data of another shape reads as null. -/
def VARIANT.pdispVal (v : VARIANT) : Option Handle :=
  match v.val with
  | .dispatch p => p
  | _ => none

/-- Reading `punkVal` (`*ppunkVal` under `VT_BYREF`); data of another shape reads as null. -/
def VARIANT.punkVal (v : VARIANT) : Option Handle :=
  match v.val with
  | .unknown p => p
  | _ => none

/-- The constructor `CComVariant()`: all bytes zero, so the tag is `VT_EMPTY`. -/
def CComVariant.empty : VARIANT := { vt := VT_EMPTY, val := .scalar 0 }

/-- The constructor `CComVariant(LONG v)`: tag `VT_I4`, `lVal = v` (two's complement bytes). -/
def CComVariant.ofLONG (v : LONG) : VARIANT :=
  { vt := VT_I4, val := .scalar (v % 2 ^ 32).toNat }

/-! ## The fields of the resolver `DispInfo` (disp.h 21-31) -/

/-- The record `DispInfo::func_t`. -/
structure func_t where
  dispid : DISPID
  kind : Nat
deriving DecidableEq, Repr

/-- The map `std::map<DISPID, func_ptr>`: an association list with one entry per key. -/
abbrev func_by_dispid_t := List (DISPID × func_t)

/-- The fields of a `DispInfo` other than the weak parent reference. -/
structure DispData where
  ptr : Option Handle
  name : String
  options : Nat
  funcs_by_dispid : func_by_dispid_t
deriving DecidableEq, Repr

/-- A resolver `DispInfo` with what its weak `parent` reference locks to. -/
inductive DispInfo where
  | detached (d : DispData)
  | attached (parent : DispInfo) (d : DispData)
deriving DecidableEq, Repr

def DispInfo.data : DispInfo → DispData
  | .detached d => d
  | .attached _ d => d

/-- The value of `parent.lock()`. -/
def DispInfo.parent : DispInfo → Option DispInfo
  | .detached _ => none
  | .attached p _ => some p

def DispInfo.ptr (self : DispInfo) : Option Handle := self.data.ptr
def DispInfo.name (self : DispInfo) : String := self.data.name
def DispInfo.options (self : DispInfo) : Nat := self.data.options
def DispInfo.funcs_by_dispid (self : DispInfo) : func_by_dispid_t := self.data.funcs_by_dispid

/-- The resolver once its weak `parent` reference has expired: `parent.lock()` yields nothing. -/
def DispInfo.expire : DispInfo → DispInfo
  | .detached d => .detached d
  | .attached _ d => .detached d

/-! ## The foreign transport and the host -/

/-- One function description of a type description (`FUNCDESC`). -/
structure FUNCDESC where
  memid : DISPID
  invkind : Nat
  cParams : Int
deriving DecidableEq, Repr

/-- A type description (`ITypeInfo`), as far as `PrepareType` reads it: `funcs` are the
descriptions `GetFuncDesc(n)` answers with `S_OK` for `n = 0, 1, ...`, up to the first index it
refuses. -/
structure ITypeInfo where
  funcs : List FUNCDESC
deriving DecidableEq, Repr

/-- The parameter block `DISPPARAMS` of an invocation: the `cArgs` arguments and the ids of the
named arguments. -/
structure DISPPARAMS where
  rgvarg : List VARIANT
  rgdispidNamedArgs : List DISPID
deriving DecidableEq, Repr

/-- A foreign call recorded in the trace. -/
inductive Call where
  | GetIDsOfNames (disp : Handle) (name : String)
  | Invoke (disp : Handle) (dispIdMember : DISPID) (wFlags : Nat) (params : DISPPARAMS)
deriving DecidableEq, Repr

abbrev Trace := List Call

/-- The foreign automation transport, and the one fact about the heap of the host this layer
depends on.  Each answer may depend on the calls made so far. -/
structure Transport where
  /-- `IDispatch::GetIDsOfNames` for one name: the result code and the id written. -/
  GetIDsOfNames : Trace → Handle → String → HRESULT × DISPID
  /-- `IDispatch::Invoke`: the result code and the out-value as the call leaves it (the code
  always passes an empty `CComVariant`). -/
  Invoke : Trace → Handle → DISPID → Nat → DISPPARAMS → HRESULT × VARIANT
  /-- `IUnknown::QueryInterface(__uuidof(IDispatch), ..)`: the result code and pointer written. -/
  QueryInterface : Trace → Handle → HRESULT × Option Handle
  /-- `IDispatch::GetTypeInfoCount`: the result code and the count written. -/
  GetTypeInfoCount : Trace → Handle → HRESULT × Nat
  /-- `IDispatch::GetTypeInfo(i, 0, &info)`: `some info` exactly when the answer is `S_OK`. -/
  GetTypeInfo : Trace → Handle → Nat → Option ITypeInfo
  /-- `use_count()` of the `std::shared_ptr` that holds the given resolver: the number of its
  owners, that is, the proxy at hand and every other live proxy that shares the resolver.  The
  garbage collector of the host decides which proxies are alive. -/
  use_count : Trace → DispInfo → Nat

/-! ## utils.h -/

/-- `DispFind` (utils.h 140-143): one `GetIDsOfNames` call on `disp`. -/
def DispFind (T : Transport) (tr : Trace) (disp : Option Handle) (name : String) :
    Option (Trace × HRESULT × DISPID) :=
  match disp with
  | none => none
  | some h =>
    let r := T.GetIDsOfNames tr h name
    some (tr ++ [Call.GetIDsOfNames h name], r.1, r.2)

/-- `DispInvoke` by id (utils.h 145-153): builds the `DISPPARAMS` from the first `argcnt`
arguments, names the put argument for a property-put, and performs one `Invoke`. -/
def DispInvoke (T : Transport) (tr : Trace) (disp : Option Handle) (dispid : DISPID)
    (argcnt : Nat) (args : List VARIANT) (flags : Nat) : Option (Trace × HRESULT × VARIANT) :=
  let params : DISPPARAMS :=
    { rgvarg := args.take argcnt,
      rgdispidNamedArgs := if flags = DISPATCH_PROPERTYPUT then [DISPID_PROPERTYPUT] else [] }
  match disp with
  | none => none
  | some h =>
    let r := T.Invoke tr h dispid flags params
    some (tr ++ [Call.Invoke h dispid flags params], r.1, r.2)

/-- `VariantDispGet` (utils.h 202-214): `none` is the result `false`; `some p` is the result
`true` with `*disp = p` (`p` may be the null pointer). -/
def VariantDispGet (T : Transport) (tr : Trace) (v : VARIANT) : Option (Option Handle) :=
  if v.vt &&& VT_TYPEMASK = VT_DISPATCH then
    some v.pdispVal
  else if v.vt &&& VT_TYPEMASK = VT_UNKNOWN then
    match v.punkVal with
    | none => some none
    | some unk =>
      let r := T.QueryInterface tr unk
      if FAILED r.1 then some none else some r.2
  else none

/-- Host values (`Local<Value>`), as far as this layer tells them apart. -/
inductive Value where
  | undefined
  | boolean (b : Bool)
  | int (n : Int)
  | double
  | string (s : String)
  | object (id : Nat)
deriving DecidableEq, Repr

/-- The loop of `VarArguments(const FunctionCallbackInfo<Value>&)` (utils.h 238-239), from index
`i` on: `items[i] = Value2Variant(args[argcnt - i - 1])`.  `fuel` is `argcnt - i`. -/
def VarArguments.fill (Value2Variant : Value → VARIANT) (args : List Value) (argcnt : Nat) :
    Nat → Nat → List VARIANT
  | 0, _ => []
  | fuel + 1, i =>
    Value2Variant (args.getD (argcnt - i - 1) Value.undefined) ::
      VarArguments.fill Value2Variant args argcnt fuel (i + 1)

/-- `VarArguments(const FunctionCallbackInfo<Value> &args)` (utils.h 235-240). -/
def VarArguments.ofArgs (Value2Variant : Value → VARIANT) (args : List Value) : List VARIANT :=
  let argcnt := args.length
  VarArguments.fill Value2Variant args argcnt argcnt 0

/-- `VarArguments(Local<Value> value)` (utils.h 231-234). -/
def VarArguments.ofValue (Value2Variant : Value → VARIANT) (value : Value) : List VARIANT :=
  [Value2Variant value]

/-! ## The resolver `DispInfo` (disp.h) -/

/-- The callback of `DispInfo::Prepare` (disp.h 113-123): `funcs_by_dispid[desc->memid]` is
created with the kind of the description, or its kind is or-ed with it. -/
def DispInfo.Prepare.process (funcs : func_by_dispid_t) (desc : FUNCDESC) : func_by_dispid_t :=
  match funcs.lookup desc.memid with
  | none => funcs ++ [(desc.memid, { dispid := desc.memid, kind := desc.invkind })]
  | some _ =>
    funcs.map fun e =>
      if e.1 = desc.memid then (e.1, { e.2 with kind := e.2.kind ||| desc.invkind }) else e

/-- `DispInfo::PrepareFunc` (disp.h 154-160): `none` is the result `false`. -/
def DispInfo.PrepareFunc {α : Type} (info : ITypeInfo) (n : Nat)
    (process : α → ITypeInfo → FUNCDESC → α) (acc : α) : Option α :=
  match info.funcs.get? n with
  | none => none
  | some desc => some (process acc info desc)

/-- The loop `while (PrepareFunc<T>(info, n, process)) n++;` of `PrepareType`. -/
def DispInfo.PrepareType.loop {α : Type} (info : ITypeInfo)
    (process : α → ITypeInfo → FUNCDESC → α) : Nat → Nat → α → α
  | 0, _, acc => acc
  | fuel + 1, n, acc =>
    match DispInfo.PrepareFunc info n process acc with
    | none => acc
    | some acc1 => DispInfo.PrepareType.loop info process fuel (n + 1) acc1

/-- `DispInfo::PrepareType` (disp.h 141-151).  The loop ends at the first index `GetFuncDesc`
refuses, which is `info.funcs.length`; the fuel given is one more than that. -/
def DispInfo.PrepareType {α : Type} (info : ITypeInfo)
    (process : α → ITypeInfo → FUNCDESC → α) (acc : α) : α :=
  DispInfo.PrepareType.loop info process (info.funcs.length + 1) 0 acc

/-- `DispInfo::Enumerate` (disp.h 129-138): the accumulated effect of `process` and the result
`cnt > 0`. -/
def DispInfo.Enumerate {α : Type} (T : Transport) (tr : Trace) (ptr : Option Handle)
    (process : α → ITypeInfo → FUNCDESC → α) (acc : α) : α × Bool :=
  match ptr with
  | none => (acc, false)
  | some h =>
    let r := T.GetTypeInfoCount tr h
    if FAILED r.1 then (acc, false)
    else
      ((List.range r.2).foldl
          (fun a i =>
            match T.GetTypeInfo tr h i with
            | none => a
            | some info => DispInfo.PrepareType info process a)
          acc,
        decide (r.2 > 0))

/-- `DispInfo::Prepare` (disp.h 112-126). -/
def DispInfo.Prepare (T : Transport) (tr : Trace) (d : DispData) : DispData :=
  let funcs :=
    (DispInfo.Enumerate T tr d.ptr (fun m _ desc => DispInfo.Prepare.process m desc)
      d.funcs_by_dispid).1
  let prepared := decide (funcs.length > 3) -- QueryInterface, AddRef, Release
  { d with
    funcs_by_dispid := funcs
    options := if prepared then d.options ||| option_prepared else d.options }

/-- The constructor `DispInfo::DispInfo` (disp.h 104-110). -/
def DispInfo.new (T : Transport) (tr : Trace) (disp : Option Handle) (nm : String) (opt : Nat)
    (parnt : Option DispInfo) : DispInfo :=
  let d0 : DispData := { ptr := disp, name := nm, options := opt, funcs_by_dispid := [] }
  let d := if d0.options &&& option_type ≠ 0 then DispInfo.Prepare T tr d0 else d0
  match parnt with
  | none => .detached d
  | some p => .attached p d

/-- `DispInfo::IsProperty` (disp.h 166-171). -/
def DispInfo.IsProperty (self : DispInfo) (dispid : DISPID) : Bool :=
  if self.options &&& option_prepared = 0 then false
  else
    match self.funcs_by_dispid.lookup dispid with
    | none => false
    | some f => decide (f.kind &&& (INVOKE_PROPERTYGET ||| INVOKE_FUNC) = INVOKE_PROPERTYGET)

/-- `DispInfo::FindProperty` (disp.h 173-175). -/
def DispInfo.FindProperty (T : Transport) (tr : Trace) (self : DispInfo) (name : String) :
    Option (Trace × HRESULT × DISPID) :=
  DispFind T tr self.ptr name

/-- `DispInfo::GetProperty` (disp.h 177-183). -/
def DispInfo.GetProperty (T : Transport) (tr : Trace) (self : DispInfo) (dispid : DISPID)
    (index : LONG) : Option (Trace × HRESULT × VARIANT) :=
  let arg := CComVariant.ofLONG index
  let argcnt : Nat := if index ≥ 0 then 1 else 0
  match DispInvoke T tr self.ptr dispid argcnt [arg] DISPATCH_PROPERTYGET with
  | none => none
  | some (tr1, hrcode, value) =>
    some (tr1, hrcode, if FAILED hrcode then { value with vt := VT_EMPTY } else value)

/-- `DispInfo::SetProperty` (disp.h 185-189). -/
def DispInfo.SetProperty (T : Transport) (tr : Trace) (self : DispInfo) (dispid : DISPID)
    (argcnt : Nat) (args : List VARIANT) : Option (Trace × HRESULT × VARIANT) :=
  match DispInvoke T tr self.ptr dispid argcnt args DISPATCH_PROPERTYPUT with
  | none => none
  | some (tr1, hrcode, value) =>
    some (tr1, hrcode, if FAILED hrcode then { value with vt := VT_EMPTY } else value)

/-- `DispInfo::ExecuteMethod` (disp.h 191-194). -/
def DispInfo.ExecuteMethod (T : Transport) (tr : Trace) (self : DispInfo) (dispid : DISPID)
    (argcnt : Nat) (args : List VARIANT) : Option (Trace × HRESULT × VARIANT) :=
  DispInvoke T tr self.ptr dispid argcnt args DISPATCH_METHOD

/-! ## The proxy `DispObject` (disp.h, disp.cpp) -/

/-- The host exceptions the layer raises, by the helper that builds them (utils.h 118-136). -/
inductive Exception where
  | DispError (hrcode : HRESULT) (msg : String) (msg2 : String)
  | Win32Error (hrcode : HRESULT) (msg : String)
  | TypeError (msg : String)
  | Error (msg : String)
deriving DecidableEq, Repr

/-- The fields of a `DispObject` (disp.h 233-240). -/
structure DispObject where
  options : Nat
  disp : DispInfo
  name : String
  dispid : DISPID
  index : LONG
deriving DecidableEq, Repr

/-- What `args.GetReturnValue().Set(..)` receives: an instance wrapping a new `DispObject`, the
empty handle `NodeCreate` returns when `inst_template` is not set, or `Variant2Value(isolate, v)`
(declared in utils.h, kept as the variant it decodes). -/
inductive Result where
  | proxy (obj : DispObject)
  | emptyHandle
  | decoded (v : VARIANT)
deriving DecidableEq, Repr

/-- What the layer takes from its surroundings: the transport, the encoder `Value2Variant`
(declared in utils.h), and whether the persistent `inst_template` has been set by `NodeInit`. -/
structure Env where
  T : Transport
  Value2Variant : Value → VARIANT
  inst_template : Bool

/-- The state an operation on a proxy ends in: the trace, the proxy, the `bool` returned, the
exception thrown if any, and the return value set if any. -/
structure Completion where
  trace : Trace
  self : DispObject
  ret : Bool
  exception : Option Exception
  retval : Option Result
deriving DecidableEq, Repr

def DispObject.is_prepared (self : DispObject) : Bool := self.options &&& option_prepared != 0
def DispObject.is_owned (self : DispObject) : Bool := self.options &&& option_owned != 0

/-- The constructor `DispObject::DispObject` (disp.cpp 16-25). -/
def DispObject.new (ptr : DispInfo) (nm : String) (id : DISPID) (indx : LONG) : DispObject :=
  let options := ptr.options &&& option_mask
  if id = DISPID_UNKNOWN then
    { options := options ||| option_prepared, disp := ptr, name := nm, dispid := DISPID_VALUE,
      index := indx }
  else
    { options := options ||| option_owned, disp := ptr, name := nm, dispid := id, index := indx }

/-- The static `DispObject::NodeCreate(isolate, parent, ptr, name, id, index)`
(disp.cpp 258-267). -/
def DispObject.NodeCreate (E : Env) (ptr : DispInfo) (name : String) (id : DISPID)
    (index : LONG) : Result :=
  if E.inst_template then .proxy (DispObject.new ptr name id index) else .emptyHandle

/-- `DispObject::prepare` (disp.cpp 31-47): the trace, the proxy, the result code and `*value`
afterwards.  The weak `parent` of the new resolver is given as it locks once `prepare` has
returned. -/
def DispObject.prepare (T : Transport) (tr : Trace) (self : DispObject) :
    Option (Trace × DispObject × HRESULT × VARIANT) :=
  match self.disp.GetProperty T tr self.dispid self.index with
  | none => none
  | some (tr1, hrcode, value) =>
    -- Init dispatch interface
    if !self.is_prepared then
      let options := self.options ||| option_prepared
      match VariantDispGet T tr1 value with
      | some ptr =>
        -- `new DispInfo(ptr, name, options, &disp)` takes a weak reference to the old resolver;
        -- `disp.reset` then drops the reference of the proxy, and the old resolver is destroyed
        -- when the proxy was its last owner
        some (tr1,
          { self with
            options := options
            disp :=
              if 1 < T.use_count tr1 self.disp then
                DispInfo.new T tr1 ptr self.name options (some self.disp)
              else (DispInfo.new T tr1 ptr self.name options (some self.disp)).expire
            dispid := DISPID_VALUE },
          hrcode, value)
      | none => some (tr1, { self with options := options }, hrcode, value)
    else some (tr1, self, hrcode, value)

/-- The statement `if (!is_prepared()) prepare();` that opens `get` and `set`. -/
def DispObject.lazyPrepare (T : Transport) (tr : Trace) (self : DispObject) :
    Option (Trace × DispObject) :=
  if !self.is_prepared then
    match self.prepare T tr with
    | none => none
    | some (tr1, self1, _, _) => some (tr1, self1)
  else some (tr, self)

/-- The outcome of the block `Search dispid`. -/
inductive Search where
  | found (tag : String) (propid : DISPID)
  | thrown (e : Exception)
deriving DecidableEq, Repr

/-- The block `Search dispid` of `get` (disp.cpp 53-67) and of `set` (disp.cpp 100-114). -/
def DispObject.searchDispid (T : Transport) (tr : Trace) (self : DispObject)
    (tag : Option String) : Option (Trace × Search) :=
  match tag with
  | none => some (tr, .found self.name self.dispid)
  | some tag =>
    match self.disp.FindProperty T tr tag with
    | none => none
    | some (tr1, hr, propid) =>
      let hrcode := if SUCCEEDED hr && propid == DISPID_UNKNOWN then E_INVALIDARG else hr
      if FAILED hrcode then some (tr1, .thrown (.DispError hrcode "DispPropertyFind" tag))
      else some (tr1, .found tag propid)

/-- `DispObject::get` (disp.cpp 49-94). -/
def DispObject.get (E : Env) (tr : Trace) (self : DispObject) (tag : Option String)
    (index : LONG) : Option Completion :=
  match self.lazyPrepare E.T tr with
  | none => none
  | some (tr0, self0) =>
    match self0.searchDispid E.T tr0 tag with
    | none => none
    | some (tr1, .thrown e) =>
      some { trace := tr1, self := self0, ret := false, exception := some e, retval := none }
    | some (tr1, .found tag propid) =>
      -- Return as property value
      if self0.disp.IsProperty propid then
        match self0.disp.GetProperty E.T tr1 propid index with
        | none => none
        | some (tr2, hrcode, value) =>
          if FAILED hrcode then
            some { trace := tr2, self := self0, ret := false,
                   exception := some (.DispError hrcode "DispPropertyGet" tag), retval := none }
          else
            match VariantDispGet E.T tr2 value with
            | some ptr =>
              let disp_result := DispInfo.new E.T tr2 ptr tag self0.options (some self0.disp)
              let result := DispObject.NodeCreate E disp_result tag DISPID_UNKNOWN (-1)
              some { trace := tr2, self := self0, ret := true, exception := none,
                     retval := some result }
            | none =>
              some { trace := tr2, self := self0, ret := true, exception := none,
                     retval := some (.decoded value) }
      -- Return as dispatch object
      else
        let result := DispObject.NodeCreate E self0.disp tag propid index
        some { trace := tr1, self := self0, ret := true, exception := none,
               retval := some result }

/-- `DispObject::set` (disp.cpp 96-143). -/
def DispObject.set (E : Env) (tr : Trace) (self : DispObject) (tag : Option String)
    (index : LONG) (value : Value) : Option Completion :=
  match self.lazyPrepare E.T tr with
  | none => none
  | some (tr0, self0) =>
    match self0.searchDispid E.T tr0 tag with
    | none => none
    | some (tr1, .thrown e) =>
      some { trace := tr1, self := self0, ret := false, exception := some e, retval := none }
    | some (tr1, .found tag propid) =>
      -- Set value using dispatch
      let vargs := VarArguments.ofValue E.Value2Variant value
      let vargs := if index ≥ 0 then vargs ++ [CComVariant.ofLONG index] else vargs
      let argcnt := vargs.length
      match self0.disp.SetProperty E.T tr1 propid argcnt vargs with
      | none => none
      | some (tr2, hrcode, ret) =>
        if FAILED hrcode then
          some { trace := tr2, self := self0, ret := false,
                 exception := some (.DispError hrcode "DispPropertyPut" tag), retval := none }
        else
          -- Send result
          match VariantDispGet E.T tr2 ret with
          | some ptr =>
            let rtag := "@" ++ tag
            let disp_result := DispInfo.new E.T tr2 ptr tag self0.options (some self0.disp)
            let result := DispObject.NodeCreate E disp_result rtag DISPID_UNKNOWN (-1)
            some { trace := tr2, self := self0, ret := true, exception := none,
                   retval := some result }
          | none =>
            some { trace := tr2, self := self0, ret := true, exception := none,
                   retval := some (.decoded ret) }

/-- `DispObject::call` (disp.cpp 145-172).  The function returns nothing; `ret` records whether
it reached its end without throwing. -/
def DispObject.call (E : Env) (tr : Trace) (self : DispObject) (args : List Value) :
    Option Completion :=
  let vargs := VarArguments.ofArgs E.Value2Variant args
  let argcnt := vargs.length
  match self.disp.ExecuteMethod E.T tr self.dispid argcnt vargs with
  | none => none
  | some (tr1, hrcode, ret) =>
    if FAILED hrcode then
      some { trace := tr1, self := self, ret := false,
             exception := some (.DispError hrcode "DispInvoke" self.name), retval := none }
    else
      -- Prepare result
      match VariantDispGet E.T tr1 ret with
      | some ptr =>
        let tag := "@" ++ self.name
        let disp_result := DispInfo.new E.T tr1 ptr tag self.options (some self.disp)
        let result := DispObject.NodeCreate E disp_result tag DISPID_UNKNOWN (-1)
        some { trace := tr1, self := self, ret := true, exception := none,
               retval := some result }
      | none =>
        some { trace := tr1, self := self, ret := true, exception := none,
               retval := some (.decoded ret) }

/-- `DispObject::valueOf` (disp.cpp 174-179): the result code, and the decoded value when the
code is a success. -/
def DispObject.valueOf (T : Transport) (tr : Trace) (self : DispObject) :
    Option (Trace × DispObject × HRESULT × Option Result) :=
  match self.prepare T tr with
  | none => none
  | some (tr1, self1, hrcode, val) =>
    some (tr1, self1, hrcode, if SUCCEEDED hrcode then some (.decoded val) else none)

/-- `DispObject::toString` (disp.cpp 181-190). -/
def DispObject.toString (T : Transport) (tr : Trace) (self : DispObject) : Option Completion :=
  match self.prepare T tr with
  | none => none
  | some (tr1, self1, hrcode, val) =>
    if FAILED hrcode then
      some { trace := tr1, self := self1, ret := false,
             exception := some (.Win32Error hrcode "DispToString"), retval := none }
    else
      some { trace := tr1, self := self1, ret := true, exception := none,
             retval := some (.decoded val) }

/-- The loop `while (ptr) ...` of `getIdentity` (disp.cpp 199-203), entered with `ptr` set. -/
def DispObject.getIdentity.loop : DispInfo → String → String
  | .detached d, id => d.name ++ ("." ++ id)
  | .attached p d, id => DispObject.getIdentity.loop p (d.name ++ ("." ++ id))

/-- `DispObject::getIdentity` (disp.cpp 192-205): the string handed to `String::NewFromTwoByte`. -/
def DispObject.getIdentity (self : DispObject) : String :=
  let id := self.name
  let ptr := self.disp
  if ptr.name = id then
    match ptr.parent with
    | none => id
    | some p => DispObject.getIdentity.loop p id
  else DispObject.getIdentity.loop ptr id

/-! ## Construction of a root instance (disp.cpp 269-354) -/

/-- `v8val2bool` (utils.h 218-224); `none` is the empty handle. -/
def v8val2bool (v : Option Value) (defv : Bool) : Bool :=
  match v with
  | none => defv
  | some (.boolean b) => b
  | some (.int n) =>
    if -2 ^ 31 ≤ n ∧ n < 2 ^ 31 then n != 0
    else if 0 ≤ n ∧ n < 2 ^ 32 then n != 0
    else defv
  | some _ => defv

/-- What the constructor callback takes from the operating system and the script engine:
`CLSIDFromProgID`, `GetActiveObject`, `CoCreateInstance` (the class id is a number here),
`Object::Get` on a host object, and the handle of `new DispObjectImpl(obj)`. -/
structure Activation where
  CLSIDFromProgID : String → HRESULT × Nat
  GetActiveObject : Nat → HRESULT × Option Handle
  CoCreateInstance : Nat → HRESULT × Option Handle
  Get : Nat → String → Option Value
  DispObjectImpl : Nat → Handle

/-- The option bits read from `args[1]` (disp.cpp 276-291). -/
def DispObject.NodeCreateCallback.options (A : Activation) (args : List Value) : Nat :=
  let options := option_async ||| option_type
  if args.length > 1 then
    match args.get? 1 with
    | some (.object opt) =>
      let options :=
        if !v8val2bool (A.Get opt "async") true then options &&& (0xFFFFFFFF ^^^ option_async)
        else options
      let options :=
        if !v8val2bool (A.Get opt "type") true then options &&& (0xFFFFFFFF ^^^ option_type)
        else options
      if v8val2bool (A.Get opt "activate") false then options ||| option_activate else options
    | _ => options
  else options

/-- The part of the constructor callback run for a construct call (disp.cpp 304-353): `error e`
is the exception thrown, `ok obj` the `DispObject` wrapped into `args.This()`. -/
def DispObject.NodeCreateCallback.construct (E : Env) (A : Activation) (tr : Trace)
    (args : List Value) (options : Nat) : Option (Except Exception DispObject) :=
  let created : Option (HRESULT × String × Option Handle) :=
    match args.head? with
    -- Create dispatch object from ProgId
    | some (.string progid) =>
      if progid.length ≤ 0 then some (E_INVALIDARG, "", none)
      else
        let name := progid
        let r := A.CLSIDFromProgID name
        if SUCCEEDED r.1 then
          let activated : Option (HRESULT × Option Handle) :=
            if options &&& option_activate = 0 then some (E_FAIL, none)
            else
              let g := A.GetActiveObject r.2
              if SUCCEEDED g.1 then
                match g.2 with
                | none => none
                | some unk => some (E.T.QueryInterface tr unk)
              else some (g.1, none)
          match activated with
          | none => none
          | some (hrcode, disp) =>
            if FAILED hrcode then
              let c := A.CoCreateInstance r.2
              some (c.1, name, c.2)
            else some (hrcode, name, disp)
        else some (r.1, name, none)
    -- Create dispatch object from javascript object
    | some (.object obj) => some (S_OK, "#", some (A.DispObjectImpl obj))
    -- Other
    | _ => some (E_INVALIDARG, "", none)
  match created with
  | none => none
  | some (hrcode, name, disp) =>
    -- Prepare result
    if FAILED hrcode then some (.error (.DispError hrcode "CreateInstance" name))
    else
      let ptr := DispInfo.new E.T tr disp name options none
      some (.ok (DispObject.new ptr name DISPID_UNKNOWN (-1)))

/-- The constructor callback `DispObject::NodeCreate(const FunctionCallbackInfo<Value>&)`
(disp.cpp 269-354).  Invoked as a plain function it constructs an instance from `args[0]` alone;
`ToLocalChecked` on a construction that threw ends the process (`none`). -/
def DispObject.NodeCreateCallback (E : Env) (A : Activation) (tr : Trace)
    (isConstructCall : Bool) (args : List Value) : Option (Except Exception DispObject) :=
  if args.length < 1 then some (.error (.TypeError "innvalid arguments"))
  else
    let options := DispObject.NodeCreateCallback.options A args
    -- Invoked as plain function
    if !isConstructCall then
      match DispObject.NodeCreateCallback.construct E A tr (args.take 1)
          (option_async ||| option_type) with
      | some (.ok obj) => some (.ok obj)
      | _ => none
    else DispObject.NodeCreateCallback.construct E A tr args options

/-! ## The reverse bridge `DispObjectImpl` (utils.h 288-312) -/

/-- A `DispObjectImpl` seen as a transport object.  `GetTypeInfoCount` and `GetTypeInfo` are
utils.h 308-309, `QueryInterface` is `UnknownImpl::QueryInterface` asked for `IDispatch`
(utils.h 264-271); `GetIDsOfNames` and `Invoke` are only declared in utils.h and are taken as
given, and so is the owner count of the host. -/
def DispObjectImpl.transport (GetIDsOfNames : Trace → Handle → String → HRESULT × DISPID)
    (Invoke : Trace → Handle → DISPID → Nat → DISPPARAMS → HRESULT × VARIANT)
    (use_count : Trace → DispInfo → Nat) : Transport :=
  { GetIDsOfNames := GetIDsOfNames
    Invoke := Invoke
    QueryInterface := fun _ h => (S_OK, some h)
    GetTypeInfoCount := fun _ _ => (S_OK, 0)
    GetTypeInfo := fun _ _ _ => none
    use_count := use_count }

/-- A native object as the reverse bridge sees it: its members by name, each a property holding
a value or a method. -/
inductive NativeMember where
  | property (value : VARIANT)
  | method
deriving DecidableEq, Repr

/-- The names looked up so far that the object has, in the order of their first lookup: the
name table of the adapter. -/
def NativeObject.names (obj : List (String × NativeMember)) (tr : Trace) : List String :=
  tr.foldl
    (fun table c =>
      match c with
      | Call.GetIDsOfNames _ name =>
        if (obj.lookup name).isSome ∧ name ∉ table then table ++ [name] else table
      | Call.Invoke _ _ _ _ => table)
    []

/-- Modelled from the spec: `DispObjectImpl::GetIDsOfNames` (declared at utils.h 310, body not
among the sources).  The name is looked up on the wrapped object; a name not seen before gets the
next member-id, counted from `dispid_next = 1`, and a name seen before keeps its id; a name the
object does not have is unknown. -/
def NativeObject.GetIDsOfNames (obj : List (String × NativeMember)) (tr : Trace) (_h : Handle)
    (name : String) : HRESULT × DISPID :=
  match obj.lookup name with
  | none => (-2147352570, DISPID_UNKNOWN) -- DISP_E_UNKNOWNNAME
  | some _ =>
    let table := NativeObject.names obj tr
    if name ∈ table then (S_OK, (table.indexOf name : Nat) + 1)
    else (S_OK, (table.length : Nat) + 1)

/-- Modelled from the spec: `DispObjectImpl::Invoke` (declared at utils.h 311, body not among
the sources), for a property-get: the id is mapped back to its name and the value of that
property is returned.  The spec gives no detail for the other kinds of invocation (the value
a put stores, the conversion of call arguments); they answer `E_NOTIMPL` in this model. -/
def NativeObject.Invoke (obj : List (String × NativeMember)) (tr : Trace) (_h : Handle)
    (dispid : DISPID) (flags : Nat) (_params : DISPPARAMS) : HRESULT × VARIANT :=
  let table := NativeObject.names obj tr
  if flags = DISPATCH_PROPERTYGET ∧ 1 ≤ dispid then
    match table.get? (dispid.toNat - 1) with
    | none => (-2147352573, CComVariant.empty) -- DISP_E_MEMBERNOTFOUND
    | some name =>
      match obj.lookup name with
      | some (.property value) => (S_OK, value)
      | _ => (-2147352573, CComVariant.empty)
  else (E_NOTIMPL, CComVariant.empty)

/-! ## The end-to-end scenario of the spec -/

/-- The native object of the end-to-end scenario: property `Count` = 5 and method `Add`. -/
def scenarioObject : List (String × NativeMember) :=
  [("Count", .property (CComVariant.ofLONG 5)), ("Add", .method)]

/-- The surroundings of the scenario: the wrapped object answers through the reverse bridge,
the root instance stays alive and shares its resolver with the proxy at hand, integers are
encoded as `VT_I4` (a sample encoder), and `NodeInit` has set `inst_template`. -/
def scenarioEnv : Env :=
  { T := DispObjectImpl.transport (NativeObject.GetIDsOfNames scenarioObject)
      (NativeObject.Invoke scenarioObject) (fun _ _ => 2)
    Value2Variant := fun v =>
      match v with
      | .int n => CComVariant.ofLONG n
      | _ => CComVariant.empty
    inst_template := true }

/-- The operating-system side of the scenario: no class is registered, the adapter of host
object `n` has handle `n`, and host objects have no option members. -/
def scenarioActivation : Activation :=
  { CLSIDFromProgID := fun _ => (E_FAIL, 0)
    GetActiveObject := fun _ => (E_FAIL, none)
    CoCreateInstance := fun _ => (E_FAIL, none)
    Get := fun _ _ => some Value.undefined
    DispObjectImpl := fun n => n }

/-- The resolver of the scenario: the root resolver over the adapter with handle 7, built with
the default options `option_async | option_type`. -/
def scenarioResolver : DispInfo :=
  DispInfo.new scenarioEnv.T [] (some 7) "#" (option_async ||| option_type) none

/-- The root proxy of the scenario, as the constructor callback wraps it. -/
def scenarioRoot : DispObject := DispObject.new scenarioResolver "#" DISPID_UNKNOWN (-1)

/-! ## Notions used to state the properties -/

/-- The number of `GetIDsOfNames` calls in a trace. -/
def lookups (tr : Trace) : Nat :=
  (tr.filter fun c =>
    match c with
    | Call.GetIDsOfNames _ _ => true
    | Call.Invoke _ _ _ _ => false).length

/-- The `Invoke` calls of a trace, in order. -/
def invocations (tr : Trace) : List Call :=
  tr.filter fun c =>
    match c with
    | Call.GetIDsOfNames _ _ => false
    | Call.Invoke _ _ _ _ => true

/-- Resolving the same name twice in a row on one resolver: the final trace and both answers. -/
def DispInfo.FindPropertyTwice (T : Transport) (tr : Trace) (self : DispInfo) (name : String) :
    Option (Trace × (HRESULT × DISPID) × (HRESULT × DISPID)) :=
  match self.FindProperty T tr name with
  | none => none
  | some (tr1, hr1, id1) =>
    match self.FindProperty T tr1 name with
    | none => none
    | some (tr2, hr2, id2) => some (tr2, (hr1, id1), (hr2, id2))

/-- The names of the resolvers on the parent chain of a resolver, the outermost first and the
resolver itself last. -/
def DispInfo.path : DispInfo → List String
  | .detached d => [d.name]
  | .attached p d => DispInfo.path p ++ [d.name]

/-! ## A sample tree of automation objects -/

/-- A sample tree of automation objects.  Handle 1 describes eight members, among them the
default member 0, a property-get that takes an index and has the value 7, the property-get 10
named `A`, whose value is the object with handle 2, the method 11 named `M`,
whose value read as a property is the object with handle 3, the member 12 named `Size`, exposed
as property-get and as property-put, with value 42, and the member 13 exposed as property-get
and as method; the name `F` resolves to the member 14, which is not described and cannot be
read; handle 2 describes one member, the property-get 7 named `B`, whose value is the
object with handle 3; handle 3 describes nothing.  Handle 4 is a second object, which
describes four property-gets: 20 named `U`, whose value is an unknown-reference to the object 5,
which answers the query for `IDispatch` with the handle 6; 21 named `V`, an unknown-reference to
the object 7, which refuses the query; 22 named `W`, a null unknown-reference; and 23 named `R`,
a by-reference cell holding the object with handle 2; its member 24 named `N` is not described
and has the same value as `U`.  Every resolver has a second live owner: no instance has been
collected. -/
def sampleTransport : Transport :=
  { GetIDsOfNames := fun _ h name =>
      if h = 1 ∧ name = "A" then (S_OK, 10)
      else if h = 1 ∧ name = "M" then (S_OK, 11)
      else if h = 1 ∧ name = "Size" then (S_OK, 12)
      else if h = 1 ∧ name = "F" then (S_OK, 14)
      else if h = 2 ∧ name = "B" then (S_OK, 7)
      else if h = 4 ∧ name = "U" then (S_OK, 20)
      else if h = 4 ∧ name = "V" then (S_OK, 21)
      else if h = 4 ∧ name = "W" then (S_OK, 22)
      else if h = 4 ∧ name = "R" then (S_OK, 23)
      else if h = 4 ∧ name = "N" then (S_OK, 24)
      else (-2147352570, DISPID_UNKNOWN) -- DISP_E_UNKNOWNNAME
    Invoke := fun _ h dispid flags _ =>
      if h = 1 ∧ dispid = 10 ∧ flags = DISPATCH_PROPERTYGET then
        (S_OK, { vt := VT_DISPATCH, val := .dispatch (some 2) })
      else if h = 1 ∧ dispid = 11 ∧ flags = DISPATCH_PROPERTYGET then
        (S_OK, { vt := VT_DISPATCH, val := .dispatch (some 3) })
      else if h = 1 ∧ dispid = 12 ∧ flags = DISPATCH_PROPERTYGET then
        (S_OK, CComVariant.ofLONG 42)
      else if h = 1 ∧ dispid = DISPID_VALUE ∧ flags = DISPATCH_PROPERTYGET then
        (S_OK, CComVariant.ofLONG 7)
      else if h = 1 ∧ dispid = 12 ∧ flags = DISPATCH_PROPERTYPUT then
        (S_OK, CComVariant.empty)
      else if h = 2 ∧ dispid = 7 ∧ flags = DISPATCH_PROPERTYGET then
        (S_OK, { vt := VT_DISPATCH, val := .dispatch (some 3) })
      else if h = 4 ∧ (dispid = 20 ∨ dispid = 24) ∧ flags = DISPATCH_PROPERTYGET then
        (S_OK, { vt := VT_UNKNOWN, val := .unknown (some 5) })
      else if h = 4 ∧ dispid = 21 ∧ flags = DISPATCH_PROPERTYGET then
        (S_OK, { vt := VT_UNKNOWN, val := .unknown (some 7) })
      else if h = 4 ∧ dispid = 22 ∧ flags = DISPATCH_PROPERTYGET then
        (S_OK, { vt := VT_UNKNOWN, val := .unknown none })
      else if h = 4 ∧ dispid = 23 ∧ flags = DISPATCH_PROPERTYGET then
        (S_OK, { vt := VT_DISPATCH ||| VT_BYREF, val := .dispatch (some 2) })
      else (-2147352573, CComVariant.empty) -- DISP_E_MEMBERNOTFOUND
    QueryInterface := fun _ h =>
      if h = 5 then (S_OK, some 6)
      else if h = 7 then (-2147467262, none) -- E_NOINTERFACE
      else (S_OK, some h)
    GetTypeInfoCount := fun _ h =>
      if h = 1 ∨ h = 2 ∨ h = 4 then (S_OK, 1) else (E_NOTIMPL, 0)
    GetTypeInfo := fun _ h i =>
      if i = 0 ∧ h = 1 then
        some { funcs := [⟨1610612736, INVOKE_FUNC, 2⟩, ⟨1610612737, INVOKE_FUNC, 0⟩,
                         ⟨1610612738, INVOKE_FUNC, 0⟩, ⟨10, INVOKE_PROPERTYGET, 0⟩,
                         ⟨11, INVOKE_FUNC, 1⟩, ⟨12, INVOKE_PROPERTYGET, 0⟩,
                         ⟨12, INVOKE_PROPERTYPUT, 1⟩, ⟨13, INVOKE_PROPERTYGET, 0⟩,
                         ⟨13, INVOKE_FUNC, 0⟩, ⟨DISPID_VALUE, INVOKE_PROPERTYGET, 1⟩] }
      else if i = 0 ∧ h = 2 then some { funcs := [⟨7, INVOKE_PROPERTYGET, 0⟩] }
      else if i = 0 ∧ h = 4 then
        some { funcs := [⟨20, INVOKE_PROPERTYGET, 0⟩, ⟨21, INVOKE_PROPERTYGET, 0⟩,
                         ⟨22, INVOKE_PROPERTYGET, 0⟩, ⟨23, INVOKE_PROPERTYGET, 0⟩] }
      else none
    use_count := fun _ _ => 2 }

/-- The surroundings of the sample tree: integers are encoded as `VT_I4` (a sample encoder), and
`NodeInit` has set `inst_template`. -/
def sampleEnv : Env :=
  { T := sampleTransport
    Value2Variant := fun v =>
      match v with
      | .int n => CComVariant.ofLONG n
      | _ => CComVariant.empty
    inst_template := true }

/-- A proxy over no object, standing in where an operation returned no proxy. -/
def DispObject.nothing : DispObject :=
  DispObject.new
    (.detached { ptr := none, name := "", options := option_none, funcs_by_dispid := [] })
    "" DISPID_UNKNOWN (-1)

/-- The class identifiers `root` and `box` are registered and create the objects with the
handles 1 and 4. -/
def sampleActivation : Activation :=
  { CLSIDFromProgID := fun s =>
      if s = "root" then (S_OK, 1) else if s = "box" then (S_OK, 4) else (E_FAIL, 0)
    GetActiveObject := fun _ => (E_FAIL, none)
    CoCreateInstance := fun c =>
      if c = 1 then (S_OK, some 1) else if c = 4 then (S_OK, some 4) else (E_FAIL, none)
    Get := fun _ _ => some Value.undefined
    DispObjectImpl := fun n => n }

/-- The proxy an operation returned, or the given proxy when it returned none. -/
def Completion.proxyOr (c : Option Completion) (dflt : DispObject) : DispObject :=
  match c with
  | some { retval := some (.proxy obj), .. } => obj
  | _ => dflt

/-- The instance `new ActiveXObject("root")` over the sample tree. -/
def sampleRoot : DispObject :=
  match DispObject.NodeCreateCallback sampleEnv sampleActivation [] true [Value.string "root"] with
  | some (.ok obj) => obj
  | _ => DispObject.nothing

/-- The proxy `root.A`. -/
def sampleA : DispObject :=
  Completion.proxyOr (sampleRoot.get sampleEnv [] (some "A") (-1)) DispObject.nothing

/-- The proxy `root.M`, bound to the member 11 of the root resolver and not prepared. -/
def sampleM : DispObject :=
  Completion.proxyOr (sampleRoot.get sampleEnv [] (some "M") (-1)) DispObject.nothing

/-- The proxy `root.F`, bound to the member 14 of the root resolver and not prepared; its
default value cannot be read. -/
def sampleF : DispObject :=
  Completion.proxyOr (sampleRoot.get sampleEnv [] (some "F") (-1)) DispObject.nothing

/-- The proxy `root.A.B`. -/
def sampleB : DispObject :=
  Completion.proxyOr (sampleA.get sampleEnv [] (some "B") (-1)) DispObject.nothing

/-- The `DISPPARAMS` `GetProperty` builds for an index: the index as the one argument when it is
not negative, no argument otherwise. -/
def getParams (index : LONG) : DISPPARAMS :=
  { rgvarg := if index ≥ 0 then [CComVariant.ofLONG index] else [], rgdispidNamedArgs := [] }

/-- The argument list `set` builds: the encoded value, followed by the index when it is not
negative. -/
def putArgs (Value2Variant : Value → VARIANT) (value : Value) (index : LONG) : List VARIANT :=
  if index ≥ 0 then VarArguments.ofValue Value2Variant value ++ [CComVariant.ofLONG index]
  else VarArguments.ofValue Value2Variant value

/-- The `DISPPARAMS` of the property-put `set` issues. -/
def putParams (Value2Variant : Value → VARIANT) (value : Value) (index : LONG) : DISPPARAMS :=
  { rgvarg := putArgs Value2Variant value index, rgdispidNamedArgs := [DISPID_PROPERTYPUT] }

/-- The member-id a tag stands for on a proxy, as `get` and `set` determine it: the member-id the
proxy is bound to for the null tag, and otherwise the id the name lookup on the handle of the
resolver answers, provided the lookup succeeds with an id other than the unknown-id sentinel. -/
def DispObject.Resolves (T : Transport) (tr : Trace) (self : DispObject) (tag : Option String)
    (p : DISPID) : Prop :=
  match tag with
  | none => p = self.dispid
  | some t =>
    ∃ h, self.disp.ptr = some h ∧ SUCCEEDED (T.GetIDsOfNames tr h t).1 = true ∧
      (T.GetIDsOfNames tr h t).2 = p ∧ p ≠ DISPID_UNKNOWN

/-- The trace after the member-id of a tag has been determined: one `GetIDsOfNames` call more
for a tag that is not null. -/
def DispObject.searchTrace (tr : Trace) (self : DispObject) (tag : Option String) : Trace :=
  match tag, self.disp.ptr with
  | some t, some h => tr ++ [Call.GetIDsOfNames h t]
  | _, _ => tr

/-- The name `get` and `set` use for a tag: the tag, or the name of the proxy for the null
tag. -/
def DispObject.tagName (self : DispObject) (tag : Option String) : String :=
  match tag with
  | none => self.name
  | some t => t

/-- `VARIANT_TRUE`, as a `VARIANT_BOOL` (a 16-bit signed integer). -/
def VARIANT_TRUE : Int := -1

/-- The bytes of the union read as a little-endian number: the scalar bits, or the address a
pointer member holds. A null interface pointer reads as zero; the bytes of the other pointers
are not numbered by the model (`none`). -/
def VarData.bytes : VarData → Option Nat
  | .scalar bits => some bits
  | .ref addr _ => some addr
  | .dispatch none => some 0
  | .unknown none => some 0
  | _ => none

/-- The bytes found at the address a scalar pointer member (`plVal`, `pulVal`, `pfltVal`, ...)
holds. Reading through the null pointer, or through bytes that are not a pointer to a scalar
cell, is undefined (`none`). -/
def VarData.cell : VarData → Option Nat
  | .ref addr mem => if addr = 0 then none else some mem
  | _ => none

/-- The lowest `w` bits of `bits` read as a two's complement signed integer, as a signed member
of `w` bits of the union reads them. -/
def signedMember (w : Nat) (bits : Nat) : Int :=
  if bits % 2 ^ w < 2 ^ (w - 1) then ((bits % 2 ^ w : Nat) : Int)
  else ((bits % 2 ^ w : Nat) : Int) - ((2 ^ w : Nat) : Int)

/-- The lowest `w` bits of `bits`, as an unsigned member of `w` bits of the union reads them. -/
def unsignedMember (w : Nat) (bits : Nat) : Int := ((bits % 2 ^ w : Nat) : Int)

/-- The template parameter `INTTYPE`: an integer type of `bits` bits, signed or not. -/
structure INTTYPE where
  bits : Nat
  signed : Bool
deriving DecidableEq, Repr

/-- The cast `(INTTYPE)x` of an integer: the value modulo `2 ^ bits`, in the range of the
type. -/
def INTTYPE.cast (I : INTTYPE) (x : Int) : Int :=
  if I.signed then signedMember I.bits (x % ((2 ^ I.bits : Nat) : Int)).toNat
  else x % ((2 ^ I.bits : Nat) : Int)

/-- Whether the integer `x` is a value of the type. -/
def INTTYPE.holds (I : INTTYPE) (x : Int) : Bool :=
  if I.signed then
    decide (-((2 ^ (I.bits - 1) : Nat) : Int) ≤ x ∧ x < ((2 ^ (I.bits - 1) : Nat) : Int))
  else decide (0 ≤ x ∧ x < ((2 ^ I.bits : Nat) : Int))

/-- The value of an IEEE 754 binary number of `ebits` exponent bits and `mbits` fraction bits,
given by its bytes, truncated toward zero; `none` for an infinity or a NaN. -/
def truncFloat (ebits mbits : Nat) (bits : Nat) : Option Int :=
  let b := bits % 2 ^ (1 + ebits + mbits)
  let sign := b / 2 ^ (ebits + mbits)
  let e := b / 2 ^ mbits % 2 ^ ebits
  let m := b % 2 ^ mbits
  let bias := 2 ^ (ebits - 1) - 1
  if e = 2 ^ ebits - 1 then none
  else
    let sig := if e = 0 then m else 2 ^ mbits + m
    let ex := if e = 0 then 1 else e
    let mag := if bias + mbits ≤ ex then sig * 2 ^ (ex - (bias + mbits))
               else sig / 2 ^ (bias + mbits - ex)
    some (if sign = 1 then -((mag : Nat) : Int) else ((mag : Nat) : Int))

/-- The cast `(INTTYPE)r` of a floating-point number, given by its truncation toward zero: the
truncated value when the type holds it, and undefined (`none`) otherwise. -/
def INTTYPE.ofFloating (I : INTTYPE) (t : Option Int) : Option Int :=
  match t with
  | some x => if I.holds x then some x else none
  | none => none

/-- The member `fltVal`: a binary32 number in the lowest four bytes of the union. -/
def truncFLOAT (bits : Nat) : Option Int := truncFloat 8 23 bits

/-- The members `dblVal` and `date`: a binary64 number in the eight bytes of the union. -/
def truncDOUBLE (bits : Nat) : Option Int := truncFloat 11 52 bits

/-- The tail of `Variant2nt` (utils.h 195-196), reached when the `switch` returns nothing:
`VariantChangeType(&dst, &v, 0, VT_INT)`, a foreign function, and then `(INTTYPE)dst.intVal`
when it succeeds and `def` when it fails. The foreign function is a parameter: from the source
`VARIANT` and the target tag it gives its result code and what it leaves in `dst`. -/
def Variant2nt.coerce (VariantChangeType : VARIANT → Nat → HRESULT × VARIANT) (I : INTTYPE)
    (v : VARIANT) (d : Int) : Option Int :=
  if SUCCEEDED (VariantChangeType v VT_INT).1 then
    (VariantChangeType v VT_INT).2.val.bytes.map fun b => I.cast (signedMember 32 b)
  else some d

/-- The body of `Variant2nt` (utils.h 166-197) on the tag and the data of `v`; `inner` is the
result of the recursive call on `*v.pvarVal`, present when `v.pvarVal` points at a `VARIANT`.
The result is `none` where the source reads through a pointer that is null or not a pointer
to a scalar cell, or casts a floating-point number the target type does not hold.

The integer cases read the 32-bit members `lVal` and `ulVal` (or `*plVal`, `*pulVal`) for all
the widths; the `VT_BOOL` case reads the member `boolVal` and does not look at `by_ref`. -/
def Variant2nt.body (VariantChangeType : VARIANT → Nat → HRESULT × VARIANT) (I : INTTYPE)
    (d : Int) (inner : Option (Option Int)) (vt0 : Nat) (val : VarData) : Option Int :=
  let vt := vt0 &&& VT_TYPEMASK
  let by_ref := (vt0 &&& VT_BYREF) != 0
  if vt = VT_EMPTY ∨ vt = VT_NULL then some d
  else if vt = VT_I1 ∨ vt = VT_I2 ∨ vt = VT_I4 ∨ vt = VT_INT then
    (if by_ref then val.cell else val.bytes).map fun b => I.cast (signedMember 32 b)
  else if vt = VT_UI1 ∨ vt = VT_UI2 ∨ vt = VT_UI4 ∨ vt = VT_UINT then
    (if by_ref then val.cell else val.bytes).map fun b => I.cast (unsignedMember 32 b)
  else if vt = VT_R4 then
    (if by_ref then val.cell else val.bytes).bind fun b => I.ofFloating (truncFLOAT b)
  else if vt = VT_R8 then
    (if by_ref then val.cell else val.bytes).bind fun b => I.ofFloating (truncDOUBLE b)
  else if vt = VT_DATE then
    (if by_ref then val.cell else val.bytes).bind fun b => I.ofFloating (truncDOUBLE b)
  else if vt = VT_BOOL then
    val.bytes.map fun b => if signedMember 16 b = VARIANT_TRUE then I.cast 1 else I.cast 0
  else if vt = VT_VARIANT then
    match inner with
    | some r => r
    | none =>
      match val.bytes with
      | some 0 => Variant2nt.coerce VariantChangeType I { vt := vt0, val := val } d
      | _ => none
  else Variant2nt.coerce VariantChangeType I { vt := vt0, val := val } d

/-- The recursion of `Variant2nt` (utils.h 193): the call on `*v.pvarVal`, made in the case
`VT_VARIANT` when the pointer is not null. -/
def Variant2nt.go (VariantChangeType : VARIANT → Nat → HRESULT × VARIANT) (I : INTTYPE)
    (d : Int) : Nat → VarData → Option Int
  | vt0, .variant vt1 val1 =>
    Variant2nt.body VariantChangeType I d (some (Variant2nt.go VariantChangeType I d vt1 val1))
      vt0 (.variant vt1 val1)
  | vt0, val => Variant2nt.body VariantChangeType I d none vt0 val

/-- `Variant2nt<INTTYPE>(v, def)` (utils.h 166-197). -/
def Variant2nt (VariantChangeType : VARIANT → Nat → HRESULT × VARIANT) (I : INTTYPE)
    (v : VARIANT) (d : Int) : Option Int :=
  Variant2nt.go VariantChangeType I d v.vt v.val

/-- The number of bits of the integer a tag of the integer families announces:
8 for `VT_I1` and `VT_UI1`, 16 for `VT_I2` and `VT_UI2`, 32 for the others. -/
def intWidth (vt : Nat) : Nat :=
  if vt = VT_I1 ∨ vt = VT_UI1 then 8 else if vt = VT_I2 ∨ vt = VT_UI2 then 16 else 32

/-- The reference definition of the integer conversion, by tag, in the words of the
specification: an empty or null value gives the default; a signed or unsigned integer of 8, 16
or 32 bits holding `x` gives `x` converted to the target type; a float or date gives its value
truncated toward zero; a boolean gives 1 for true and 0 for false; a nested variant with an
inner value gives the conversion of the inner value, `inner`; every other tag gives the
generic coercion, or the default when it fails. A by-reference cell is followed once, in every
scalar family. -/
def Variant2nt.referenceBody (VariantChangeType : VARIANT → Nat → HRESULT × VARIANT)
    (I : INTTYPE) (d : Int) (inner : Option (Option Int)) (vt0 : Nat) (val : VarData) :
    Option Int :=
  let vt := vt0 &&& VT_TYPEMASK
  let held := if (vt0 &&& VT_BYREF) != 0 then val.cell else val.bytes
  if vt = VT_EMPTY ∨ vt = VT_NULL then some d
  else if vt = VT_I1 ∨ vt = VT_I2 ∨ vt = VT_I4 ∨ vt = VT_INT then
    held.map fun b => I.cast (signedMember (intWidth vt) b)
  else if vt = VT_UI1 ∨ vt = VT_UI2 ∨ vt = VT_UI4 ∨ vt = VT_UINT then
    held.map fun b => I.cast (unsignedMember (intWidth vt) b)
  else if vt = VT_R4 then held.bind fun b => I.ofFloating (truncFLOAT b)
  else if vt = VT_R8 ∨ vt = VT_DATE then held.bind fun b => I.ofFloating (truncDOUBLE b)
  else if vt = VT_BOOL then
    held.map fun b => if signedMember 16 b = VARIANT_TRUE then 1 else 0
  else if vt = VT_VARIANT then
    match inner with
    | some r => r
    | none =>
      match val.bytes with
      | some 0 => Variant2nt.coerce VariantChangeType I { vt := vt0, val := val } d
      | _ => none
  else Variant2nt.coerce VariantChangeType I { vt := vt0, val := val } d

/-- The reference definition on a `VARIANT` given by its tag and data, nested or not. -/
def Variant2nt.reference (VariantChangeType : VARIANT → Nat → HRESULT × VARIANT) (I : INTTYPE)
    (d : Int) : Nat → VarData → Option Int
  | vt0, .variant vt1 val1 =>
    Variant2nt.referenceBody VariantChangeType I d
      (some (Variant2nt.reference VariantChangeType I d vt1 val1)) vt0 (.variant vt1 val1)
  | vt0, val => Variant2nt.referenceBody VariantChangeType I d none vt0 val

/-- The target type `int`: 32 bits, signed. -/
def INTTYPE.int : INTTYPE := { bits := 32, signed := true }

/-- A sample of the foreign coercion: it converts the string "42" to the integer 42 and fails
on everything else with `DISP_E_TYPEMISMATCH`. -/
def sampleChangeType (v : VARIANT) (vt : Nat) : HRESULT × VARIANT :=
  if v.val = .bstr "42" then (S_OK, { vt := vt, val := .scalar 42 })
  else (-2147352571, { vt := VT_EMPTY, val := .scalar 0 })

/-! ## The job queue (disp.h 33-102) -/

/-- The class `DispInfo::job_t` (disp.h 33-51).  The completion callback `on_result` is held by
its identity; `none` is the empty `std::function`. -/
structure job_t where
  disp : DispInfo
  args : List VARIANT
  result : VARIANT
  dispid : LONG
  flags : LONG
  hrcode : HRESULT
  on_result : Option Nat
deriving DecidableEq, Repr

/-- What executing jobs leaves behind: the foreign calls made, and the calls of completion
callbacks, each with the job as the callback receives it. -/
structure JobWorld where
  trace : Trace
  completed : List (Nat × job_t)
deriving DecidableEq, Repr

/-- The cast `(WORD)flags`. -/
def WORD (flags : LONG) : Nat := (flags % 2 ^ 16).toNat

/-- `job_t::execute` (disp.h 45-50): the world and the job afterwards. -/
def job_t.execute (T : Transport) (w : JobWorld) (self : job_t) : Option (JobWorld × job_t) :=
  let argcnt := self.args.length
  match DispInvoke T w.trace self.disp.ptr self.dispid argcnt self.args (WORD self.flags) with
  | none => none
  | some (tr1, hrcode, result) =>
    let job := { self with hrcode := hrcode, result := result }
    match job.on_result with
    | some on_result =>
      some ({ trace := tr1, completed := w.completed ++ [(on_result, job)] }, job)
    | none => some ({ w with trace := tr1 }, job)

/-- Where the worker thread stands in `job_processor_t::process` (disp.h 89-100): at the test
of the outer loop, in `condvar.wait`, at the test of the inner loop, or past the end. -/
inductive WorkerPC where
  | loopHead
  | waiting
  | draining
  | finished
deriving DecidableEq, Repr

/-- The class `DispInfo::job_processor_t` (disp.h 54-101).  `thread` is `none` when the
`unique_ptr` holds no thread object, and otherwise tells where that thread stands. -/
structure job_processor_t where
  thread : Option WorkerPC
  terminated : Bool
  queue : List job_t
deriving DecidableEq, Repr

/-- `job_processor_t::stop` (disp.h 63-68).  `join` returns only for a thread that has left
`process`; a thread that is in the loop when `terminated` is set never leaves it, and the call
does not return (`none`). -/
def job_processor_t.stop (self : job_processor_t) : Option job_processor_t :=
  match self.thread with
  | none => some self
  | some pc =>
    if pc = WorkerPC.finished then some { self with terminated := true, thread := none }
    else none

/-- `job_processor_t::start` (disp.h 57-61): the new thread stands at the start of
`process`. -/
def job_processor_t.start (self : job_processor_t) : Option job_processor_t :=
  match (if self.thread.isSome then self.stop else some self) with
  | none => none
  | some s => some { s with terminated := false, thread := some WorkerPC.loopHead }

/-- `job_processor_t::push` (disp.h 70-79): the world, the processor and the job afterwards. -/
def job_processor_t.push (T : Transport) (w : JobWorld) (self : job_processor_t) (job : job_t) :
    Option (JobWorld × job_processor_t × job_t) :=
  if self.thread.isNone || self.terminated then
    match job.execute T w with
    | none => none
    | some (w1, job1) => some (w1, self, job1)
  else
    some (w, { self with queue := self.queue ++ [job] }, job)

/-- One step of the worker thread in `job_processor_t::process` (disp.h 89-100): the test
`while (terminated)`, the return of `condvar.wait` (notified or spurious), or one round of the
inner loop, which executes the job at the front of the queue. -/
def job_processor_t.process.step (T : Transport) (w : JobWorld) (self : job_processor_t) :
    Option (JobWorld × job_processor_t) :=
  match self.thread with
  | none => some (w, self)
  | some WorkerPC.loopHead =>
    if self.terminated then some (w, { self with thread := some WorkerPC.waiting })
    else some (w, { self with thread := some WorkerPC.finished })
  | some WorkerPC.waiting => some (w, { self with thread := some WorkerPC.draining })
  | some WorkerPC.draining =>
    match self.queue with
    | [] => some (w, { self with thread := some WorkerPC.loopHead })
    | job :: rest =>
      match job.execute T w with
      | none => none
      | some (w1, _) => some (w1, { self with queue := rest })
  | some WorkerPC.finished => some (w, self)

/-- What happens next in a run of the processor: the calling thread pushes a job, or the
worker thread takes a step. -/
inductive Action where
  | push (job : job_t)
  | work
deriving DecidableEq, Repr

/-- One action on the world and the processor. -/
def job_processor_t.act (T : Transport) (s : JobWorld × job_processor_t) :
    Action → Option (JobWorld × job_processor_t)
  | Action.push job =>
    match s.2.push T s.1 job with
    | none => none
    | some (w1, p1, _) => some (w1, p1)
  | Action.work => job_processor_t.process.step T s.1 s.2

/-- A schedule: the actions in the order in which they happen. -/
def job_processor_t.run (T : Transport) :
    JobWorld × job_processor_t → List Action → Option (JobWorld × job_processor_t)
  | s, [] => some s
  | s, a :: rest =>
    match job_processor_t.act T s a with
    | none => none
    | some s1 => job_processor_t.run T s1 rest

/-- The jobs a schedule pushes, in order. -/
def Action.pushed : List Action → List job_t
  | [] => []
  | Action.push job :: rest => job :: Action.pushed rest
  | Action.work :: rest => Action.pushed rest

/-- The `DISPPARAMS` of the `Invoke` a job issues: all its arguments, and the put argument
named when the flags are those of a property-put. -/
def job_t.params (self : job_t) : DISPPARAMS :=
  { rgvarg := self.args,
    rgdispidNamedArgs :=
      if WORD self.flags = DISPATCH_PROPERTYPUT then [DISPID_PROPERTYPUT] else [] }

/-- A job with the answer of the transport to its `Invoke` stored in `hrcode` and `result`. -/
def job_t.answered (T : Transport) (tr : Trace) (h : Handle) (self : job_t) : job_t :=
  { self with
    hrcode := (T.Invoke tr h self.dispid (WORD self.flags) self.params).1
    result := (T.Invoke tr h self.dispid (WORD self.flags) self.params).2 }

/-- Three jobs on the root resolver of the sample tree, with completion callbacks 1, 2, 3. -/
def sampleJob (n : Nat) : job_t :=
  { disp := sampleRoot.disp, args := [], result := CComVariant.empty, dispid := 12,
    flags := 2, hrcode := S_OK, on_result := some n }

/-! ## Notions for the member cache -/

/-- The function descriptions the enumeration of a handle yields across all its type
descriptions, in the order of enumeration; none when the handle refuses `GetTypeInfoCount`. -/
def enumeratedFuncs (T : Transport) (tr : Trace) (h : Handle) : List FUNCDESC :=
  if FAILED (T.GetTypeInfoCount tr h).1 then []
  else
    (List.range (T.GetTypeInfoCount tr h).2).flatMap fun i =>
      match T.GetTypeInfo tr h i with
      | none => []
      | some info => info.funcs

/-- The bitwise OR of the invocation kinds of the descriptions that carry the member-id `d`. -/
def mergedKind (descs : List FUNCDESC) (d : DISPID) : Nat :=
  ((descs.filter fun x => x.memid = d).map fun x => x.invkind).foldl (fun a b => a ||| b) 0

/-! ## The indexed accessor (disp.cpp 393-402) -/

/-- The conversion of the host's `uint32_t` index to the `LONG` parameter of `get`: the value
modulo 2^32 read as a two's complement number. -/
def uint32ToLONG (index : Nat) : LONG :=
  if index % 2 ^ 32 < 2 ^ 31 then ((index % 2 ^ 32 : Nat) : Int)
  else ((index % 2 ^ 32 : Nat) : Int) - 2 ^ 32

/-- What a static accessor callback ends in: the exception thrown when the holder wraps no
`DispObject`, or the completion of the operation it delegates to. -/
inductive NodeOutcome where
  | empty (e : Exception)
  | done (c : Completion)
deriving DecidableEq, Repr

/-- `DispObject::NodeGetByIndex` (disp.cpp 393-402); `self` is what `Unwrap` yields. -/
def DispObject.NodeGetByIndex (E : Env) (tr : Trace) (self : Option DispObject) (index : Nat) :
    Option NodeOutcome :=
  match self with
  | none => some (.empty (.Error "DispIsEmpty"))
  | some self =>
    match self.get E tr none (uint32ToLONG index) with
    | none => none
    | some c => some (.done c)

/-! ## Theorems -/

/-! ### Auxiliary lemmas -/

theorem lookups_append (a b : Trace) : lookups (a ++ b) = lookups a + lookups b := by
  simp [lookups, List.filter_append]

theorem lookups_lookup (h : Handle) (name : String) :
    lookups [Call.GetIDsOfNames h name] = 1 := by
  simp [lookups]

theorem lookups_invoke (h : Handle) (d : DISPID) (f : Nat) (p : DISPPARAMS) :
    lookups [Call.Invoke h d f p] = 0 := by
  simp [lookups]

theorem VarArguments_fill_eq (enc : Value → VARIANT) (args : List Value) :
    ∀ (fuel i : Nat), i + fuel = args.length →
      VarArguments.fill enc args args.length fuel i = ((args.take fuel).map enc).reverse := by
  intro fuel
  induction fuel with
  | zero => intro i _; simp [VarArguments.fill]
  | succ k ih =>
    intro i hi
    have hk : args.length - i - 1 = k := by omega
    rw [VarArguments.fill, ih (i + 1) (by omega), hk]
    have hk2 : k < args.length := by omega
    have e1 : args.getD k Value.undefined = args[k] := by
      simp [List.getD, List.getElem?_eq_getElem hk2]
    rw [e1, List.take_succ, List.map_append, List.reverse_append]
    simp [List.getElem?_eq_getElem hk2]

theorem VarArguments_ofArgs_eq (enc : Value → VARIANT) (args : List Value) :
    VarArguments.ofArgs enc args = (args.map enc).reverse := by
  unfold VarArguments.ofArgs
  simp only []
  rw [VarArguments_fill_eq enc args args.length 0 (by simp)]
  simp

theorem DispFind_some (T : Transport) (tr : Trace) (h : Handle) (name : String) :
    DispFind T tr (some h) name =
      some (tr ++ [Call.GetIDsOfNames h name], (T.GetIDsOfNames tr h name).1,
        (T.GetIDsOfNames tr h name).2) := rfl

/-- The `DISPPARAMS` of a property-get with index `index`. -/
theorem GetProperty_some (T : Transport) (tr : Trace) (self : DispInfo) (dispid : DISPID)
    (index : LONG) (h : Handle) (hptr : self.ptr = some h) :
    self.GetProperty T tr dispid index =
      some
        (tr ++ [Call.Invoke h dispid DISPATCH_PROPERTYGET
            { rgvarg := if index ≥ 0 then [CComVariant.ofLONG index] else [],
              rgdispidNamedArgs := [] }],
          (T.Invoke tr h dispid DISPATCH_PROPERTYGET
            { rgvarg := if index ≥ 0 then [CComVariant.ofLONG index] else [],
              rgdispidNamedArgs := [] }).1,
          if FAILED (T.Invoke tr h dispid DISPATCH_PROPERTYGET
              { rgvarg := if index ≥ 0 then [CComVariant.ofLONG index] else [],
                rgdispidNamedArgs := [] }).1 then
            { (T.Invoke tr h dispid DISPATCH_PROPERTYGET
                { rgvarg := if index ≥ 0 then [CComVariant.ofLONG index] else [],
                  rgdispidNamedArgs := [] }).2 with vt := VT_EMPTY }
          else
            (T.Invoke tr h dispid DISPATCH_PROPERTYGET
              { rgvarg := if index ≥ 0 then [CComVariant.ofLONG index] else [],
                rgdispidNamedArgs := [] }).2) := by
  have e : (if DISPATCH_PROPERTYGET = DISPATCH_PROPERTYPUT then [DISPID_PROPERTYPUT] else [])
      = ([] : List DISPID) := by decide
  by_cases hi : index ≥ 0 <;>
    simp [DispInfo.GetProperty, DispInvoke, hptr, hi, e]

theorem SetProperty_some (T : Transport) (tr : Trace) (self : DispInfo) (dispid : DISPID)
    (args : List VARIANT) (h : Handle) (hptr : self.ptr = some h) :
    self.SetProperty T tr dispid args.length args =
      some
        (tr ++ [Call.Invoke h dispid DISPATCH_PROPERTYPUT
            { rgvarg := args, rgdispidNamedArgs := [DISPID_PROPERTYPUT] }],
          (T.Invoke tr h dispid DISPATCH_PROPERTYPUT
            { rgvarg := args, rgdispidNamedArgs := [DISPID_PROPERTYPUT] }).1,
          if FAILED (T.Invoke tr h dispid DISPATCH_PROPERTYPUT
              { rgvarg := args, rgdispidNamedArgs := [DISPID_PROPERTYPUT] }).1 then
            { (T.Invoke tr h dispid DISPATCH_PROPERTYPUT
                { rgvarg := args, rgdispidNamedArgs := [DISPID_PROPERTYPUT] }).2 with
              vt := VT_EMPTY }
          else
            (T.Invoke tr h dispid DISPATCH_PROPERTYPUT
              { rgvarg := args, rgdispidNamedArgs := [DISPID_PROPERTYPUT] }).2) := by
  simp [DispInfo.SetProperty, DispInvoke, hptr]

theorem ExecuteMethod_some (T : Transport) (tr : Trace) (self : DispInfo) (dispid : DISPID)
    (args : List VARIANT) (h : Handle) (hptr : self.ptr = some h) :
    self.ExecuteMethod T tr dispid args.length args =
      some
        (tr ++ [Call.Invoke h dispid DISPATCH_METHOD { rgvarg := args, rgdispidNamedArgs := [] }],
          (T.Invoke tr h dispid DISPATCH_METHOD { rgvarg := args, rgdispidNamedArgs := [] }).1,
          (T.Invoke tr h dispid DISPATCH_METHOD
            { rgvarg := args, rgdispidNamedArgs := [] }).2) := by
  have e : (if DISPATCH_METHOD = DISPATCH_PROPERTYPUT then [DISPID_PROPERTYPUT] else [])
      = ([] : List DISPID) := by decide
  simp [DispInfo.ExecuteMethod, DispInvoke, hptr, e]

theorem FindProperty_some (T : Transport) (tr : Trace) (self : DispInfo) (name : String)
    (h : Handle) (hptr : self.ptr = some h) :
    self.FindProperty T tr name =
      some (tr ++ [Call.GetIDsOfNames h name], (T.GetIDsOfNames tr h name).1,
        (T.GetIDsOfNames tr h name).2) := by
  simp [DispInfo.FindProperty, hptr, DispFind_some]

theorem intercalate_go_append (s x : String) :
    ∀ (l : List String) (acc : String),
      String.intercalate.go acc s (l ++ [x]) = String.intercalate.go acc s l ++ (s ++ x) := by
  intro l
  induction l with
  | nil => intro acc; simp [String.intercalate.go, String.append_assoc]
  | cons a t ih => intro acc; simp [String.intercalate.go, ih]

theorem intercalate_append_singleton (s x a : String) (l : List String) :
    s.intercalate ((a :: l) ++ [x]) = s.intercalate (a :: l) ++ (s ++ x) := by
  simp only [String.intercalate, List.cons_append]
  exact intercalate_go_append s x l a

theorem DispInfo_path_ne_nil (d : DispInfo) : d.path ≠ [] := by
  cases d <;> simp [DispInfo.path]

theorem getIdentity_loop_eq (d : DispInfo) (id : String) :
    DispObject.getIdentity.loop d id = ".".intercalate d.path ++ ("." ++ id) := by
  induction d generalizing id with
  | detached d =>
    simp [DispObject.getIdentity.loop, DispInfo.path, String.intercalate, String.intercalate.go]
  | attached p d ih =>
    rw [DispObject.getIdentity.loop, ih, DispInfo.path]
    obtain ⟨a, l, hl⟩ : ∃ a l, p.path = a :: l := by
      cases hp : p.path with
      | nil => exact absurd hp (DispInfo_path_ne_nil p)
      | cons a l => exact ⟨a, l, rfl⟩
    rw [hl, intercalate_append_singleton]
    simp [String.append_assoc]

theorem getIdentity_path (self : DispObject) (hname : self.disp.name = self.name) :
    self.getIdentity = ".".intercalate self.disp.path := by
  unfold DispObject.getIdentity
  simp only [hname, if_true]
  cases hd : self.disp with
  | detached d =>
    have : d.name = self.name := by simpa [hd, DispInfo.name, DispInfo.data] using hname
    simp [DispInfo.parent, DispInfo.path, String.intercalate, String.intercalate.go, this]
  | attached p d =>
    have : d.name = self.name := by simpa [hd, DispInfo.name, DispInfo.data] using hname
    simp only [DispInfo.parent, DispInfo.path]
    rw [getIdentity_loop_eq]
    obtain ⟨a, l, hl⟩ : ∃ a l, p.path = a :: l := by
      cases hp : p.path with
      | nil => exact absurd hp (DispInfo_path_ne_nil p)
      | cons a l => exact ⟨a, l, rfl⟩
    rw [hl, intercalate_append_singleton, this]

theorem DispInfo_Prepare_ptr (T : Transport) (tr : Trace) (d : DispData) :
    (DispInfo.Prepare T tr d).ptr = d.ptr := rfl

theorem DispInfo_Prepare_name (T : Transport) (tr : Trace) (d : DispData) :
    (DispInfo.Prepare T tr d).name = d.name := rfl

theorem DispInfo_new_name (T : Transport) (tr : Trace) (disp : Option Handle) (nm : String)
    (opt : Nat) (parnt : Option DispInfo) : (DispInfo.new T tr disp nm opt parnt).name = nm := by
  unfold DispInfo.new
  cases parnt <;> simp only [DispInfo.name, DispInfo.data] <;> split <;> rfl

theorem DispInfo_new_parent (T : Transport) (tr : Trace) (disp : Option Handle) (nm : String)
    (opt : Nat) (parnt : Option DispInfo) :
    (DispInfo.new T tr disp nm opt parnt).parent = parnt := by
  unfold DispInfo.new
  cases parnt <;> rfl

theorem DispObject_new_name (ptr : DispInfo) (nm : String) (id : DISPID) (indx : LONG) :
    (DispObject.new ptr nm id indx).name = nm := by
  unfold DispObject.new; split <;> rfl

theorem DispObject_new_disp (ptr : DispInfo) (nm : String) (id : DISPID) (indx : LONG) :
    (DispObject.new ptr nm id indx).disp = ptr := by
  unfold DispObject.new; split <;> rfl

theorem construct_ok (E : Env) (A : Activation) (tr : Trace) (args : List Value) (options : Nat)
    (obj : DispObject)
    (h : DispObject.NodeCreateCallback.construct E A tr args options = some (.ok obj)) :
    ∃ disp name, obj = DispObject.new (DispInfo.new E.T tr disp name options none) name
        DISPID_UNKNOWN (-1) ∧
      (∀ id, args.head? = some (Value.object id) → name = "#") ∧
      (∀ s, args.head? = some (Value.string s) → name = s) := by
  unfold DispObject.NodeCreateCallback.construct at h
  simp only [] at h
  split at h
  · exact absurd h (by simp)
  · rename_i hrcode name disp hc
    split at h
    · exact absurd h (by simp)
    · simp only [Option.some.injEq, Except.ok.injEq] at h
      refine ⟨disp, name, h.symm, ?_, ?_⟩
      · intro id hid
        rw [hid] at hc
        simp at hc
        exact hc.2.1.symm
      · intro s hs
        rw [hs] at hc
        simp only [] at hc
        split at hc
        · simp at hc
          exact absurd (by rw [← hc.1]; decide) ‹¬FAILED hrcode = true›
        · split at hc
          · split at hc
            · exact absurd hc (by simp)
            · split at hc <;> simp at hc <;> exact hc.2.1.symm
          · simp at hc
            exact hc.2.1.symm

theorem getIdentity_root (obj : DispObject) (hp : obj.disp.parent = none)
    (hn : obj.disp.name = obj.name) : obj.getIdentity = obj.name := by
  unfold DispObject.getIdentity
  simp [hn, hp]

theorem NodeCreateCallback_ok (E : Env) (A : Activation) (tr : Trace) (isConstructCall : Bool)
    (args : List Value) (obj : DispObject)
    (h : DispObject.NodeCreateCallback E A tr isConstructCall args = some (.ok obj)) :
    obj.disp.parent = none ∧ obj.disp.name = obj.name ∧
      (∀ id, args.head? = some (Value.object id) → obj.name = "#") ∧
      (∀ s, args.head? = some (Value.string s) → obj.name = s) := by
  unfold DispObject.NodeCreateCallback at h
  split at h
  · exact absurd h (by simp)
  · rename_i hlen
    simp only [] at h
    have key : ∀ (a : List Value) (o : Nat), a.head? = args.head? →
        DispObject.NodeCreateCallback.construct E A tr a o = some (.ok obj) →
        obj.disp.parent = none ∧ obj.disp.name = obj.name ∧
          (∀ id, args.head? = some (Value.object id) → obj.name = "#") ∧
          (∀ s, args.head? = some (Value.string s) → obj.name = s) := by
      intro a o ha hc
      obtain ⟨disp, name, rfl, h1, h2⟩ := construct_ok E A tr a o obj hc
      rw [ha] at h1 h2
      simp only [DispObject_new_disp, DispObject_new_name, DispInfo_new_parent,
        DispInfo_new_name, true_and]
      exact ⟨h1, h2⟩
    split at h
    · split at h
      · rename_i o ho
        simp only [Option.some.injEq, Except.ok.injEq] at h
        subst h
        exact key _ _ (by simp [List.head?_take]) ho
      · exact absurd h (by simp)
    · exact key _ _ rfl h

theorem options_default_bits :
    (option_async ||| option_type) &&& option_type ≠ 0 ∧
      (option_async ||| option_type) &&& option_prepared = 0 := by decide

/-- The root resolver over a `DispObjectImpl` built with the default options has an empty member
cache and is not marked prepared. -/
theorem DispInfo_new_native (G : Trace → Handle → String → HRESULT × DISPID)
    (I : Trace → Handle → DISPID → Nat → DISPPARAMS → HRESULT × VARIANT)
    (U : Trace → DispInfo → Nat) (tr : Trace)
    (ptr : Option Handle) (nm : String) :
    DispInfo.new (DispObjectImpl.transport G I U) tr ptr nm (option_async ||| option_type) none =
      .detached { ptr := ptr, name := nm, options := option_async ||| option_type,
                  funcs_by_dispid := [] } := by
  have h1 : (option_async ||| option_type) &&& option_type ≠ 0 := by decide
  cases ptr with
  | none => simp [DispInfo.new, h1, DispInfo.Prepare, DispInfo.Enumerate]
  | some h =>
    simp [DispInfo.new, h1, DispInfo.Prepare, DispInfo.Enumerate, DispObjectImpl.transport,
      FAILED, S_OK]

theorem searchDispid_some (T : Transport) (tr : Trace) (self : DispObject) (tag : String)
    (h : Handle) (hptr : self.disp.ptr = some h) :
    self.searchDispid T tr (some tag) =
      some (tr ++ [Call.GetIDsOfNames h tag],
        if (T.GetIDsOfNames tr h tag).1 < 0 ∨ (T.GetIDsOfNames tr h tag).2 = DISPID_UNKNOWN then
          Search.thrown (.DispError
            (if (T.GetIDsOfNames tr h tag).1 < 0 then (T.GetIDsOfNames tr h tag).1
              else E_INVALIDARG) "DispPropertyFind" tag)
        else Search.found tag (T.GetIDsOfNames tr h tag).2) := by
  simp only [DispObject.searchDispid, FindProperty_some T tr self.disp tag h hptr]
  generalize (T.GetIDsOfNames tr h tag).1 = hr
  generalize (T.GetIDsOfNames tr h tag).2 = propid
  by_cases h1 : hr < 0
  · have h2 : ¬ (0 ≤ hr) := not_le.mpr h1
    simp [SUCCEEDED, FAILED, h1, h2]
  · have h2 : 0 ≤ hr := not_lt.mp h1
    by_cases h3 : propid = DISPID_UNKNOWN
    · simp [SUCCEEDED, FAILED, h1, h2, h3, E_INVALIDARG]
    · simp [SUCCEEDED, FAILED, h1, h2, h3]

theorem lazyPrepare_prepared (T : Transport) (tr : Trace) (self : DispObject)
    (h : self.is_prepared = true) : self.lazyPrepare T tr = some (tr, self) := by
  simp [DispObject.lazyPrepare, h]

theorem DispObject_new_unknown (ptr : DispInfo) (nm : String) (indx : LONG) :
    DispObject.new ptr nm DISPID_UNKNOWN indx =
      { options := ptr.options &&& option_mask ||| option_prepared, disp := ptr, name := nm,
        dispid := DISPID_VALUE, index := indx } := by
  simp [DispObject.new]

theorem DispObject_new_known (ptr : DispInfo) (nm : String) (id : DISPID) (indx : LONG)
    (h : id ≠ DISPID_UNKNOWN) :
    DispObject.new ptr nm id indx =
      { options := ptr.options &&& option_mask ||| option_owned, disp := ptr, name := nm,
        dispid := id, index := indx } := by
  simp [DispObject.new, h]

theorem IsProperty_unprepared (self : DispInfo) (dispid : DISPID)
    (h : self.options &&& option_prepared = 0) : self.IsProperty dispid = false := by
  simp [DispInfo.IsProperty, h]

theorem get_thrown (E : Env) (tr : Trace) (self : DispObject) (tag : Option String)
    (index : LONG) (tr0 tr1 : Trace) (self0 : DispObject) (e : Exception)
    (hl : self.lazyPrepare E.T tr = some (tr0, self0))
    (hs : self0.searchDispid E.T tr0 tag = some (tr1, Search.thrown e)) :
    self.get E tr tag index =
      some { trace := tr1, self := self0, ret := false, exception := some e, retval := none } := by
  simp [DispObject.get, hl, hs]

theorem get_found_not_property (E : Env) (tr : Trace) (self : DispObject) (tag : Option String)
    (index : LONG) (tr0 tr1 : Trace) (self0 : DispObject) (t : String) (p : DISPID)
    (hl : self.lazyPrepare E.T tr = some (tr0, self0))
    (hs : self0.searchDispid E.T tr0 tag = some (tr1, Search.found t p))
    (hnp : self0.disp.IsProperty p = false) :
    self.get E tr tag index =
      some { trace := tr1, self := self0, ret := true, exception := none,
             retval := some (DispObject.NodeCreate E self0.disp t p index) } := by
  simp [DispObject.get, hl, hs, hnp]

theorem get_found_property (E : Env) (tr : Trace) (self : DispObject) (tag : Option String)
    (index : LONG) (tr0 tr1 : Trace) (self0 : DispObject) (t : String) (p : DISPID) (h : Handle)
    (hl : self.lazyPrepare E.T tr = some (tr0, self0))
    (hs : self0.searchDispid E.T tr0 tag = some (tr1, Search.found t p))
    (hp : self0.disp.IsProperty p = true) (hptr : self0.disp.ptr = some h) :
    self.get E tr tag index =
      if (E.T.Invoke tr1 h p DISPATCH_PROPERTYGET (getParams index)).1 < 0 then
        some { trace := tr1 ++ [Call.Invoke h p DISPATCH_PROPERTYGET (getParams index)],
               self := self0, ret := false,
               exception := some (.DispError
                 (E.T.Invoke tr1 h p DISPATCH_PROPERTYGET (getParams index)).1
                 "DispPropertyGet" t),
               retval := none }
      else
        match VariantDispGet E.T
            (tr1 ++ [Call.Invoke h p DISPATCH_PROPERTYGET (getParams index)])
            (E.T.Invoke tr1 h p DISPATCH_PROPERTYGET (getParams index)).2 with
        | some ptr =>
          some { trace := tr1 ++ [Call.Invoke h p DISPATCH_PROPERTYGET (getParams index)],
                 self := self0, ret := true, exception := none,
                 retval := some (DispObject.NodeCreate E
                   (DispInfo.new E.T
                     (tr1 ++ [Call.Invoke h p DISPATCH_PROPERTYGET (getParams index)]) ptr t
                     self0.options (some self0.disp)) t DISPID_UNKNOWN (-1)) }
        | none =>
          some { trace := tr1 ++ [Call.Invoke h p DISPATCH_PROPERTYGET (getParams index)],
                 self := self0, ret := true, exception := none,
                 retval := some (.decoded
                   (E.T.Invoke tr1 h p DISPATCH_PROPERTYGET (getParams index)).2) } := by
  simp only [DispObject.get, hl, hs, hp, if_true]
  rw [GetProperty_some E.T tr1 self0.disp p index h hptr]
  simp only [getParams]
  by_cases hf : (E.T.Invoke tr1 h p DISPATCH_PROPERTYGET
      { rgvarg := if index ≥ 0 then [CComVariant.ofLONG index] else [],
        rgdispidNamedArgs := [] }).1 < 0
  · simp [FAILED, hf]
  · simp [FAILED, hf]

theorem DispInfo_new_unprepared (T : Transport) (tr : Trace) (disp : Option Handle)
    (nm : String) (opt : Nat) (parnt : Option DispInfo) (hopt : opt &&& option_prepared = 0)
    (hlen : (DispInfo.new T tr disp nm opt parnt).funcs_by_dispid.length < 4) :
    (DispInfo.new T tr disp nm opt parnt).options &&& option_prepared = 0 := by
  unfold DispInfo.new at hlen ⊢
  simp only [] at hlen ⊢
  by_cases ht : opt &&& option_type ≠ 0
  · simp only [ht, if_true, ne_eq, not_false_eq_true] at hlen ⊢
    cases parnt <;>
      simp only [DispInfo.funcs_by_dispid, DispInfo.options, DispInfo.data,
        DispInfo.Prepare] at hlen ⊢ <;>
      rw [if_neg (by simp only [decide_eq_true_eq]; omega)] <;> exact hopt
  · simp only [ht, if_false] at hlen ⊢
    cases parnt <;> exact hopt

theorem kind_property_iff (k : Nat) :
    k &&& (INVOKE_PROPERTYGET ||| INVOKE_FUNC) = INVOKE_PROPERTYGET ↔
      k &&& INVOKE_PROPERTYGET ≠ 0 ∧ k &&& INVOKE_FUNC = 0 := by
  have h3 : k &&& (INVOKE_PROPERTYGET ||| INVOKE_FUNC) = k % 4 :=
    Nat.and_pow_two_sub_one_eq_mod k 2
  have h1 : k &&& INVOKE_FUNC = k % 2 := Nat.and_one_is_mod k
  have h2 : k &&& INVOKE_PROPERTYGET = (k.testBit 1).toNat * 2 := Nat.and_two_pow k 1
  have h2b : k.testBit 1 = decide (k / 2 % 2 = 1) := by
    simp only [Nat.testBit, Nat.shiftRight_eq_div_pow, Nat.and_one_is_mod, pow_one]
    by_cases hb : k / 2 % 2 = 1
    · simp [hb]
    · have : k / 2 % 2 = 0 := by omega
      simp [this]
  rw [h3, h1, h2, h2b]
  simp only [INVOKE_PROPERTYGET]
  by_cases hb : k / 2 % 2 = 1
  · simp [hb]; omega
  · simp [hb]; omega

theorem set_thrown (E : Env) (tr : Trace) (self : DispObject) (tag : Option String)
    (index : LONG) (value : Value) (tr0 tr1 : Trace) (self0 : DispObject) (e : Exception)
    (hl : self.lazyPrepare E.T tr = some (tr0, self0))
    (hs : self0.searchDispid E.T tr0 tag = some (tr1, Search.thrown e)) :
    self.set E tr tag index value =
      some { trace := tr1, self := self0, ret := false, exception := some e, retval := none } := by
  simp [DispObject.set, hl, hs]

theorem set_found (E : Env) (tr : Trace) (self : DispObject) (tag : Option String)
    (index : LONG) (value : Value) (tr0 tr1 : Trace) (self0 : DispObject) (t : String)
    (p : DISPID) (h : Handle)
    (hl : self.lazyPrepare E.T tr = some (tr0, self0))
    (hs : self0.searchDispid E.T tr0 tag = some (tr1, Search.found t p))
    (hptr : self0.disp.ptr = some h) :
    self.set E tr tag index value =
      if (E.T.Invoke tr1 h p DISPATCH_PROPERTYPUT (putParams E.Value2Variant value index)).1 < 0
      then
        some { trace := tr1 ++ [Call.Invoke h p DISPATCH_PROPERTYPUT
                 (putParams E.Value2Variant value index)],
               self := self0, ret := false,
               exception := some (.DispError
                 (E.T.Invoke tr1 h p DISPATCH_PROPERTYPUT
                   (putParams E.Value2Variant value index)).1
                 "DispPropertyPut" t),
               retval := none }
      else
        match VariantDispGet E.T
            (tr1 ++ [Call.Invoke h p DISPATCH_PROPERTYPUT
              (putParams E.Value2Variant value index)])
            (E.T.Invoke tr1 h p DISPATCH_PROPERTYPUT
              (putParams E.Value2Variant value index)).2 with
        | some ptr =>
          some { trace := tr1 ++ [Call.Invoke h p DISPATCH_PROPERTYPUT
                   (putParams E.Value2Variant value index)],
                 self := self0, ret := true, exception := none,
                 retval := some (DispObject.NodeCreate E
                   (DispInfo.new E.T
                     (tr1 ++ [Call.Invoke h p DISPATCH_PROPERTYPUT
                       (putParams E.Value2Variant value index)]) ptr t
                     self0.options (some self0.disp)) ("@" ++ t) DISPID_UNKNOWN (-1)) }
        | none =>
          some { trace := tr1 ++ [Call.Invoke h p DISPATCH_PROPERTYPUT
                   (putParams E.Value2Variant value index)],
                 self := self0, ret := true, exception := none,
                 retval := some (.decoded
                   (E.T.Invoke tr1 h p DISPATCH_PROPERTYPUT
                     (putParams E.Value2Variant value index)).2) } := by
  simp only [DispObject.set, hl, hs]
  rw [show (if index ≥ 0 then VarArguments.ofValue E.Value2Variant value ++
      [CComVariant.ofLONG index] else VarArguments.ofValue E.Value2Variant value) =
      putArgs E.Value2Variant value index from rfl]
  rw [SetProperty_some E.T tr1 self0.disp p _ h hptr]
  simp only [putParams]
  by_cases hf : (E.T.Invoke tr1 h p DISPATCH_PROPERTYPUT
      { rgvarg := putArgs E.Value2Variant value index,
        rgdispidNamedArgs := [DISPID_PROPERTYPUT] }).1 < 0
  · simp [FAILED, hf]
  · simp [FAILED, hf]

theorem searchDispid_of_Resolves (T : Transport) (tr : Trace) (self : DispObject)
    (tag : Option String) (p : DISPID) (hres : self.Resolves T tr tag p) :
    self.searchDispid T tr tag =
      some (self.searchTrace tr tag, Search.found (self.tagName tag) p) := by
  cases tag with
  | none =>
    simp only [DispObject.Resolves] at hres
    simp [DispObject.searchDispid, DispObject.searchTrace, DispObject.tagName, hres]
  | some t =>
    obtain ⟨h, hptr, hok, hp, hne⟩ := hres
    rw [searchDispid_some T tr self t h hptr]
    have h1 : ¬ ((T.GetIDsOfNames tr h t).1 < 0 ∨ (T.GetIDsOfNames tr h t).2 = DISPID_UNKNOWN) := by
      rw [hp]
      simp only [SUCCEEDED, decide_eq_true_eq] at hok
      rintro (h | h)
      · exact absurd hok (not_le.mpr h)
      · exact hne h
    rw [if_neg h1, hp]
    simp [DispObject.searchTrace, DispObject.tagName, hptr]

theorem invocations_searchTrace (tr : Trace) (self : DispObject) (tag : Option String) :
    invocations (self.searchTrace tr tag) = invocations tr := by
  unfold DispObject.searchTrace
  split <;> simp [invocations, List.filter_append]

theorem owned_bits (o : Nat) :
    (o &&& option_mask ||| option_owned) &&& option_prepared = 0 ∧
      (o &&& option_mask ||| option_owned) &&& option_owned ≠ 0 := by
  have hm : o &&& option_mask = o % 16 := Nat.and_pow_two_sub_one_eq_mod o 4
  rw [hm]
  have hlt : o % 16 < 16 := Nat.mod_lt _ (by decide)
  generalize o % 16 = m at hlt
  interval_cases m <;> decide

theorem get_one_lookup (E : Env) (tr : Trace) (self : DispObject) (tag : String) (index : LONG)
    (h : Handle) (hprep : self.is_prepared = true) (hptr : self.disp.ptr = some h) :
    ∃ c, self.get E tr (some tag) index = some c ∧ lookups c.trace = lookups tr + 1 := by
  have hl := lazyPrepare_prepared E.T tr self hprep
  have hs := searchDispid_some E.T tr self tag h hptr
  have h1 : lookups (tr ++ [Call.GetIDsOfNames h tag]) = lookups tr + 1 := by
    rw [lookups_append, lookups_lookup]
  have h2 : ∀ (d : DISPID) (f : Nat) (p : DISPPARAMS),
      lookups (tr ++ [Call.GetIDsOfNames h tag] ++ [Call.Invoke h d f p]) = lookups tr + 1 := by
    intro d f p
    rw [lookups_append, lookups_invoke, h1]
  split at hs
  · rw [get_thrown E tr self (some tag) index tr _ self _ hl hs]
    exact ⟨_, rfl, h1⟩
  · by_cases hp : self.disp.IsProperty (E.T.GetIDsOfNames tr h tag).2 = true
    · rw [get_found_property E tr self (some tag) index tr _ self tag _ h hl hs hp hptr]
      split
      · exact ⟨_, rfl, h2 _ _ _⟩
      · split <;> exact ⟨_, rfl, h2 _ _ _⟩
    · rw [get_found_not_property E tr self (some tag) index tr _ self tag _ hl hs
        (by simpa using hp)]
      exact ⟨_, rfl, h1⟩

theorem set_one_lookup (E : Env) (tr : Trace) (self : DispObject) (tag : String) (index : LONG)
    (value : Value) (h : Handle) (hprep : self.is_prepared = true)
    (hptr : self.disp.ptr = some h) :
    ∃ c, self.set E tr (some tag) index value = some c ∧ lookups c.trace = lookups tr + 1 := by
  have hl := lazyPrepare_prepared E.T tr self hprep
  have hs := searchDispid_some E.T tr self tag h hptr
  have h1 : lookups (tr ++ [Call.GetIDsOfNames h tag]) = lookups tr + 1 := by
    rw [lookups_append, lookups_lookup]
  have h2 : ∀ (d : DISPID) (f : Nat) (p : DISPPARAMS),
      lookups (tr ++ [Call.GetIDsOfNames h tag] ++ [Call.Invoke h d f p]) = lookups tr + 1 := by
    intro d f p
    rw [lookups_append, lookups_invoke, h1]
  split at hs
  · rw [set_thrown E tr self (some tag) index value tr _ self _ hl hs]
    exact ⟨_, rfl, h1⟩
  · rw [set_found E tr self (some tag) index value tr _ self tag _ h hl hs hptr]
    split
    · exact ⟨_, rfl, h2 _ _ _⟩
    · split <;> exact ⟨_, rfl, h2 _ _ _⟩

/-! ### C1: name resolution is not cached -/

/-- C1, as stated, fails: on the root resolver of the sample tree, resolving the name `A` twice
issues two `GetIDsOfNames` calls, not at most one. -/
theorem FindProperty_twice_two_lookups :
    (DispInfo.FindPropertyTwice sampleTransport [] sampleRoot.disp "A").map
        (fun r => (r.1, lookups r.1, decide (lookups r.1 ≤ 1))) =
      some ([Call.GetIDsOfNames 1 "A", Call.GetIDsOfNames 1 "A"], 2, false) := by
  decide

/-- C1, amended: every resolution `DispInfo::FindProperty` issues exactly one `GetIDsOfNames`
call on the handle of the resolver and returns the answer of the transport to that call; nothing
is cached, so resolving the same name twice issues two lookup calls, the second answered by the
transport anew.  Accordingly every `get` and every `set` of a tag on a prepared proxy of the
resolver issues exactly one lookup call. -/
theorem FindProperty_one_lookup_each (T : Transport) (tr : Trace) (self : DispInfo)
    (name : String) (h : Handle) (hptr : self.ptr = some h) :
    self.FindProperty T tr name =
        some (tr ++ [Call.GetIDsOfNames h name], (T.GetIDsOfNames tr h name).1,
          (T.GetIDsOfNames tr h name).2) ∧
      self.FindPropertyTwice T tr name =
        some (tr ++ [Call.GetIDsOfNames h name] ++ [Call.GetIDsOfNames h name],
          T.GetIDsOfNames tr h name,
          T.GetIDsOfNames (tr ++ [Call.GetIDsOfNames h name]) h name) ∧
      lookups (tr ++ [Call.GetIDsOfNames h name] ++ [Call.GetIDsOfNames h name]) =
        lookups tr + 2 ∧
      (∀ (E : Env) (t : Trace) (proxy : DispObject) (index : LONG) (value : Value),
        proxy.disp = self → proxy.is_prepared = true →
          (∃ c, proxy.get E t (some name) index = some c ∧ lookups c.trace = lookups t + 1) ∧
            ∃ c, proxy.set E t (some name) index value = some c ∧
              lookups c.trace = lookups t + 1) := by
  refine ⟨?_, ?_, ?_, ?_⟩
  · simp [DispInfo.FindProperty, hptr, DispFind_some]
  · simp [DispInfo.FindPropertyTwice, DispInfo.FindProperty, hptr, DispFind_some]
  · simp [lookups_append, lookups_lookup]
    rfl
  · intro E t proxy index value hd hprep
    have hp : proxy.disp.ptr = some h := by rw [hd]; exact hptr
    exact ⟨get_one_lookup E t proxy name index h hprep hp,
      set_one_lookup E t proxy name index value h hprep hp⟩

/-- C1, amended, at the root resolver of the sample tree. -/
theorem FindProperty_one_lookup_each_witness :
    sampleRoot.disp.ptr = some 1 ∧
      sampleRoot.disp.FindPropertyTwice sampleTransport [] "A" =
        some ([Call.GetIDsOfNames 1 "A", Call.GetIDsOfNames 1 "A"], (S_OK, 10), (S_OK, 10)) :=
  ⟨by decide,
    (FindProperty_one_lookup_each sampleTransport [] sampleRoot.disp "A" 1
      (by decide)).2.1.trans (by decide)⟩

/-! ### C2: argument order of a call -/

/-- C2: for every argument list given to `DispObject::call`, the encoded list has the length of
the argument list, its position `i` holds the encoding of argument `n - 1 - i` (it is the
reversed list of encodings), and `call` hands it over unchanged in exactly one `Invoke`, a method
invocation on the member-id the proxy is bound to. -/
theorem call_passes_reversed_arguments (E : Env) (tr : Trace) (self : DispObject)
    (args : List Value) (h : Handle) (hptr : self.disp.ptr = some h) :
    (VarArguments.ofArgs E.Value2Variant args).length = args.length ∧
      (∀ i, i < args.length →
        (VarArguments.ofArgs E.Value2Variant args).get? i =
          (args.get? (args.length - 1 - i)).map E.Value2Variant) ∧
      VarArguments.ofArgs E.Value2Variant args = (args.map E.Value2Variant).reverse ∧
      ∃ c, self.call E tr args = some c ∧
        c.trace = tr ++ [Call.Invoke h self.dispid DISPATCH_METHOD
          { rgvarg := VarArguments.ofArgs E.Value2Variant args, rgdispidNamedArgs := [] }] ∧
        invocations c.trace = invocations tr ++ [Call.Invoke h self.dispid DISPATCH_METHOD
          { rgvarg := VarArguments.ofArgs E.Value2Variant args, rgdispidNamedArgs := [] }] := by
  have hrev := VarArguments_ofArgs_eq E.Value2Variant args
  refine ⟨by simp [hrev], ?_, hrev, ?_⟩
  · intro i hi
    rw [hrev]
    simp only [List.get?_eq_getElem?]
    rw [List.getElem?_reverse (by simpa using hi)]
    simp
  · simp only [DispObject.call]
    rw [ExecuteMethod_some E.T tr self.disp self.dispid _ h hptr]
    simp only []
    split
    · exact ⟨_, rfl, rfl, by simp [invocations, List.filter_append]⟩
    · split
      · exact ⟨_, rfl, rfl, by simp [invocations, List.filter_append]⟩
      · exact ⟨_, rfl, rfl, by simp [invocations, List.filter_append]⟩

/-- C2 at the proxy `root.M` of the sample tree and the arguments 1, 2, 3: they arrive as
3, 2, 1 in one method invocation on member-id 11. -/
theorem call_passes_reversed_arguments_witness :
    sampleM.disp.ptr = some 1 ∧
      VarArguments.ofArgs sampleEnv.Value2Variant [Value.int 1, Value.int 2, Value.int 3] =
        [CComVariant.ofLONG 3, CComVariant.ofLONG 2, CComVariant.ofLONG 1] ∧
      (sampleM.call sampleEnv [] [Value.int 1, Value.int 2, Value.int 3]).map
          (fun c => c.trace) =
        some [Call.Invoke 1 11 DISPATCH_METHOD
          { rgvarg := [CComVariant.ofLONG 3, CComVariant.ofLONG 2, CComVariant.ofLONG 1],
            rgdispidNamedArgs := [] }] :=
  ⟨by decide,
    (call_passes_reversed_arguments sampleEnv [] sampleM
      [Value.int 1, Value.int 2, Value.int 3] 1 (by decide)).2.2.1.trans (by decide),
    by decide⟩

/-! ### C3: the identity path -/

/-- C3: for every chain of resolvers in which each one's parent is the previous one, and a proxy
bound to the last resolver under the same display name, `DispObject::getIdentity` returns the
names of the chain joined with dots, the root first; a root proxy reports its own name, which is
`#` for an instance constructed from a native object and the class identifier for an instance
constructed from a class identifier. -/
theorem getIdentity_reports_path (self : DispObject) (hname : self.disp.name = self.name) :
    self.getIdentity = ".".intercalate self.disp.path ∧
      (self.disp.parent = none → self.getIdentity = self.name) ∧
      (∀ (E : Env) (A : Activation) (tr : Trace) (isConstructCall : Bool) (args : List Value)
          (root : DispObject),
        DispObject.NodeCreateCallback E A tr isConstructCall args = some (.ok root) →
          root.disp.parent = none ∧ root.disp.name = root.name ∧
            (∀ id, args.head? = some (Value.object id) → root.getIdentity = "#") ∧
            (∀ s, args.head? = some (Value.string s) → root.getIdentity = s)) := by
  refine ⟨getIdentity_path self hname, fun hp => getIdentity_root self hp hname, ?_⟩
  intro E A tr isC args root h
  obtain ⟨h1, h2, h3, h4⟩ := NodeCreateCallback_ok E A tr isC args root h
  refine ⟨h1, h2, ?_, ?_⟩
  · intro id hid; rw [getIdentity_root root h1 h2]; exact h3 id hid
  · intro s hs; rw [getIdentity_root root h1 h2]; exact h4 s hs

/-- C3 at the leaf of the sample tree `root`, `A`, `B`, and at the two kinds of root. -/
theorem getIdentity_reports_path_witness :
    sampleB.disp.name = sampleB.name ∧ sampleB.disp.path = ["root", "A", "B"] ∧
      sampleB.getIdentity = "root.A.B" ∧ scenarioRoot.getIdentity = "#" ∧
      sampleRoot.getIdentity = "root" :=
  ⟨by decide, by decide,
    (getIdentity_reports_path sampleB (by decide)).1.trans (by decide),
    (getIdentity_reports_path scenarioRoot (by decide)).2.1 (by decide),
    ((getIdentity_reports_path sampleB (by decide)).2.2 sampleEnv sampleActivation [] true
      [Value.string "root"] sampleRoot rfl).2.2.2 "root" (by decide)⟩

/-! ### C4: a named get on an instance over a native object -/

/-- C4, as stated, fails: on the root instance constructed from the native object with property
`Count` = 5 and method `Add`, with default options, the named get of `Count` sets as return value
a new proxy bound to member-id 1 of the root resolver, not the decoded integer 5, and issues no
`Invoke`; the integer 5 comes only from reading the value of that proxy. -/
theorem native_get_Count_is_proxy :
    DispObject.NodeCreateCallback scenarioEnv scenarioActivation [] true [Value.object 7] =
        some (.ok scenarioRoot) ∧
      scenarioRoot.get scenarioEnv [] (some "Count") (-1) =
        some { trace := [Call.GetIDsOfNames 7 "Count"], self := scenarioRoot, ret := true,
               exception := none,
               retval := some (.proxy { options := 35, disp := scenarioResolver, name := "Count",
                                        dispid := 1, index := -1 }) } ∧
      (scenarioRoot.get scenarioEnv [] (some "Count") (-1)).map (fun c => c.retval) ≠
        some (some (.decoded (CComVariant.ofLONG 5))) ∧
      (DispObject.valueOf scenarioEnv.T [Call.GetIDsOfNames 7 "Count"]
          { options := 35, disp := scenarioResolver, name := "Count", dispid := 1,
            index := -1 }).map (fun r => r.2.2.2) =
        some (some (.decoded (CComVariant.ofLONG 5))) := by
  refine ⟨rfl, by decide, by decide, by decide⟩

/-- C4, amended: for a root instance constructed from a native object with default options
(whatever the adapter answers to name lookups and invocations), the named get of a tag issues the
name lookup and no `Invoke`, and never sets a decoded value as return value; when the lookup
succeeds with a member-id other than the unknown-id sentinel, `get` returns true and sets as
return value a new proxy that shares the root resolver, is bound to that member-id and the given
index, carries the tag as name, and is owned and not prepared. -/
theorem native_get_returns_proxy (G : Trace → Handle → String → HRESULT × DISPID)
    (I : Trace → Handle → DISPID → Nat → DISPPARAMS → HRESULT × VARIANT)
    (U : Trace → DispInfo → Nat) (enc : Value → VARIANT) (A : Activation) (tr : Trace)
    (obj : Nat) (tag : String)
    (index : LONG) :
    ∃ root,
      DispObject.NodeCreateCallback
          { T := DispObjectImpl.transport G I U, Value2Variant := enc, inst_template := true }
          A tr true [Value.object obj] = some (.ok root) ∧
        root.getIdentity = "#" ∧
        ∃ c,
          root.get
              { T := DispObjectImpl.transport G I U, Value2Variant := enc, inst_template := true }
              tr (some tag) index = some c ∧
            c.trace = tr ++ [Call.GetIDsOfNames (A.DispObjectImpl obj) tag] ∧
            (∀ v, c.retval ≠ some (.decoded v)) ∧
            (0 ≤ (G tr (A.DispObjectImpl obj) tag).1 →
              (G tr (A.DispObjectImpl obj) tag).2 ≠ DISPID_UNKNOWN →
                c.ret = true ∧
                  c.retval = some (.proxy
                    { options := option_async ||| option_type ||| option_owned,
                      disp := root.disp, name := tag,
                      dispid := (G tr (A.DispObjectImpl obj) tag).2, index := index })) := by
  refine ⟨DispObject.new
      (.detached
        { ptr := some (A.DispObjectImpl obj), name := "#", funcs_by_dispid := [],
          options := option_async ||| option_type })
      "#" DISPID_UNKNOWN (-1), ?_, rfl, ?_⟩
  · simp [DispObject.NodeCreateCallback, DispObject.NodeCreateCallback.options,
      DispObject.NodeCreateCallback.construct, FAILED, S_OK, DispInfo_new_native]
  · rw [DispObject_new_unknown]
    have hprep : ∀ (d : DispData), d.options = option_async ||| option_type →
        DispObject.is_prepared
          { options := (DispInfo.detached d).options &&& option_mask ||| option_prepared,
            disp := DispInfo.detached d, name := "#", dispid := DISPID_VALUE, index := -1 }
          = true := by
      intro d hd
      simp only [DispObject.is_prepared, DispInfo.options, DispInfo.data, hd]
      decide
    generalize hroot :
      ({ options :=
           (DispInfo.detached
             { ptr := some (A.DispObjectImpl obj), name := "#", funcs_by_dispid := [],
               options := option_async ||| option_type }).options &&& option_mask |||
             option_prepared,
         disp :=
           DispInfo.detached
             { ptr := some (A.DispObjectImpl obj), name := "#", funcs_by_dispid := [],
               options := option_async ||| option_type },
         name := "#", dispid := DISPID_VALUE, index := -1 } : DispObject) = root
    have hrp : root.is_prepared = true := by rw [← hroot]; exact hprep _ rfl
    have hptr : root.disp.ptr = some (A.DispObjectImpl obj) := by rw [← hroot]; rfl
    have hl := lazyPrepare_prepared (DispObjectImpl.transport G I U) tr root hrp
    have hs := searchDispid_some (DispObjectImpl.transport G I U) tr root tag _ hptr
    have hunp : root.disp.options &&& option_prepared = 0 := by
      rw [← hroot]
      simp only [DispInfo.options, DispInfo.data]
      decide
    have hopt : root.disp.options &&& option_mask ||| option_owned =
        option_async ||| option_type ||| option_owned := by
      rw [← hroot]
      simp only [DispInfo.options, DispInfo.data]
      decide
    have hG : (DispObjectImpl.transport G I U).GetIDsOfNames = G := rfl
    rw [hG] at hs
    generalize (G tr (A.DispObjectImpl obj) tag).1 = hr at hs ⊢
    generalize (G tr (A.DispObjectImpl obj) tag).2 = propid at hs ⊢
    by_cases hth : hr < 0 ∨ propid = DISPID_UNKNOWN
    · rw [if_pos hth] at hs
      rw [get_thrown _ tr root (some tag) index tr _ root _ hl hs]
      refine ⟨_, rfl, rfl, by simp, ?_⟩
      intro h1 h2
      rcases hth with h | h
      · exact absurd h1 (not_le.mpr h)
      · exact absurd h h2
    · rw [if_neg hth] at hs
      rw [get_found_not_property _ tr root (some tag) index tr _ root tag propid hl hs
        (IsProperty_unprepared _ _ hunp)]
      refine ⟨_, rfl, rfl, ?_, ?_⟩
      · simp [DispObject.NodeCreate]
      · intro _ h2
        simp only [DispObject.NodeCreate, DispObject_new_known _ _ _ _ h2, if_true, hopt,
          true_and]

/-! ### C5: the prepared flag of child resolvers -/

/-- C5, evaluated on the sample tree: the child resolver that `get` constructs for the object
returned by the property `A` enumerates one member-id on its handle, fewer than 4, and still
answers `IsProperty(7) = true`, because it was constructed with the option bits of the proxy,
`option_prepared` among them.  Constructed with the bits under `option_mask` the same resolver
answers false; and for every resolver constructed without `option_prepared` (the root resolvers),
fewer than 4 enumerated member-ids make `IsProperty` false for every member-id. -/
theorem child_resolver_inherits_prepared :
    (sampleRoot.get sampleEnv [] (some "A") (-1)).map (fun c => c.retval) =
        some (some (.proxy sampleA)) ∧
      sampleA.disp =
        DispInfo.new sampleTransport
          [Call.GetIDsOfNames 1 "A", Call.Invoke 1 10 DISPATCH_PROPERTYGET (getParams (-1))]
          (some 2) "A" sampleRoot.options (some sampleRoot.disp) ∧
      sampleRoot.options &&& option_prepared ≠ 0 ∧
      sampleA.disp.funcs_by_dispid.length = 1 ∧
      sampleA.disp.IsProperty 7 = true ∧
      (DispInfo.new sampleTransport
          [Call.GetIDsOfNames 1 "A", Call.Invoke 1 10 DISPATCH_PROPERTYGET (getParams (-1))]
          (some 2) "A" (sampleRoot.options &&& option_mask) (some sampleRoot.disp)).IsProperty 7 =
        false ∧
      (∀ (T : Transport) (tr : Trace) (disp : Option Handle) (nm : String) (opt : Nat)
          (parnt : Option DispInfo) (d : DISPID),
        opt &&& option_prepared = 0 →
          (DispInfo.new T tr disp nm opt parnt).funcs_by_dispid.length < 4 →
            (DispInfo.new T tr disp nm opt parnt).IsProperty d = false) := by
  refine ⟨by decide, by decide, by decide, by decide, by decide, by decide, ?_⟩
  intro T tr disp nm opt parnt d hopt hlen
  exact IsProperty_unprepared _ _ (DispInfo_new_unprepared T tr disp nm opt parnt hopt hlen)

/-! ### C6: classification of a member-id -/

/-- C6: on a resolver marked prepared, `IsProperty(d)` is true exactly when `d` is in the member
cache and its merged kind includes property-get and does not include plain method; on a resolver
not marked prepared, `IsProperty(d)` is false for every `d`. -/
theorem IsProperty_iff (self : DispInfo) (d : DISPID) :
    (self.options &&& option_prepared ≠ 0 →
        (self.IsProperty d = true ↔
          ∃ f, self.funcs_by_dispid.lookup d = some f ∧
            f.kind &&& INVOKE_PROPERTYGET ≠ 0 ∧ f.kind &&& INVOKE_FUNC = 0)) ∧
      (self.options &&& option_prepared = 0 → self.IsProperty d = false) := by
  refine ⟨fun hp => ?_, fun hp => by simp [DispInfo.IsProperty, hp]⟩
  unfold DispInfo.IsProperty
  rw [if_neg hp]
  cases hl : self.funcs_by_dispid.lookup d with
  | none => simp
  | some f => simp [kind_property_iff]

/-- C6 on the root resolver of the sample tree: member 12 (get and put) is a property, member 13
(get and method) is not, and an id that is not in the cache is not. -/
theorem IsProperty_iff_witness :
    sampleRoot.disp.options &&& option_prepared ≠ 0 ∧
      sampleRoot.disp.funcs_by_dispid.lookup 12 = some { dispid := 12, kind := 6 } ∧
      sampleRoot.disp.IsProperty 12 = true ∧
      sampleRoot.disp.funcs_by_dispid.lookup 13 = some { dispid := 13, kind := 3 } ∧
      sampleRoot.disp.IsProperty 13 = false ∧
      sampleRoot.disp.funcs_by_dispid.lookup 99 = none ∧
      sampleRoot.disp.IsProperty 99 = false ∧
      scenarioResolver.IsProperty 1 = false :=
  ⟨by decide, by decide,
    ((IsProperty_iff sampleRoot.disp 12).1 (by decide)).2
      ⟨{ dispid := 12, kind := 6 }, by decide, by decide, by decide⟩,
    by decide, by decide, by decide, by decide,
    (IsProperty_iff scenarioResolver 1).2 (by decide)⟩

/-! ### C7: the resolution error of `get` and `set` -/

/-- C7: for every proxy and every non-null tag, once the opening `prepare` (if any) is done and
the resolver has a handle, `get` and `set` complete, and each throws the resolution error
(`DispError` with operation name `DispPropertyFind` and the tag) and returns false exactly when
the name lookup fails or succeeds with the unknown-id sentinel; in that case the lookup is the
last foreign call of the operation (no property-get, no property-put), no return value is set (no
proxy is created), and the code carried is the failure code of the lookup, or `E_INVALIDARG` for
the sentinel. -/
theorem get_set_resolution_error (E : Env) (tr : Trace) (self : DispObject) (tag : String)
    (index : LONG) (value : Value) (tr0 : Trace) (self0 : DispObject) (h : Handle)
    (hl : self.lazyPrepare E.T tr = some (tr0, self0)) (hptr : self0.disp.ptr = some h) :
    (∃ c, self.get E tr (some tag) index = some c ∧
        ((c.ret = false ∧ ∃ hr, c.exception = some (.DispError hr "DispPropertyFind" tag)) ↔
          (FAILED (E.T.GetIDsOfNames tr0 h tag).1 = true ∨
            (E.T.GetIDsOfNames tr0 h tag).2 = DISPID_UNKNOWN)) ∧
        (FAILED (E.T.GetIDsOfNames tr0 h tag).1 = true ∨
            (E.T.GetIDsOfNames tr0 h tag).2 = DISPID_UNKNOWN →
          c = { trace := tr0 ++ [Call.GetIDsOfNames h tag], self := self0, ret := false,
                exception := some (.DispError
                  (if FAILED (E.T.GetIDsOfNames tr0 h tag).1 then (E.T.GetIDsOfNames tr0 h tag).1
                    else E_INVALIDARG) "DispPropertyFind" tag),
                retval := none })) ∧
      (∃ c, self.set E tr (some tag) index value = some c ∧
        ((c.ret = false ∧ ∃ hr, c.exception = some (.DispError hr "DispPropertyFind" tag)) ↔
          (FAILED (E.T.GetIDsOfNames tr0 h tag).1 = true ∨
            (E.T.GetIDsOfNames tr0 h tag).2 = DISPID_UNKNOWN)) ∧
        (FAILED (E.T.GetIDsOfNames tr0 h tag).1 = true ∨
            (E.T.GetIDsOfNames tr0 h tag).2 = DISPID_UNKNOWN →
          c = { trace := tr0 ++ [Call.GetIDsOfNames h tag], self := self0, ret := false,
                exception := some (.DispError
                  (if FAILED (E.T.GetIDsOfNames tr0 h tag).1 then (E.T.GetIDsOfNames tr0 h tag).1
                    else E_INVALIDARG) "DispPropertyFind" tag),
                retval := none })) := by
  have hs := searchDispid_some E.T tr0 self0 tag h hptr
  have hF : FAILED (E.T.GetIDsOfNames tr0 h tag).1 = true ↔ (E.T.GetIDsOfNames tr0 h tag).1 < 0 := by
    simp [FAILED]
  simp only [hF, FAILED, decide_eq_true_eq]
  generalize (E.T.GetIDsOfNames tr0 h tag).1 = hr at hs ⊢
  generalize (E.T.GetIDsOfNames tr0 h tag).2 = propid at hs ⊢
  by_cases hth : hr < 0 ∨ propid = DISPID_UNKNOWN
  · rw [if_pos hth] at hs
    rw [get_thrown E tr self (some tag) index tr0 _ self0 _ hl hs,
      set_thrown E tr self (some tag) index value tr0 _ self0 _ hl hs]
    exact ⟨⟨_, rfl, ⟨fun _ => hth, fun _ => ⟨rfl, _, rfl⟩⟩, fun _ => rfl⟩,
      ⟨_, rfl, ⟨fun _ => hth, fun _ => ⟨rfl, _, rfl⟩⟩, fun _ => rfl⟩⟩
  · rw [if_neg hth] at hs
    constructor
    · by_cases hp : self0.disp.IsProperty propid = true
      · rw [get_found_property E tr self (some tag) index tr0 _ self0 tag propid h hl hs hp hptr]
        split
        · exact ⟨_, rfl, ⟨fun hc => by simp at hc, fun hc => absurd hc hth⟩,
            fun hc => absurd hc hth⟩
        · split <;>
            exact ⟨_, rfl, ⟨fun hc => by simp at hc, fun hc => absurd hc hth⟩,
              fun hc => absurd hc hth⟩
      · rw [get_found_not_property E tr self (some tag) index tr0 _ self0 tag propid hl hs
          (by simpa using hp)]
        exact ⟨_, rfl, ⟨fun hc => by simp at hc, fun hc => absurd hc hth⟩,
          fun hc => absurd hc hth⟩
    · rw [set_found E tr self (some tag) index value tr0 _ self0 tag propid h hl hs hptr]
      split
      · exact ⟨_, rfl, ⟨fun hc => by simp at hc, fun hc => absurd hc hth⟩,
          fun hc => absurd hc hth⟩
      · split <;>
          exact ⟨_, rfl, ⟨fun hc => by simp at hc, fun hc => absurd hc hth⟩,
            fun hc => absurd hc hth⟩

/-- C7 at the root proxy of the sample tree: the name `Missing` is unknown to the object, so
`get` returns false with the resolution error. -/
theorem get_set_resolution_error_witness :
    sampleRoot.lazyPrepare sampleEnv.T [] = some ([], sampleRoot) ∧
      sampleRoot.disp.ptr = some 1 ∧
      ∃ c, sampleRoot.get sampleEnv [] (some "Missing") (-1) = some c ∧ c.ret = false ∧
        c.retval = none ∧ c.trace = [Call.GetIDsOfNames 1 "Missing"] :=
  ⟨by decide, by decide,
    match (get_set_resolution_error sampleEnv [] sampleRoot "Missing" (-1) Value.undefined []
      sampleRoot 1 (by decide) (by decide)).1 with
    | ⟨c, hc, _, hthrown⟩ =>
      ⟨c, hc, by rw [hthrown (Or.inl (by decide))], by rw [hthrown (Or.inl (by decide))],
        by rw [hthrown (Or.inl (by decide))]; rfl⟩⟩

/-! ### C8: a member that is not a property -/

/-- C8: for every prepared proxy and every tag that resolves to a member-id `p` not classified
as a property, `get` issues no `Invoke` and returns true with a new proxy as return value; the new
proxy shares the resolver of the proxy, has the requested index and the tag as name, and, whenever
`p` is not the unknown-id sentinel (always so for a tag that is not null), is bound to `p`, is not
prepared and is marked owned.  (`inst_template` is set by `NodeInit` before any proxy exists.) -/
theorem get_non_property_returns_proxy (E : Env) (tr : Trace) (self : DispObject)
    (tag : Option String) (index : LONG) (p : DISPID)
    (hprep : self.is_prepared = true) (hinit : E.inst_template = true)
    (hres : self.Resolves E.T tr tag p) (hnp : self.disp.IsProperty p = false) :
    ∃ q, self.get E tr tag index =
        some { trace := self.searchTrace tr tag, self := self, ret := true, exception := none,
               retval := some (.proxy q) } ∧
      invocations (self.searchTrace tr tag) = invocations tr ∧
      q.disp = self.disp ∧ q.index = index ∧ q.name = self.tagName tag ∧
      (p ≠ DISPID_UNKNOWN ∨ tag ≠ none →
        q.dispid = p ∧ q.is_prepared = false ∧ q.is_owned = true) := by
  have hl := lazyPrepare_prepared E.T tr self hprep
  have hs := searchDispid_of_Resolves E.T tr self tag p hres
  rw [get_found_not_property E tr self tag index tr _ self _ p hl hs hnp]
  refine ⟨DispObject.new self.disp (self.tagName tag) p index, ?_,
    invocations_searchTrace tr self tag, DispObject_new_disp _ _ _ _, ?_,
    DispObject_new_name _ _ _ _, ?_⟩
  · simp [DispObject.NodeCreate, hinit]
  · unfold DispObject.new; split <;> rfl
  · intro hp0
    have hp : p ≠ DISPID_UNKNOWN := by
      rcases hp0 with hp | ht
      · exact hp
      · cases tag with
        | none => exact absurd rfl ht
        | some t =>
          obtain ⟨_, _, _, _, hne⟩ := hres
          exact hne
    rw [DispObject_new_known _ _ _ _ hp]
    have hb := owned_bits self.disp.options
    refine ⟨rfl, ?_, ?_⟩
    · simp [DispObject.is_prepared, hb.1]
    · simp [DispObject.is_owned, hb.2]

/-- C8 at the root proxy of the sample tree and the tag `M`, which resolves to the method 11. -/
theorem get_non_property_returns_proxy_witness :
    sampleRoot.is_prepared = true ∧ sampleEnv.inst_template = true ∧
      sampleRoot.Resolves sampleEnv.T [] (some "M") 11 ∧
      sampleRoot.disp.IsProperty 11 = false ∧
      ∃ q, sampleRoot.get sampleEnv [] (some "M") (-1) =
          some { trace := [Call.GetIDsOfNames 1 "M"], self := sampleRoot, ret := true,
                 exception := none, retval := some (.proxy q) } ∧
        q.disp = sampleRoot.disp ∧ q.dispid = 11 ∧ q.is_prepared = false ∧ q.is_owned = true :=
  ⟨by decide, by decide, ⟨1, by decide, by decide, by decide, by decide⟩, by decide,
    match get_non_property_returns_proxy sampleEnv [] sampleRoot (some "M") (-1) 11
      (by decide) (by decide) ⟨1, by decide, by decide, by decide, by decide⟩ (by decide) with
    | ⟨q, hq, _, hd, _, _, hb⟩ =>
      ⟨q, hq, hd, (hb (Or.inl (by decide))).1, (hb (Or.inl (by decide))).2.1,
        (hb (Or.inl (by decide))).2.2⟩⟩

/-! ### C9: a member that is a property -/

/-- C11: for every member-id, index and argument list, when `Invoke` reports failure
`DispInfo::GetProperty` and `DispInfo::SetProperty` return that failure code with the tag of the
out-value set to `VT_EMPTY` (the data left as the transport wrote it), and when it succeeds they
return the code and the out-value of the transport unchanged; `DispInfo::ExecuteMethod` returns
code and out-value of the transport unchanged in both cases. -/
theorem invocation_results (T : Transport) (tr : Trace) (self : DispInfo) (dispid : DISPID)
    (index : LONG) (argcnt : Nat) (args : List VARIANT) (h : Handle)
    (hptr : self.ptr = some h) :
    (∀ hr out, T.Invoke tr h dispid DISPATCH_PROPERTYGET (getParams index) = (hr, out) →
        (FAILED hr = true →
          self.GetProperty T tr dispid index =
            some (tr ++ [Call.Invoke h dispid DISPATCH_PROPERTYGET (getParams index)], hr,
              { vt := VT_EMPTY, val := out.val })) ∧
        (FAILED hr = false →
          self.GetProperty T tr dispid index =
            some (tr ++ [Call.Invoke h dispid DISPATCH_PROPERTYGET (getParams index)], hr,
              out))) ∧
      (∀ hr out,
        T.Invoke tr h dispid DISPATCH_PROPERTYPUT
            { rgvarg := args.take argcnt, rgdispidNamedArgs := [DISPID_PROPERTYPUT] } =
          (hr, out) →
        (FAILED hr = true →
          self.SetProperty T tr dispid argcnt args =
            some (tr ++ [Call.Invoke h dispid DISPATCH_PROPERTYPUT
                { rgvarg := args.take argcnt, rgdispidNamedArgs := [DISPID_PROPERTYPUT] }], hr,
              { vt := VT_EMPTY, val := out.val })) ∧
        (FAILED hr = false →
          self.SetProperty T tr dispid argcnt args =
            some (tr ++ [Call.Invoke h dispid DISPATCH_PROPERTYPUT
                { rgvarg := args.take argcnt, rgdispidNamedArgs := [DISPID_PROPERTYPUT] }], hr,
              out))) ∧
      (∀ hr out,
        T.Invoke tr h dispid DISPATCH_METHOD
            { rgvarg := args.take argcnt, rgdispidNamedArgs := [] } = (hr, out) →
        self.ExecuteMethod T tr dispid argcnt args =
          some (tr ++ [Call.Invoke h dispid DISPATCH_METHOD
              { rgvarg := args.take argcnt, rgdispidNamedArgs := [] }], hr, out)) := by
  refine ⟨?_, ?_, ?_⟩
  · intro hr out hinv
    rw [GetProperty_some T tr self dispid index h hptr]
    have hinv2 : T.Invoke tr h dispid DISPATCH_PROPERTYGET
        { rgvarg := if index ≥ 0 then [CComVariant.ofLONG index] else [],
          rgdispidNamedArgs := [] } = (hr, out) := hinv
    rw [hinv2]
    constructor
    · intro hf
      simp only [hf, if_true]
      rfl
    · intro hf
      simp only [hf, Bool.false_eq_true, if_false]
      rfl
  · intro hr out hinv
    simp only [DispInfo.SetProperty, DispInvoke, hptr, if_true, hinv]
    constructor
    · intro hf
      simp only [hf, if_true]
    · intro hf
      simp only [hf, Bool.false_eq_true, if_false]
  · intro hr out hinv
    have e : (if DISPATCH_METHOD = DISPATCH_PROPERTYPUT then [DISPID_PROPERTYPUT] else [])
        = ([] : List DISPID) := by decide
    simp only [DispInfo.ExecuteMethod, DispInvoke, hptr, e, hinv]

/-- C11 on the root resolver of the sample tree: the property-get of the unknown member 99 fails
and leaves an empty value; the property-get of member 12 succeeds with the value 42. -/
theorem invocation_results_witness :
    sampleRoot.disp.ptr = some 1 ∧
      sampleRoot.disp.GetProperty sampleTransport [] 99 (-1) =
        some ([Call.Invoke 1 99 DISPATCH_PROPERTYGET (getParams (-1))], -2147352573,
          { vt := VT_EMPTY, val := CComVariant.empty.val }) ∧
      sampleRoot.disp.GetProperty sampleTransport [] 12 (-1) =
        some ([Call.Invoke 1 12 DISPATCH_PROPERTYGET (getParams (-1))], S_OK,
          CComVariant.ofLONG 42) :=
  ⟨by decide,
    ((invocation_results sampleTransport [] sampleRoot.disp 99 (-1) 0 [] 1 (by decide)).1
      (-2147352573) CComVariant.empty (by decide)).1 (by decide),
    ((invocation_results sampleTransport [] sampleRoot.disp 12 (-1) 0 [] 1 (by decide)).1
      S_OK (CComVariant.ofLONG 42) (by decide)).2 (by decide)⟩

/-! ### Auxiliary lemmas: the cases of `Variant2nt` -/

theorem INTTYPE_cast_zero (I : INTTYPE) : I.cast 0 = 0 := by
  unfold INTTYPE.cast signedMember
  cases I.signed <;> simp

theorem INTTYPE_cast_one (I : INTTYPE) (h : 2 ≤ I.bits) : I.cast 1 = 1 := by
  have h2 : 1 < 2 ^ I.bits := Nat.one_lt_two_pow (by omega)
  have h3 : 1 < 2 ^ (I.bits - 1) := Nat.one_lt_two_pow (by omega)
  have h4 : (1 : Int) % ((2 ^ I.bits : Nat) : Int) = 1 :=
    Int.emod_eq_of_lt (by decide) (by exact_mod_cast h2)
  unfold INTTYPE.cast signedMember
  rw [h4]
  cases I.signed
  · simp
  · simp [Nat.mod_eq_of_lt h2, h3]

/-- On data that is not a nested `VARIANT` the recursion of `Variant2nt` is its body. -/
theorem Variant2nt_go_flat (VariantChangeType : VARIANT → Nat → HRESULT × VARIANT) (I : INTTYPE)
    (d : Int) (vt0 : Nat) (val : VarData) (hv : ∀ vt1 val1, val ≠ .variant vt1 val1) :
    Variant2nt.go VariantChangeType I d vt0 val
      = Variant2nt.body VariantChangeType I d none vt0 val := by
  cases val with
  | variant vt1 val1 => exact absurd rfl (hv vt1 val1)
  | _ => rfl

theorem Variant2nt_reference_flat (VariantChangeType : VARIANT → Nat → HRESULT × VARIANT)
    (I : INTTYPE) (d : Int) (vt0 : Nat) (val : VarData)
    (hv : ∀ vt1 val1, val ≠ .variant vt1 val1) :
    Variant2nt.reference VariantChangeType I d vt0 val
      = Variant2nt.referenceBody VariantChangeType I d none vt0 val := by
  cases val with
  | variant vt1 val1 => exact absurd rfl (hv vt1 val1)
  | _ => rfl

/-- The signed integer cases of the `switch`: all four read `lVal` or `*plVal`. -/
theorem Variant2nt_body_signed (VariantChangeType : VARIANT → Nat → HRESULT × VARIANT)
    (I : INTTYPE) (d : Int) (inner : Option (Option Int)) (vt0 : Nat) (val : VarData)
    (h : vt0 &&& VT_TYPEMASK = VT_I1 ∨ vt0 &&& VT_TYPEMASK = VT_I2 ∨
      vt0 &&& VT_TYPEMASK = VT_I4 ∨ vt0 &&& VT_TYPEMASK = VT_INT) :
    Variant2nt.body VariantChangeType I d inner vt0 val =
      (if (vt0 &&& VT_BYREF) != 0 then val.cell else val.bytes).map
        fun b => I.cast (signedMember 32 b) := by
  have h0 : ¬(vt0 &&& VT_TYPEMASK = VT_EMPTY ∨ vt0 &&& VT_TYPEMASK = VT_NULL) := by
    rcases h with h | h | h | h <;> rw [h] <;> decide
  unfold Variant2nt.body
  simp only [h0, h, if_true, if_false]

/-- The unsigned integer cases of the `switch`: all four read `ulVal` or `*pulVal`. -/
theorem Variant2nt_body_unsigned (VariantChangeType : VARIANT → Nat → HRESULT × VARIANT)
    (I : INTTYPE) (d : Int) (inner : Option (Option Int)) (vt0 : Nat) (val : VarData)
    (h : vt0 &&& VT_TYPEMASK = VT_UI1 ∨ vt0 &&& VT_TYPEMASK = VT_UI2 ∨
      vt0 &&& VT_TYPEMASK = VT_UI4 ∨ vt0 &&& VT_TYPEMASK = VT_UINT) :
    Variant2nt.body VariantChangeType I d inner vt0 val =
      (if (vt0 &&& VT_BYREF) != 0 then val.cell else val.bytes).map
        fun b => I.cast (unsignedMember 32 b) := by
  have h0 : ¬(vt0 &&& VT_TYPEMASK = VT_EMPTY ∨ vt0 &&& VT_TYPEMASK = VT_NULL) := by
    rcases h with h | h | h | h <;> rw [h] <;> decide
  have h1 : ¬(vt0 &&& VT_TYPEMASK = VT_I1 ∨ vt0 &&& VT_TYPEMASK = VT_I2 ∨
      vt0 &&& VT_TYPEMASK = VT_I4 ∨ vt0 &&& VT_TYPEMASK = VT_INT) := by
    rcases h with h | h | h | h <;> rw [h] <;> decide
  unfold Variant2nt.body
  simp only [h0, h1, h, if_true, if_false]

/-- The floating-point and date cases of the `switch`. -/
theorem Variant2nt_body_floating (VariantChangeType : VARIANT → Nat → HRESULT × VARIANT)
    (I : INTTYPE) (d : Int) (inner : Option (Option Int)) (vt0 : Nat) (val : VarData) :
    (vt0 &&& VT_TYPEMASK = VT_R4 →
      Variant2nt.body VariantChangeType I d inner vt0 val =
        (if (vt0 &&& VT_BYREF) != 0 then val.cell else val.bytes).bind
          fun b => I.ofFloating (truncFLOAT b)) ∧
    (vt0 &&& VT_TYPEMASK = VT_R8 ∨ vt0 &&& VT_TYPEMASK = VT_DATE →
      Variant2nt.body VariantChangeType I d inner vt0 val =
        (if (vt0 &&& VT_BYREF) != 0 then val.cell else val.bytes).bind
          fun b => I.ofFloating (truncDOUBLE b)) := by
  constructor
  · intro h
    unfold Variant2nt.body
    simp only [h]
    rfl
  · intro h
    unfold Variant2nt.body
    rcases h with h | h <;> simp only [h] <;> rfl

/-- The `VT_BOOL` case of the `switch`: the member `boolVal` of the union, by reference or
not. -/
theorem Variant2nt_body_BOOL (VariantChangeType : VARIANT → Nat → HRESULT × VARIANT)
    (I : INTTYPE) (d : Int) (inner : Option (Option Int)) (vt0 : Nat) (val : VarData)
    (h : vt0 &&& VT_TYPEMASK = VT_BOOL) :
    Variant2nt.body VariantChangeType I d inner vt0 val =
      val.bytes.map fun b => if signedMember 16 b = VARIANT_TRUE then I.cast 1 else I.cast 0 := by
  unfold Variant2nt.body
  simp only [h]
  rfl

/-! ### C12: `Variant2nt` against the reference definition by tag -/

/-- Where the tag is not one of the narrow integer tags, the value is not nested and a boolean
is held directly, the source function and the reference definition agree. -/
theorem Variant2nt_eq_reference (VariantChangeType : VARIANT → Nat → HRESULT × VARIANT)
    (I : INTTYPE) (d : Int) (vt0 : Nat) (val : VarData) (hI : 2 ≤ I.bits)
    (h1 : vt0 &&& VT_TYPEMASK ≠ VT_I1) (h2 : vt0 &&& VT_TYPEMASK ≠ VT_I2)
    (h3 : vt0 &&& VT_TYPEMASK ≠ VT_UI1) (h4 : vt0 &&& VT_TYPEMASK ≠ VT_UI2)
    (hb : vt0 &&& VT_TYPEMASK = VT_BOOL → vt0 &&& VT_BYREF = 0)
    (hv : ∀ vt1 val1, val ≠ .variant vt1 val1) :
    Variant2nt VariantChangeType I { vt := vt0, val := val } d =
      Variant2nt.reference VariantChangeType I d vt0 val := by
  unfold Variant2nt
  rw [Variant2nt_go_flat VariantChangeType I d vt0 val hv,
    Variant2nt_reference_flat VariantChangeType I d vt0 val hv]
  unfold Variant2nt.body Variant2nt.referenceBody
  simp only [h1, h2, h3, h4, false_or]
  by_cases e1 : vt0 &&& VT_TYPEMASK = VT_EMPTY ∨ vt0 &&& VT_TYPEMASK = VT_NULL
  · simp only [e1, if_true]
  simp only [e1, if_false]
  have hw : intWidth (vt0 &&& VT_TYPEMASK) = 32 := by
    unfold intWidth; simp [h1, h2, h3, h4]
  by_cases e2 : vt0 &&& VT_TYPEMASK = VT_I4 ∨ vt0 &&& VT_TYPEMASK = VT_INT
  · simp only [e2, if_true, hw]
  simp only [e2, if_false]
  by_cases e3 : vt0 &&& VT_TYPEMASK = VT_UI4 ∨ vt0 &&& VT_TYPEMASK = VT_UINT
  · simp only [e3, if_true, hw]
  simp only [e3, if_false]
  by_cases e4 : vt0 &&& VT_TYPEMASK = VT_R4
  · simp only [e4, if_true]
  simp only [e4, if_false]
  by_cases e5 : vt0 &&& VT_TYPEMASK = VT_R8
  · simp only [e5, if_true, true_or]
  simp only [e5, if_false, false_or]
  by_cases e6 : vt0 &&& VT_TYPEMASK = VT_DATE
  · simp only [e6, if_true]
  simp only [e6, if_false]
  by_cases e7 : vt0 &&& VT_TYPEMASK = VT_BOOL
  · simp only [e7, if_true, hb e7, INTTYPE_cast_zero, INTTYPE_cast_one I hI]
    simp
  simp only [e7, if_false]

/-- C12, the source function against the reference definition by tag: `Variant2nt` reads the
32-bit member `lVal` for the tags `VT_I1` and `VT_I2` too. A `VT_I2` value holding -1 in a
`VARIANT` whose other bytes are zero, as `CComVariant` leaves them, converts to 65535 where the
reference definition gives -1, and a `VT_I1` value holding -1 converts to 255. In general the
narrow tags yield the 32 bits of the union, whatever the width the tag announces. Everywhere
else the two agree: on every value that is not nested, whose tag is not one of the four
narrow integer tags and whose boolean is held directly, the function equals the reference
definition, for every default, every coercion function and every target type of at least two
bits; a nested variant yields the result of its inner value with the same default; a string
goes through the generic coercion and yields the default when the coercion fails. -/
theorem Variant2nt_narrow_reads_lVal :
    Variant2nt sampleChangeType INTTYPE.int { vt := VT_I2, val := .scalar 65535 } 0
      = some 65535 ∧
    Variant2nt.reference sampleChangeType INTTYPE.int 0 VT_I2 (.scalar 65535) = some (-1) ∧
    Variant2nt sampleChangeType INTTYPE.int { vt := VT_I1, val := .scalar 255 } 0
      = some 255 ∧
    Variant2nt.reference sampleChangeType INTTYPE.int 0 VT_I1 (.scalar 255) = some (-1) ∧
    (∀ (VariantChangeType : VARIANT → Nat → HRESULT × VARIANT) (I : INTTYPE) (d : Int)
        (b : Nat),
      Variant2nt VariantChangeType I { vt := VT_I1, val := .scalar b } d
        = some (I.cast (signedMember 32 b)) ∧
      Variant2nt VariantChangeType I { vt := VT_I2, val := .scalar b } d
        = some (I.cast (signedMember 32 b)) ∧
      Variant2nt VariantChangeType I { vt := VT_UI1, val := .scalar b } d
        = some (I.cast (unsignedMember 32 b)) ∧
      Variant2nt VariantChangeType I { vt := VT_UI2, val := .scalar b } d
        = some (I.cast (unsignedMember 32 b)) ∧
      Variant2nt.reference VariantChangeType I d VT_I1 (.scalar b)
        = some (I.cast (signedMember 8 b)) ∧
      Variant2nt.reference VariantChangeType I d VT_I2 (.scalar b)
        = some (I.cast (signedMember 16 b)) ∧
      Variant2nt.reference VariantChangeType I d VT_UI1 (.scalar b)
        = some (I.cast (unsignedMember 8 b)) ∧
      Variant2nt.reference VariantChangeType I d VT_UI2 (.scalar b)
        = some (I.cast (unsignedMember 16 b))) ∧
    (∀ (VariantChangeType : VARIANT → Nat → HRESULT × VARIANT) (I : INTTYPE) (d : Int)
        (vt0 : Nat) (val : VarData),
      2 ≤ I.bits →
      vt0 &&& VT_TYPEMASK ≠ VT_I1 → vt0 &&& VT_TYPEMASK ≠ VT_I2 →
      vt0 &&& VT_TYPEMASK ≠ VT_UI1 → vt0 &&& VT_TYPEMASK ≠ VT_UI2 →
      (vt0 &&& VT_TYPEMASK = VT_BOOL → vt0 &&& VT_BYREF = 0) →
      (∀ vt1 val1, val ≠ .variant vt1 val1) →
      Variant2nt VariantChangeType I { vt := vt0, val := val } d =
        Variant2nt.reference VariantChangeType I d vt0 val) ∧
    (∀ (VariantChangeType : VARIANT → Nat → HRESULT × VARIANT) (I : INTTYPE) (d : Int)
        (vt1 : Nat) (val1 : VarData),
      Variant2nt VariantChangeType I
          { vt := VT_VARIANT ||| VT_BYREF, val := .variant vt1 val1 } d
        = Variant2nt VariantChangeType I { vt := vt1, val := val1 } d ∧
      Variant2nt.reference VariantChangeType I d (VT_VARIANT ||| VT_BYREF)
          (.variant vt1 val1)
        = Variant2nt.reference VariantChangeType I d vt1 val1) ∧
    (∀ (I : INTTYPE) (d : Int),
      Variant2nt sampleChangeType I { vt := VT_EMPTY, val := .scalar 0 } d = some d ∧
      Variant2nt sampleChangeType I { vt := VT_NULL, val := .scalar 0 } d = some d ∧
      Variant2nt sampleChangeType I { vt := VT_BSTR, val := .bstr "x" } d = some d) ∧
    Variant2nt sampleChangeType INTTYPE.int { vt := VT_I4, val := .scalar 4294967295 } 0
      = some (-1) ∧
    Variant2nt sampleChangeType INTTYPE.int { vt := VT_UI4, val := .scalar 7 } 0 = some 7 ∧
    Variant2nt sampleChangeType INTTYPE.int { vt := VT_R4, val := .scalar 0xC0200000 } 0
      = some (-2) ∧
    Variant2nt sampleChangeType INTTYPE.int { vt := VT_R8, val := .scalar 0x400C000000000000 } 0
      = some 3 ∧
    Variant2nt sampleChangeType INTTYPE.int { vt := VT_BOOL, val := .scalar 65535 } 0
      = some 1 ∧
    Variant2nt sampleChangeType INTTYPE.int { vt := VT_BOOL, val := .scalar 0 } 0 = some 0 ∧
    Variant2nt sampleChangeType INTTYPE.int { vt := VT_BSTR, val := .bstr "42" } 0
      = some 42 := by
  refine ⟨by decide, by decide, by decide, by decide, ?_, ?_, ?_, ?_, by decide, by decide,
    by decide, by decide, by decide, by decide, by decide⟩
  · intro VariantChangeType I d b
    have hs := fun vt0 h => Variant2nt_body_signed VariantChangeType I d none vt0 (.scalar b) h
    have hu := fun vt0 h => Variant2nt_body_unsigned VariantChangeType I d none vt0 (.scalar b) h
    refine ⟨?_, ?_, ?_, ?_, ?_, ?_, ?_, ?_⟩
    · exact (hs VT_I1 (by decide)).trans rfl
    · exact (hs VT_I2 (by decide)).trans rfl
    · exact (hu VT_UI1 (by decide)).trans rfl
    · exact (hu VT_UI2 (by decide)).trans rfl
    · show Variant2nt.referenceBody VariantChangeType I d none VT_I1 (.scalar b) = _
      unfold Variant2nt.referenceBody
      have e : VT_I1 &&& VT_TYPEMASK = VT_I1 := by decide
      simp only [e]
      rfl
    · show Variant2nt.referenceBody VariantChangeType I d none VT_I2 (.scalar b) = _
      unfold Variant2nt.referenceBody
      have e : VT_I2 &&& VT_TYPEMASK = VT_I2 := by decide
      simp only [e]
      rfl
    · show Variant2nt.referenceBody VariantChangeType I d none VT_UI1 (.scalar b) = _
      unfold Variant2nt.referenceBody
      have e : VT_UI1 &&& VT_TYPEMASK = VT_UI1 := by decide
      simp only [e]
      rfl
    · show Variant2nt.referenceBody VariantChangeType I d none VT_UI2 (.scalar b) = _
      unfold Variant2nt.referenceBody
      have e : VT_UI2 &&& VT_TYPEMASK = VT_UI2 := by decide
      simp only [e]
      rfl
  · intro VariantChangeType I d vt0 val hI h1 h2 h3 h4 hb hv
    exact Variant2nt_eq_reference VariantChangeType I d vt0 val hI h1 h2 h3 h4 hb hv
  · intro VariantChangeType I d vt1 val1
    constructor
    · show Variant2nt.body VariantChangeType I d
        (some (Variant2nt.go VariantChangeType I d vt1 val1)) _ _ = _
      unfold Variant2nt.body
      have e : (VT_VARIANT ||| VT_BYREF) &&& VT_TYPEMASK = VT_VARIANT := by decide
      simp only [e]
      rfl
    · show Variant2nt.referenceBody VariantChangeType I d
        (some (Variant2nt.reference VariantChangeType I d vt1 val1)) _ _ = _
      unfold Variant2nt.referenceBody
      have e : (VT_VARIANT ||| VT_BYREF) &&& VT_TYPEMASK = VT_VARIANT := by decide
      simp only [e]
      rfl
  · intro I d
    refine ⟨?_, ?_, ?_⟩
    · unfold Variant2nt
      rw [Variant2nt_go_flat _ _ _ _ _ (by intro _ _ h; cases h)]
      unfold Variant2nt.body
      have e : VT_EMPTY &&& VT_TYPEMASK = VT_EMPTY := by decide
      simp only [e]
      rfl
    · unfold Variant2nt
      rw [Variant2nt_go_flat _ _ _ _ _ (by intro _ _ h; cases h)]
      unfold Variant2nt.body
      have e : VT_NULL &&& VT_TYPEMASK = VT_NULL := by decide
      simp only [e]
      rfl
    · unfold Variant2nt
      rw [Variant2nt_go_flat _ _ _ _ _ (by intro _ _ h; cases h)]
      unfold Variant2nt.body
      have e : VT_BSTR &&& VT_TYPEMASK = VT_BSTR := by decide
      simp only [e]
      rfl

/-! ### C13: `push` executes inline or appends -/

/-- C13: with no worker thread present or with the termination flag set, `push` executes the job
before returning: one `Invoke` is issued, its result code and out-value are stored in the job,
the completion callback is called exactly once when one is set, and the queue is unchanged;
otherwise `push` appends the job at the back of the queue, keeping the jobs already queued in
order, and executes nothing. -/
theorem push_inline_or_queued (T : Transport) (w : JobWorld) (self : job_processor_t)
    (job : job_t) (h : Handle) (hptr : job.disp.ptr = some h) :
    (self.thread = none ∨ self.terminated = true →
        self.push T w job =
          some
            ({ trace := w.trace ++ [Call.Invoke h job.dispid (WORD job.flags) job.params],
               completed :=
                 match job.on_result with
                 | some on_result => w.completed ++ [(on_result, job.answered T w.trace h)]
                 | none => w.completed },
              self, job.answered T w.trace h)) ∧
      (self.thread ≠ none ∧ self.terminated = false →
        self.push T w job = some (w, { self with queue := self.queue ++ [job] }, job)) := by
  constructor
  · intro hcond
    have hc : (self.thread.isNone || self.terminated) = true := by
      rcases hcond with h1 | h1
      · simp [h1]
      · simp [h1]
    simp only [job_processor_t.push, hc, if_true, job_t.execute, DispInvoke, hptr,
      List.take_length, job_t.answered, job_t.params]
    cases job.on_result <;> rfl
  · intro ⟨h1, h2⟩
    have hc : (self.thread.isNone || self.terminated) = false := by
      cases ht : self.thread with
      | none => exact absurd ht h1
      | some pc => simp [h2]
    simp only [job_processor_t.push, hc, Bool.false_eq_true, if_false]

/-- C13 on the sample tree: without a thread the job is executed at once and its callback is
called once; with a running thread the job is appended behind the job already queued. -/
theorem push_inline_or_queued_witness :
    (sampleJob 1).disp.ptr = some 1 ∧
      job_processor_t.push sampleTransport { trace := [], completed := [] }
          { thread := none, terminated := false, queue := [] } (sampleJob 1) =
        some
          ({ trace := [Call.Invoke 1 12 DISPATCH_PROPERTYGET (sampleJob 1).params],
             completed :=
               [(1, { sampleJob 1 with hrcode := S_OK, result := CComVariant.ofLONG 42 })] },
            { thread := none, terminated := false, queue := [] },
            { sampleJob 1 with hrcode := S_OK, result := CComVariant.ofLONG 42 }) ∧
      job_processor_t.push sampleTransport { trace := [], completed := [] }
          { thread := some WorkerPC.waiting, terminated := false, queue := [sampleJob 1] }
          (sampleJob 2) =
        some
          ({ trace := [], completed := [] },
            { thread := some WorkerPC.waiting, terminated := false,
              queue := [sampleJob 1, sampleJob 2] },
            sampleJob 2) :=
  ⟨by decide,
    ((push_inline_or_queued sampleTransport { trace := [], completed := [] }
      { thread := none, terminated := false, queue := [] } (sampleJob 1) 1 (by decide)).1
      (Or.inl rfl)).trans (by decide),
    (push_inline_or_queued sampleTransport { trace := [], completed := [] }
      { thread := some WorkerPC.waiting, terminated := false, queue := [sampleJob 1] }
      (sampleJob 2) 1 (by decide)).2 ⟨by decide, rfl⟩⟩

/-! ### C14: the worker loop -/

theorem run_after_start (T : Transport) (w : JobWorld) :
    ∀ (acts : List Action) (p : job_processor_t),
      p.terminated = false →
      (p.thread = some WorkerPC.loopHead ∨ p.thread = some WorkerPC.finished) →
      ∃ p1, job_processor_t.run T (w, p) acts = some (w, p1) ∧
        p1.queue = p.queue ++ Action.pushed acts ∧ p1.terminated = false ∧
        (p1.thread = some WorkerPC.loopHead ∨ p1.thread = some WorkerPC.finished) := by
  intro acts
  induction acts with
  | nil =>
    intro p ht hpc
    exact ⟨p, rfl, by simp [Action.pushed], ht, hpc⟩
  | cons a rest ih =>
    intro p ht hpc
    cases a with
    | push job =>
      have hc : (p.thread.isNone || p.terminated) = false := by
        rcases hpc with h | h <;> simp [h, ht]
      have hstep : job_processor_t.act T (w, p) (Action.push job) =
          some (w, { p with queue := p.queue ++ [job] }) := by
        simp [job_processor_t.act, job_processor_t.push, hc]
      obtain ⟨p1, h1, h2, h3, h4⟩ := ih { p with queue := p.queue ++ [job] } ht hpc
      refine ⟨p1, ?_, ?_, h3, h4⟩
      · simp only [job_processor_t.run, hstep]
        exact h1
      · rw [h2]
        simp [Action.pushed]
    | work =>
      have hstep : job_processor_t.act T (w, p) Action.work =
          some (w, { p with thread := some WorkerPC.finished }) := by
        rcases hpc with h | h
        · simp [job_processor_t.act, job_processor_t.process.step, h, ht]
        · simp only [job_processor_t.act, job_processor_t.process.step, h]
          congr
          cases p
          simp_all
      obtain ⟨p1, h1, h2, h3, h4⟩ :=
        ih { p with thread := some WorkerPC.finished } ht (Or.inr rfl)
      refine ⟨p1, ?_, ?_, h3, h4⟩
      · simp only [job_processor_t.run, hstep]
        exact h1
      · rw [h2]
        simp [Action.pushed]

/-- C14, evaluated: `start` on a processor without a thread clears `terminated` and creates the
thread; the first step of the thread, the test `while (terminated)`, then leaves `process`.
Hence in every schedule of pushes and worker steps after `start` (and before any `stop`) no job
is executed: there is no `Invoke` and no completion callback, and the jobs pushed stay in the
queue in the order of the pushes.  So it is for the jobs J1, J2, J3 of the sample. -/
theorem worker_leaves_loop_at_once :
    (∀ b, job_processor_t.start { thread := none, terminated := b, queue := [] } =
        some { thread := some WorkerPC.loopHead, terminated := false, queue := [] }) ∧
      (∀ (T : Transport) (w : JobWorld) (queue : List job_t),
        job_processor_t.process.step T w
            { thread := some WorkerPC.loopHead, terminated := false, queue := queue } =
          some (w, { thread := some WorkerPC.finished, terminated := false, queue := queue })) ∧
      (∀ (T : Transport) (w : JobWorld) (acts : List Action),
        ∃ p1,
          job_processor_t.run T
              (w, { thread := some WorkerPC.loopHead, terminated := false, queue := [] })
              acts = some (w, p1) ∧
            p1.queue = Action.pushed acts) ∧
      job_processor_t.run sampleTransport
          ({ trace := [], completed := [] },
            { thread := some WorkerPC.loopHead, terminated := false, queue := [] })
          [Action.push (sampleJob 1), Action.work, Action.work, Action.push (sampleJob 2),
            Action.work, Action.push (sampleJob 3), Action.work, Action.work, Action.work] =
        some
          ({ trace := [], completed := [] },
            { thread := some WorkerPC.finished, terminated := false,
              queue := [sampleJob 1, sampleJob 2, sampleJob 3] }) := by
  refine ⟨?_, ?_, ?_, by decide⟩
  · intro b
    rfl
  · intro T w queue
    rfl
  · intro T w acts
    obtain ⟨p1, h1, h2, _, _⟩ := run_after_start T w acts
      { thread := some WorkerPC.loopHead, terminated := false, queue := [] } rfl (Or.inl rfl)
    exact ⟨p1, h1, by simpa using h2⟩

/-! ### C15: foreign failures in `get` and `set` -/

theorem Resolves_unique (T : Transport) (tr : Trace) (self : DispObject) (tag : Option String)
    (p q : DISPID) (hp : self.Resolves T tr tag p) (hq : self.Resolves T tr tag q) : p = q := by
  cases tag with
  | none =>
    simp only [DispObject.Resolves] at hp hq
    rw [hp, hq]
  | some t =>
    obtain ⟨h1, hptr1, _, e1, _⟩ := hp
    obtain ⟨h2, hptr2, _, e2, _⟩ := hq
    rw [hptr1] at hptr2
    cases hptr2
    rw [← e1, ← e2]

theorem searchDispid_not_Resolves (T : Transport) (tr : Trace) (self : DispObject)
    (tag : Option String) (h : Handle) (hptr : self.disp.ptr = some h)
    (hno : ¬ ∃ p, self.Resolves T tr tag p) :
    ∃ tr1 e, self.searchDispid T tr tag = some (tr1, Search.thrown e) := by
  cases tag with
  | none => exact absurd ⟨self.dispid, rfl⟩ hno
  | some t =>
    rw [searchDispid_some T tr self t h hptr]
    by_cases hth : (T.GetIDsOfNames tr h t).1 < 0 ∨ (T.GetIDsOfNames tr h t).2 = DISPID_UNKNOWN
    · rw [if_pos hth]
      exact ⟨_, _, rfl⟩
    · exfalso
      apply hno
      refine ⟨(T.GetIDsOfNames tr h t).2, h, hptr, ?_, rfl, ?_⟩
      · simp only [SUCCEEDED, decide_eq_true_eq]
        exact not_lt.mp (fun hc => hth (Or.inl hc))
      · exact fun hc => hth (Or.inr hc)

/-- C15, as stated, fails: on the unprepared proxy `root.F` of the sample tree the default-value
read of the opening `prepare` fails, and `get` and `set` of the tag `Size` still return true
without an exception. -/
theorem get_set_true_after_failed_prepare :
    sampleF.is_prepared = false ∧
      FAILED (sampleTransport.Invoke [] 1 14 DISPATCH_PROPERTYGET (getParams (-1))).1 = true ∧
      (sampleF.get sampleEnv [] (some "Size") (-1)).map
          (fun c => (c.trace, c.ret, c.exception, c.retval)) =
        some ([Call.Invoke 1 14 DISPATCH_PROPERTYGET (getParams (-1)),
            Call.GetIDsOfNames 1 "Size",
            Call.Invoke 1 12 DISPATCH_PROPERTYGET (getParams (-1))],
          true, none, some (.decoded (CComVariant.ofLONG 42))) ∧
      (sampleF.set sampleEnv [] (some "Size") (-1) (Value.int 3)).map
          (fun c => (c.trace, c.ret, c.exception)) =
        some ([Call.Invoke 1 14 DISPATCH_PROPERTYGET (getParams (-1)),
            Call.GetIDsOfNames 1 "Size",
            Call.Invoke 1 12 DISPATCH_PROPERTYPUT
              (putParams sampleEnv.Value2Variant (Value.int 3) (-1))],
          true, none) := by
  refine ⟨by decide, by decide, by decide, by decide⟩

/-- C15, amended: for every proxy, once the opening `prepare` is done and the resolver has a
handle, `get` and `set` complete, and they return true exactly when every foreign call they
issue after the opening `prepare` succeeds: the tag resolves (the name lookup, if any, succeeds
with an id other than the unknown-id sentinel) and the property-get of a member classified as a
property, respectively the property-put, succeeds.  Returning true they raise nothing and set a
return value; returning false they raise a host exception and set none.  The result code of the
default-value read of the opening `prepare` does not enter. -/
theorem get_set_fail_after_prepare (E : Env) (tr : Trace) (self : DispObject)
    (tag : Option String) (index : LONG) (value : Value) (tr0 : Trace) (self0 : DispObject)
    (h : Handle)
    (hl : self.lazyPrepare E.T tr = some (tr0, self0)) (hptr : self0.disp.ptr = some h) :
    (∃ c, self.get E tr tag index = some c ∧
        (c.ret = true ↔
          ∃ p, self0.Resolves E.T tr0 tag p ∧
            (self0.disp.IsProperty p = true →
              SUCCEEDED (E.T.Invoke (self0.searchTrace tr0 tag) h p DISPATCH_PROPERTYGET
                (getParams index)).1 = true)) ∧
        (c.ret = true → c.exception = none ∧ c.retval ≠ none) ∧
        (c.ret = false → c.exception ≠ none ∧ c.retval = none)) ∧
      (∃ c, self.set E tr tag index value = some c ∧
        (c.ret = true ↔
          ∃ p, self0.Resolves E.T tr0 tag p ∧
            SUCCEEDED (E.T.Invoke (self0.searchTrace tr0 tag) h p DISPATCH_PROPERTYPUT
              (putParams E.Value2Variant value index)).1 = true) ∧
        (c.ret = true → c.exception = none ∧ c.retval ≠ none) ∧
        (c.ret = false → c.exception ≠ none ∧ c.retval = none)) := by
  by_cases hres : ∃ p, self0.Resolves E.T tr0 tag p
  · obtain ⟨p, hp⟩ := hres
    have hs := searchDispid_of_Resolves E.T tr0 self0 tag p hp
    have huniq : ∀ q, self0.Resolves E.T tr0 tag q → q = p :=
      fun q hq => Resolves_unique E.T tr0 self0 tag q p hq hp
    constructor
    · by_cases hprop : self0.disp.IsProperty p = true
      · rw [get_found_property E tr self tag index tr0 _ self0 _ p h hl hs hprop hptr]
        by_cases hf : (E.T.Invoke (self0.searchTrace tr0 tag) h p DISPATCH_PROPERTYGET
            (getParams index)).1 < 0
        · rw [if_pos hf]
          refine ⟨_, rfl, ⟨fun hc => by simp at hc, ?_⟩, fun hc => by simp at hc,
            fun _ => by simp⟩
          rintro ⟨q, hq, hq2⟩
          rw [huniq q hq] at hq2
          have := hq2 hprop
          simp only [SUCCEEDED, decide_eq_true_eq] at this
          exact absurd this (not_le.mpr hf)
        · rw [if_neg hf]
          have hok : SUCCEEDED (E.T.Invoke (self0.searchTrace tr0 tag) h p
              DISPATCH_PROPERTYGET (getParams index)).1 = true := by
            simp only [SUCCEEDED, decide_eq_true_eq]
            exact not_lt.mp hf
          split <;>
            exact ⟨_, rfl, ⟨fun _ => ⟨p, hp, fun _ => hok⟩, fun _ => rfl⟩,
              fun _ => by simp, fun hc => by simp at hc⟩
      · rw [get_found_not_property E tr self tag index tr0 _ self0 _ p hl hs
          (by simpa using hprop)]
        exact ⟨_, rfl, ⟨fun _ => ⟨p, hp, fun hc => absurd hc hprop⟩, fun _ => rfl⟩,
          fun _ => by simp, fun hc => by simp at hc⟩
    · rw [set_found E tr self tag index value tr0 _ self0 _ p h hl hs hptr]
      by_cases hf : (E.T.Invoke (self0.searchTrace tr0 tag) h p DISPATCH_PROPERTYPUT
          (putParams E.Value2Variant value index)).1 < 0
      · rw [if_pos hf]
        refine ⟨_, rfl, ⟨fun hc => by simp at hc, ?_⟩, fun hc => by simp at hc,
          fun _ => by simp⟩
        rintro ⟨q, hq, hq2⟩
        rw [huniq q hq] at hq2
        simp only [SUCCEEDED, decide_eq_true_eq] at hq2
        exact absurd hq2 (not_le.mpr hf)
      · rw [if_neg hf]
        have hok : SUCCEEDED (E.T.Invoke (self0.searchTrace tr0 tag) h p
            DISPATCH_PROPERTYPUT (putParams E.Value2Variant value index)).1 = true := by
          simp only [SUCCEEDED, decide_eq_true_eq]
          exact not_lt.mp hf
        split <;>
          exact ⟨_, rfl, ⟨fun _ => ⟨p, hp, hok⟩, fun _ => rfl⟩,
            fun _ => by simp, fun hc => by simp at hc⟩
  · obtain ⟨tr1, e, hs⟩ := searchDispid_not_Resolves E.T tr0 self0 tag h hptr hres
    rw [get_thrown E tr self tag index tr0 tr1 self0 e hl hs,
      set_thrown E tr self tag index value tr0 tr1 self0 e hl hs]
    exact ⟨⟨_, rfl, ⟨fun hc => by simp at hc, fun ⟨p, hp, _⟩ => absurd ⟨p, hp⟩ hres⟩,
        fun hc => by simp at hc, fun _ => by simp⟩,
      ⟨_, rfl, ⟨fun hc => by simp at hc, fun ⟨p, hp, _⟩ => absurd ⟨p, hp⟩ hres⟩,
        fun hc => by simp at hc, fun _ => by simp⟩⟩

/-- C15, amended, on the proxy `root.F` of the sample tree and the tags `Size`, which resolves,
and `Missing`, which does not. -/
theorem get_set_fail_after_prepare_witness :
    sampleF.lazyPrepare sampleEnv.T [] =
        some ([Call.Invoke 1 14 DISPATCH_PROPERTYGET (getParams (-1))],
          { sampleF with options := sampleF.options ||| option_prepared }) ∧
      ({ sampleF with options := sampleF.options ||| option_prepared } : DispObject).disp.ptr =
        some 1 ∧
      (∃ c, sampleF.get sampleEnv [] (some "Size") (-1) = some c ∧ c.ret = true) ∧
      (∃ c, sampleF.get sampleEnv [] (some "Missing") (-1) = some c ∧ c.ret = false ∧
        c.exception ≠ none) :=
  ⟨by decide, by decide,
    match (get_set_fail_after_prepare sampleEnv [] sampleF (some "Size") (-1) Value.undefined
      [Call.Invoke 1 14 DISPATCH_PROPERTYGET (getParams (-1))]
      { sampleF with options := sampleF.options ||| option_prepared } 1
      (by decide) (by decide)).1 with
    | ⟨c, hc, hiff, _, _⟩ =>
      ⟨c, hc, hiff.2 ⟨12, ⟨1, by decide, by decide, by decide, by decide⟩,
        fun _ => by decide⟩⟩,
    match (get_set_fail_after_prepare sampleEnv [] sampleF (some "Missing") (-1)
      Value.undefined [Call.Invoke 1 14 DISPATCH_PROPERTYGET (getParams (-1))]
      { sampleF with options := sampleF.options ||| option_prepared } 1
      (by decide) (by decide)).1 with
    | ⟨c, hc, hiff, _, hfalse⟩ =>
      have hr : c.ret = false := by
        cases hret : c.ret with
        | false => rfl
        | true =>
          obtain ⟨p, ⟨_, _, hok, hp, hne⟩, _⟩ := hiff.1 hret
          exact absurd hok (by simp [sampleEnv, sampleTransport, SUCCEEDED])
      ⟨c, hc, hr, (hfalse hr).1⟩⟩

/-! ### C16: `Variant2nt` on by-reference cells -/

/-- In the integer, floating-point and date cases `Variant2nt` follows the pointer of a
by-reference cell: the result is that of the value held directly whose union has the bytes
found at the address. -/
theorem Variant2nt_follows_scalar_ref (VariantChangeType : VARIANT → Nat → HRESULT × VARIANT)
    (I : INTTYPE) (d : Int) (vt addr mem : Nat) (hne : addr ≠ 0)
    (hvt : vt ∈ [VT_I1, VT_I2, VT_I4, VT_INT, VT_UI1, VT_UI2, VT_UI4, VT_UINT, VT_R4, VT_R8,
      VT_DATE]) :
    Variant2nt VariantChangeType I { vt := vt ||| VT_BYREF, val := .ref addr mem } d =
      Variant2nt VariantChangeType I { vt := vt, val := .scalar mem } d := by
  unfold Variant2nt
  rw [Variant2nt_go_flat _ _ _ _ _ (by intro _ _ h; cases h),
    Variant2nt_go_flat _ _ _ _ _ (by intro _ _ h; cases h)]
  dsimp only
  simp only [List.mem_cons, List.mem_singleton, List.not_mem_nil, or_false] at hvt
  rcases hvt with rfl | rfl | rfl | rfl | rfl | rfl | rfl | rfl | rfl | rfl | rfl
  · have r1 : ((VT_I1 ||| VT_BYREF) &&& VT_BYREF != 0) = true := by decide
    have r2 : (VT_I1 &&& VT_BYREF != 0) = false := by decide
    rw [Variant2nt_body_signed _ _ _ _ _ _ (by decide),
      Variant2nt_body_signed _ _ _ _ _ _ (by decide)]
    simp only [r1, r2]
    simp [VarData.cell, VarData.bytes, hne]
  · have r1 : ((VT_I2 ||| VT_BYREF) &&& VT_BYREF != 0) = true := by decide
    have r2 : (VT_I2 &&& VT_BYREF != 0) = false := by decide
    rw [Variant2nt_body_signed _ _ _ _ _ _ (by decide),
      Variant2nt_body_signed _ _ _ _ _ _ (by decide)]
    simp only [r1, r2]
    simp [VarData.cell, VarData.bytes, hne]
  · have r1 : ((VT_I4 ||| VT_BYREF) &&& VT_BYREF != 0) = true := by decide
    have r2 : (VT_I4 &&& VT_BYREF != 0) = false := by decide
    rw [Variant2nt_body_signed _ _ _ _ _ _ (by decide),
      Variant2nt_body_signed _ _ _ _ _ _ (by decide)]
    simp only [r1, r2]
    simp [VarData.cell, VarData.bytes, hne]
  · have r1 : ((VT_INT ||| VT_BYREF) &&& VT_BYREF != 0) = true := by decide
    have r2 : (VT_INT &&& VT_BYREF != 0) = false := by decide
    rw [Variant2nt_body_signed _ _ _ _ _ _ (by decide),
      Variant2nt_body_signed _ _ _ _ _ _ (by decide)]
    simp only [r1, r2]
    simp [VarData.cell, VarData.bytes, hne]
  · have r1 : ((VT_UI1 ||| VT_BYREF) &&& VT_BYREF != 0) = true := by decide
    have r2 : (VT_UI1 &&& VT_BYREF != 0) = false := by decide
    rw [Variant2nt_body_unsigned _ _ _ _ _ _ (by decide),
      Variant2nt_body_unsigned _ _ _ _ _ _ (by decide)]
    simp only [r1, r2]
    simp [VarData.cell, VarData.bytes, hne]
  · have r1 : ((VT_UI2 ||| VT_BYREF) &&& VT_BYREF != 0) = true := by decide
    have r2 : (VT_UI2 &&& VT_BYREF != 0) = false := by decide
    rw [Variant2nt_body_unsigned _ _ _ _ _ _ (by decide),
      Variant2nt_body_unsigned _ _ _ _ _ _ (by decide)]
    simp only [r1, r2]
    simp [VarData.cell, VarData.bytes, hne]
  · have r1 : ((VT_UI4 ||| VT_BYREF) &&& VT_BYREF != 0) = true := by decide
    have r2 : (VT_UI4 &&& VT_BYREF != 0) = false := by decide
    rw [Variant2nt_body_unsigned _ _ _ _ _ _ (by decide),
      Variant2nt_body_unsigned _ _ _ _ _ _ (by decide)]
    simp only [r1, r2]
    simp [VarData.cell, VarData.bytes, hne]
  · have r1 : ((VT_UINT ||| VT_BYREF) &&& VT_BYREF != 0) = true := by decide
    have r2 : (VT_UINT &&& VT_BYREF != 0) = false := by decide
    rw [Variant2nt_body_unsigned _ _ _ _ _ _ (by decide),
      Variant2nt_body_unsigned _ _ _ _ _ _ (by decide)]
    simp only [r1, r2]
    simp [VarData.cell, VarData.bytes, hne]
  · have r1 : ((VT_R4 ||| VT_BYREF) &&& VT_BYREF != 0) = true := by decide
    have r2 : (VT_R4 &&& VT_BYREF != 0) = false := by decide
    rw [(Variant2nt_body_floating _ _ _ _ _ _).1 (by decide),
      (Variant2nt_body_floating _ _ _ _ _ _).1 (by decide)]
    simp only [r1, r2]
    simp [VarData.cell, VarData.bytes, hne]
  · have r1 : ((VT_R8 ||| VT_BYREF) &&& VT_BYREF != 0) = true := by decide
    have r2 : (VT_R8 &&& VT_BYREF != 0) = false := by decide
    rw [(Variant2nt_body_floating _ _ _ _ _ _).2 (by decide),
      (Variant2nt_body_floating _ _ _ _ _ _).2 (by decide)]
    simp only [r1, r2]
    simp [VarData.cell, VarData.bytes, hne]
  · have r1 : ((VT_DATE ||| VT_BYREF) &&& VT_BYREF != 0) = true := by decide
    have r2 : (VT_DATE &&& VT_BYREF != 0) = false := by decide
    rw [(Variant2nt_body_floating _ _ _ _ _ _).2 (by decide),
      (Variant2nt_body_floating _ _ _ _ _ _).2 (by decide)]
    simp only [r1, r2]
    simp [VarData.cell, VarData.bytes, hne]

/-- C16, by-reference cells: the `VT_BOOL` case of `Variant2nt` reads the member `boolVal` of
the union without looking at `by_ref`, so for a by-reference boolean it tests the low 16 bits of
the pointer and never the cell. A by-reference cell at the address 4096 that holds
`VARIANT_TRUE` converts to 0, where the same boolean held directly converts to 1, as the
reference definition says of both; in general the result for a by-reference boolean is that of
the direct boolean made of the address. The other families do follow the reference once: for
the integer, unsigned integer, float and date tags and a cell at an address other than null,
the result equals that of the value held directly with the bytes of the cell, for every
default, coercion function and target type. -/
theorem Variant2nt_BOOL_ignores_by_ref :
    Variant2nt sampleChangeType INTTYPE.int
        { vt := VT_BOOL ||| VT_BYREF, val := .ref 4096 65535 } 0 = some 0 ∧
    Variant2nt sampleChangeType INTTYPE.int { vt := VT_BOOL, val := .scalar 65535 } 0
      = some 1 ∧
    Variant2nt.reference sampleChangeType INTTYPE.int 0 (VT_BOOL ||| VT_BYREF)
        (.ref 4096 65535) = some 1 ∧
    Variant2nt.reference sampleChangeType INTTYPE.int 0 VT_BOOL (.scalar 65535) = some 1 ∧
    (∀ (VariantChangeType : VARIANT → Nat → HRESULT × VARIANT) (I : INTTYPE) (d : Int)
        (addr mem : Nat),
      Variant2nt VariantChangeType I { vt := VT_BOOL ||| VT_BYREF, val := .ref addr mem } d =
        Variant2nt VariantChangeType I { vt := VT_BOOL, val := .scalar addr } d) ∧
    (∀ (VariantChangeType : VARIANT → Nat → HRESULT × VARIANT) (I : INTTYPE) (d : Int)
        (vt addr mem : Nat),
      addr ≠ 0 →
      vt ∈ [VT_I1, VT_I2, VT_I4, VT_INT, VT_UI1, VT_UI2, VT_UI4, VT_UINT, VT_R4, VT_R8,
        VT_DATE] →
      Variant2nt VariantChangeType I { vt := vt ||| VT_BYREF, val := .ref addr mem } d =
        Variant2nt VariantChangeType I { vt := vt, val := .scalar mem } d) ∧
    Variant2nt sampleChangeType INTTYPE.int
        { vt := VT_I4 ||| VT_BYREF, val := .ref 4096 4294967295 } 0 = some (-1) ∧
    Variant2nt sampleChangeType INTTYPE.int
        { vt := VT_R8 ||| VT_BYREF, val := .ref 4096 0x400C000000000000 } 0 = some 3 := by
  refine ⟨by decide, by decide, by decide, by decide, ?_, ?_, by decide, by decide⟩
  · intro VariantChangeType I d addr mem
    unfold Variant2nt
    rw [Variant2nt_go_flat _ _ _ _ _ (by intro _ _ h; cases h),
      Variant2nt_go_flat _ _ _ _ _ (by intro _ _ h; cases h)]
    dsimp only
    rw [Variant2nt_body_BOOL _ _ _ _ _ _ (by decide),
      Variant2nt_body_BOOL _ _ _ _ _ _ (by decide)]
    rfl
  · intro VariantChangeType I d vt addr mem hne hvt
    exact Variant2nt_follows_scalar_ref VariantChangeType I d vt addr mem hne hvt

/-! ### C17: the member cache after `Prepare` -/

theorem PrepareType_loop_eq {α : Type} (info : ITypeInfo)
    (process : α → ITypeInfo → FUNCDESC → α) :
    ∀ (fuel n : Nat) (acc : α), info.funcs.length < n + fuel →
      DispInfo.PrepareType.loop info process fuel n acc =
        (info.funcs.drop n).foldl (fun a d => process a info d) acc := by
  intro fuel
  induction fuel with
  | zero =>
    intro n acc hlen
    have : info.funcs.drop n = [] := List.drop_eq_nil_of_le (by omega)
    simp [DispInfo.PrepareType.loop, this]
  | succ k ih =>
    intro n acc hlen
    rw [DispInfo.PrepareType.loop]
    by_cases hn : n < info.funcs.length
    · rw [List.drop_eq_getElem_cons hn]
      simp only [DispInfo.PrepareFunc, List.get?_eq_getElem?, List.getElem?_eq_getElem hn,
        List.foldl_cons]
      exact ih (n + 1) _ (by omega)
    · have h1 : info.funcs.drop n = [] := List.drop_eq_nil_of_le (by omega)
      have h2 : info.funcs[n]? = none := List.getElem?_eq_none (by omega)
      simp [DispInfo.PrepareFunc, h1, h2]

theorem PrepareType_eq_foldl {α : Type} (info : ITypeInfo)
    (process : α → ITypeInfo → FUNCDESC → α) (acc : α) :
    DispInfo.PrepareType info process acc =
      info.funcs.foldl (fun a d => process a info d) acc := by
  unfold DispInfo.PrepareType
  rw [PrepareType_loop_eq info process _ 0 acc (by omega)]
  simp

theorem foldl_typeinfos (T : Transport) (tr : Trace) (h : Handle)
    (P : func_by_dispid_t → FUNCDESC → func_by_dispid_t) :
    ∀ (l : List Nat) (acc : func_by_dispid_t),
      l.foldl
          (fun a i =>
            match T.GetTypeInfo tr h i with
            | none => a
            | some info => DispInfo.PrepareType info (fun m _ desc => P m desc) a)
          acc =
        (l.flatMap fun i =>
          match T.GetTypeInfo tr h i with
          | none => []
          | some info => info.funcs).foldl P acc := by
  intro l
  induction l with
  | nil => intro acc; rfl
  | cons i t ih =>
    intro acc
    simp only [List.foldl_cons, List.flatMap_cons, List.foldl_append]
    rw [ih]
    cases T.GetTypeInfo tr h i with
    | none => rfl
    | some info => simp only [PrepareType_eq_foldl]

theorem Enumerate_eq_foldl (T : Transport) (tr : Trace) (h : Handle)
    (P : func_by_dispid_t → FUNCDESC → func_by_dispid_t) (acc : func_by_dispid_t) :
    (DispInfo.Enumerate T tr (some h) (fun m _ desc => P m desc) acc).1 =
      (enumeratedFuncs T tr h).foldl P acc := by
  unfold DispInfo.Enumerate enumeratedFuncs
  simp only []
  split
  · rfl
  · exact foldl_typeinfos T tr h P _ acc

theorem lookup_map_update (m : func_by_dispid_t) (k : DISPID) (u : func_t → func_t)
    (d : DISPID) :
    (m.map fun e => if e.1 = k then (e.1, u e.2) else e).lookup d =
      if d = k then (m.lookup d).map u else m.lookup d := by
  induction m with
  | nil => simp
  | cons e t ih =>
    obtain ⟨a, g⟩ := e
    by_cases hak : a = k
    · subst hak
      by_cases hda : d = a
      · subst hda
        simp [List.lookup_cons]
      · have hda2 : (d == a) = false := by simpa using hda
        simp only [List.map_cons, if_true, List.lookup_cons, hda2]
        exact ih
    · by_cases hda : d = a
      · subst hda
        simp [List.lookup_cons, hak]
      · have hda2 : (d == a) = false := by simpa using hda
        simp only [List.map_cons, hak, if_false, List.lookup_cons, hda2]
        exact ih

/-- One step of merging a description into the entry of the member-id `d`. -/
theorem lookup_process (m : func_by_dispid_t) (desc : FUNCDESC) (d : DISPID) :
    (DispInfo.Prepare.process m desc).lookup d =
      if desc.memid = d then
        some (match m.lookup d with
          | none => { dispid := d, kind := desc.invkind }
          | some f => { f with kind := f.kind ||| desc.invkind })
      else m.lookup d := by
  unfold DispInfo.Prepare.process
  by_cases hd : desc.memid = d
  · subst hd
    rw [if_pos rfl]
    cases hl : m.lookup desc.memid with
    | none => simp [List.lookup_append, hl, List.lookup_cons]
    | some f =>
      simp only []
      rw [lookup_map_update m desc.memid (fun f => { f with kind := f.kind ||| desc.invkind })]
      simp [hl]
  · rw [if_neg hd]
    have hd2 : ¬ d = desc.memid := fun h => hd h.symm
    have hd3 : (d == desc.memid) = false := by simpa using hd2
    cases hl : m.lookup desc.memid with
    | none => simp [List.lookup_append, List.lookup_cons, hd3]
    | some f =>
      simp only []
      rw [lookup_map_update m desc.memid (fun f => { f with kind := f.kind ||| desc.invkind })]
      simp [hd2]

theorem lookup_eq_none_iff_keys (m : func_by_dispid_t) (d : DISPID) :
    m.lookup d = none ↔ d ∉ m.map Prod.fst := by
  induction m with
  | nil => simp
  | cons e t ih =>
    obtain ⟨a, g⟩ := e
    by_cases hda : d = a
    · subst hda; simp [List.lookup_cons]
    · have hda2 : (d == a) = false := by simpa using hda
      simp only [List.lookup_cons, hda2, ih]
      simp [hda]

theorem keys_process (m : func_by_dispid_t) (desc : FUNCDESC) :
    (DispInfo.Prepare.process m desc).map Prod.fst =
      if desc.memid ∈ m.map Prod.fst then m.map Prod.fst
      else m.map Prod.fst ++ [desc.memid] := by
  unfold DispInfo.Prepare.process
  cases hl : m.lookup desc.memid with
  | none =>
    have := (lookup_eq_none_iff_keys m desc.memid).1 hl
    simp only [this, if_false, List.map_append, List.map_cons, List.map_nil]
  | some f =>
    have hmem : desc.memid ∈ m.map Prod.fst := by
      by_contra hc
      have := (lookup_eq_none_iff_keys m desc.memid).2 hc
      rw [hl] at this
      exact absurd this (by simp)
    simp only [hmem, if_true, List.map_map]
    apply List.map_congr_left
    intro e _
    simp only [Function.comp]
    split <;> rfl

theorem keys_nodup_process (m : func_by_dispid_t) (desc : FUNCDESC)
    (h : (m.map Prod.fst).Nodup) : ((DispInfo.Prepare.process m desc).map Prod.fst).Nodup := by
  rw [keys_process]
  split
  · exact h
  · rename_i hn
    rw [List.nodup_append]
    refine ⟨h, List.nodup_singleton _, ?_⟩
    intro x hx hx2
    simp only [List.mem_singleton] at hx2
    subst hx2
    exact hn hx

theorem keys_nodup_foldl (descs : List FUNCDESC) :
    ∀ (m : func_by_dispid_t), (m.map Prod.fst).Nodup →
      ((descs.foldl DispInfo.Prepare.process m).map Prod.fst).Nodup := by
  induction descs with
  | nil => intro m h; exact h
  | cons x t ih => intro m h; exact ih _ (keys_nodup_process m x h)

theorem lookup_foldl_process (d : DISPID) (descs : List FUNCDESC) :
    ∀ (m : func_by_dispid_t),
      (descs.foldl DispInfo.Prepare.process m).lookup d =
        match m.lookup d with
        | some f =>
          some { f with
            kind := ((descs.filter fun x => x.memid = d).map fun x => x.invkind).foldl
              (fun a b => a ||| b) f.kind }
        | none =>
          match (descs.filter fun x => x.memid = d).map fun x => x.invkind with
          | [] => none
          | k :: ks => some { dispid := d, kind := ks.foldl (fun a b => a ||| b) k } := by
  induction descs with
  | nil =>
    intro m
    cases hl : m.lookup d <;> simp [hl]
  | cons x t ih =>
    intro m
    rw [List.foldl_cons, ih, lookup_process]
    by_cases hx : x.memid = d
    · have hf : (List.filter (fun x => decide (x.memid = d)) (x :: t)) =
          x :: List.filter (fun x => decide (x.memid = d)) t := by
        simp [List.filter_cons, hx]
      rw [if_pos hx, hf]
      cases hl : m.lookup d <;> simp
    · have hf : (List.filter (fun x => decide (x.memid = d)) (x :: t)) =
          List.filter (fun x => decide (x.memid = d)) t := by
        simp [List.filter_cons, hx]
      rw [if_neg hx, hf]

theorem foldl_or_zero (k : Nat) (ks : List Nat) :
    (k :: ks).foldl (fun a b => a ||| b) 0 = ks.foldl (fun a b => a ||| b) k := by
  simp [List.foldl_cons, Nat.zero_or]

theorem lookup_cache (descs : List FUNCDESC) (d : DISPID) :
    (descs.foldl DispInfo.Prepare.process []).lookup d =
      if d ∈ descs.map (fun x => x.memid) then
        some { dispid := d, kind := mergedKind descs d }
      else none := by
  rw [lookup_foldl_process]
  simp only [List.lookup_nil, mergedKind]
  by_cases hmem : d ∈ descs.map (fun x => x.memid)
  · rw [if_pos hmem]
    obtain ⟨x, hx, hxd⟩ := List.mem_map.1 hmem
    have hne : ((descs.filter fun x => x.memid = d).map fun x => x.invkind) ≠ [] := by
      intro hc
      have hxf : x ∈ descs.filter fun x => x.memid = d := by
        simp [List.mem_filter, hx, hxd]
      have := List.map_eq_nil_iff.1 hc
      rw [this] at hxf
      exact absurd hxf (by simp)
    cases hk : (descs.filter fun x => x.memid = d).map fun x => x.invkind with
    | nil => exact absurd hk hne
    | cons k ks => simp only [foldl_or_zero]
  · rw [if_neg hmem]
    have hnil : (descs.filter fun x => x.memid = d) = [] := by
      rw [List.filter_eq_nil_iff]
      intro x hx hxd
      apply hmem
      exact List.mem_map.2 ⟨x, hx, by simpa using hxd⟩
    rw [hnil]
    rfl

theorem DispInfo_new_funcs (T : Transport) (tr : Trace) (disp : Option Handle) (nm : String)
    (opt : Nat) (parnt : Option DispInfo) (hopt : opt &&& option_type ≠ 0) :
    (DispInfo.new T tr disp nm opt parnt).funcs_by_dispid =
      (DispInfo.Enumerate T tr disp (fun m _ desc => DispInfo.Prepare.process m desc) []).1 := by
  unfold DispInfo.new
  simp only [hopt, ne_eq, not_false_eq_true, if_true]
  cases parnt <;> rfl

/-- C17: for a resolver built with the collect-type-metadata flag over a handle, the member
cache after `DispInfo::Prepare` has one entry per distinct member-id among the function
descriptions the enumeration yields across all type descriptions, and the entry of an id holds
that id and the bitwise OR of the kinds of all descriptions with that id; a handle that refuses
`GetTypeInfoCount`, and the null handle, yield an empty cache. -/
theorem Prepare_cache_merges (T : Transport) (tr : Trace) (disp : Option Handle) (nm : String)
    (opt : Nat) (parnt : Option DispInfo) (hopt : opt &&& option_type ≠ 0) :
    (∀ h, disp = some h →
        ((DispInfo.new T tr disp nm opt parnt).funcs_by_dispid.map Prod.fst).Nodup ∧
        (∀ d, d ∈ (DispInfo.new T tr disp nm opt parnt).funcs_by_dispid.map Prod.fst ↔
          d ∈ (enumeratedFuncs T tr h).map fun x => x.memid) ∧
        (DispInfo.new T tr disp nm opt parnt).funcs_by_dispid.length =
          ((enumeratedFuncs T tr h).map fun x => x.memid).dedup.length ∧
        (∀ d, (DispInfo.new T tr disp nm opt parnt).funcs_by_dispid.lookup d =
          if d ∈ (enumeratedFuncs T tr h).map (fun x => x.memid) then
            some { dispid := d, kind := mergedKind (enumeratedFuncs T tr h) d }
          else none) ∧
        (FAILED (T.GetTypeInfoCount tr h).1 = true →
          (DispInfo.new T tr disp nm opt parnt).funcs_by_dispid = [])) ∧
      (disp = none → (DispInfo.new T tr disp nm opt parnt).funcs_by_dispid = []) := by
  rw [DispInfo_new_funcs T tr disp nm opt parnt hopt]
  constructor
  · intro h hd
    subst hd
    rw [Enumerate_eq_foldl T tr h DispInfo.Prepare.process []]
    have hnd := keys_nodup_foldl (enumeratedFuncs T tr h) [] (by simp)
    have hmem : ∀ d, d ∈ ((enumeratedFuncs T tr h).foldl DispInfo.Prepare.process []).map
        Prod.fst ↔ d ∈ (enumeratedFuncs T tr h).map fun x => x.memid := by
      intro d
      have h1 := lookup_eq_none_iff_keys
        ((enumeratedFuncs T tr h).foldl DispInfo.Prepare.process []) d
      rw [lookup_cache] at h1
      by_cases hm : d ∈ (enumeratedFuncs T tr h).map fun x => x.memid
      · rw [if_pos hm] at h1
        simp only [hm, iff_true]
        by_contra hc
        exact absurd (h1.2 hc) (by simp)
      · rw [if_neg hm] at h1
        simp only [hm, iff_false]
        exact h1.1 rfl
    refine ⟨hnd, hmem, ?_, lookup_cache _, ?_⟩
    · have hperm := (List.perm_ext_iff_of_nodup hnd
        (List.nodup_dedup ((enumeratedFuncs T tr h).map fun x => x.memid))).2
        (fun a => by rw [hmem a, List.mem_dedup])
      have := hperm.length_eq
      simpa using this
    · intro hf
      simp [enumeratedFuncs, hf]
  · intro hd
    subst hd
    rfl

/-- C17 on the root resolver of the sample tree: member 12, described as property-get and as
property-put, is cached with kind 6; member 13, described as property-get and as method, with
kind 3; an id that is not described is not cached. -/
theorem Prepare_cache_merges_witness :
    (option_async ||| option_type) &&& option_type ≠ 0 ∧
      (DispInfo.new sampleTransport [] (some 1) "root" (option_async ||| option_type)
          none).funcs_by_dispid.lookup 12 = some { dispid := 12, kind := 6 } ∧
      (DispInfo.new sampleTransport [] (some 1) "root" (option_async ||| option_type)
          none).funcs_by_dispid.lookup 13 = some { dispid := 13, kind := 3 } ∧
      (DispInfo.new sampleTransport [] (some 1) "root" (option_async ||| option_type)
          none).funcs_by_dispid.lookup 99 = none ∧
      (DispInfo.new sampleTransport [] (some 3) "B" (option_async ||| option_type)
          none).funcs_by_dispid = [] :=
  ⟨by decide,
    (((Prepare_cache_merges sampleTransport [] (some 1) "root" (option_async ||| option_type)
      none (by decide)).1 1 rfl).2.2.2.1 12).trans (by decide),
    (((Prepare_cache_merges sampleTransport [] (some 1) "root" (option_async ||| option_type)
      none (by decide)).1 1 rfl).2.2.2.1 13).trans (by decide),
    (((Prepare_cache_merges sampleTransport [] (some 1) "root" (option_async ||| option_type)
      none (by decide)).1 1 rfl).2.2.2.1 99).trans (by decide),
    ((Prepare_cache_merges sampleTransport [] (some 3) "B" (option_async ||| option_type)
      none (by decide)).1 3 rfl).2.2.2.2 (by decide)⟩

/-! ### C18: the index argument of a property-get -/

theorem uint32ToLONG_small (i : Nat) (hi : i < 2 ^ 31) : uint32ToLONG i = (i : Int) := by
  have h1 : i % 2 ^ 32 = i := Nat.mod_eq_of_lt (by omega)
  simp only [uint32ToLONG, h1]
  rw [if_pos hi]

theorem uint32ToLONG_large (i : Nat) (hi : 2 ^ 31 ≤ i) (hi2 : i < 2 ^ 32) :
    uint32ToLONG i = (i : Int) - 2 ^ 32 ∧ uint32ToLONG i < 0 := by
  have h1 : i % 2 ^ 32 = i := Nat.mod_eq_of_lt hi2
  have h2 : ¬ i < 2 ^ 31 := by omega
  simp only [uint32ToLONG, h1]
  rw [if_neg h2]
  constructor
  · rfl
  · have : (i : Int) < 2 ^ 32 := by exact_mod_cast hi2
    linarith

theorem getParams_uint32 (i : Nat) (hi : i < 2 ^ 32) :
    getParams (uint32ToLONG i) =
      { rgvarg := if i < 2 ^ 31 then [{ vt := VT_I4, val := .scalar i }] else [],
        rgdispidNamedArgs := [] } := by
  by_cases hs : i < 2 ^ 31
  · rw [uint32ToLONG_small i hs]
    have h0 : (i : Int) ≥ 0 := Int.ofNat_nonneg i
    have hm : ((i : Int) % 2 ^ 32).toNat = i := by
      have : ((i : Int) % 2 ^ 32) = ((i % 2 ^ 32 : Nat) : Int) := by norm_cast
      rw [this, Int.toNat_ofNat]
      exact Nat.mod_eq_of_lt hi
    simp only [getParams, h0, if_true, hs, CComVariant.ofLONG, hm]
  · have hl := uint32ToLONG_large i (by omega) hi
    have hneg : ¬ uint32ToLONG i ≥ 0 := not_le.mpr hl.2
    simp only [getParams, hneg, if_false, hs]

/-- C18: `DispInfo::GetProperty` passes exactly one argument, the index as a `VT_I4` value, when
the index is not negative, and no argument when it is negative.  `NodeGetByIndex` hands the
host's unsigned 32-bit index to `get` converted to `LONG`, so for a proxy whose own member-id is
classified as a property the indexed get issues, after the opening `prepare`, one property-get
whose only argument is the index `i` when `i < 2^31`, and which has no argument when
`i ≥ 2^31`, the converted index being negative then. -/
theorem indexed_get_index_argument (E : Env) (tr : Trace) (self : DispObject) (i : Nat)
    (tr0 : Trace) (self0 : DispObject) (h : Handle) (hi : i < 2 ^ 32)
    (hl : self.lazyPrepare E.T tr = some (tr0, self0)) (hptr : self0.disp.ptr = some h)
    (hprop : self0.disp.IsProperty self0.dispid = true) :
    (∀ (d : DISPID) (index : LONG), ∃ hr v,
        self0.disp.GetProperty E.T tr0 d index =
          some (tr0 ++ [Call.Invoke h d DISPATCH_PROPERTYGET
              { rgvarg := if index ≥ 0 then [CComVariant.ofLONG index] else [],
                rgdispidNamedArgs := [] }], hr, v)) ∧
      (i < 2 ^ 31 → uint32ToLONG i = (i : Int)) ∧
      (2 ^ 31 ≤ i → uint32ToLONG i = (i : Int) - 2 ^ 32 ∧ uint32ToLONG i < 0) ∧
      ∃ c, DispObject.NodeGetByIndex E tr (some self) i = some (.done c) ∧
        c.trace = tr0 ++ [Call.Invoke h self0.dispid DISPATCH_PROPERTYGET
          { rgvarg := if i < 2 ^ 31 then [{ vt := VT_I4, val := .scalar i }] else [],
            rgdispidNamedArgs := [] }] := by
  refine ⟨?_, uint32ToLONG_small i, fun h2 => uint32ToLONG_large i h2 hi, ?_⟩
  · intro d index
    exact ⟨_, _, GetProperty_some E.T tr0 self0.disp d index h hptr⟩
  · have hs : self0.searchDispid E.T tr0 none =
        some (tr0, Search.found self0.name self0.dispid) := rfl
    have hg := get_found_property E tr self none (uint32ToLONG i) tr0 tr0 self0 self0.name
      self0.dispid h hl hs hprop hptr
    rw [getParams_uint32 i hi] at hg
    have hc : ∃ c, self.get E tr none (uint32ToLONG i) = some c ∧
        c.trace = tr0 ++ [Call.Invoke h self0.dispid DISPATCH_PROPERTYGET
          { rgvarg := if i < 2 ^ 31 then [{ vt := VT_I4, val := .scalar i }] else [],
            rgdispidNamedArgs := [] }] := by
      rw [hg]
      generalize
        ({ rgvarg := if i < 2 ^ 31 then [{ vt := VT_I4, val := .scalar i }] else [],
           rgdispidNamedArgs := [] } : DISPPARAMS) = params
      split
      · exact ⟨_, rfl, rfl⟩
      · split <;> exact ⟨_, rfl, rfl⟩
    obtain ⟨c, hc1, hc2⟩ := hc
    exact ⟨c, by simp only [DispObject.NodeGetByIndex, hc1], hc2⟩

/-- C18 on the root proxy of the sample tree, whose default member 0 is a property: index 5
arrives as the one argument, index 2^31 as no argument. -/
theorem indexed_get_index_argument_witness :
    sampleRoot.lazyPrepare sampleEnv.T [] = some ([], sampleRoot) ∧
      sampleRoot.disp.ptr = some 1 ∧
      sampleRoot.disp.IsProperty sampleRoot.dispid = true ∧
      (∃ c, DispObject.NodeGetByIndex sampleEnv [] (some sampleRoot) 5 = some (.done c) ∧
        c.trace = [Call.Invoke 1 DISPID_VALUE DISPATCH_PROPERTYGET
          { rgvarg := [{ vt := VT_I4, val := .scalar 5 }], rgdispidNamedArgs := [] }]) ∧
      (DispObject.NodeGetByIndex sampleEnv [] (some sampleRoot) 2147483648).map
          (fun o =>
            match o with
            | .done c => c.trace
            | .empty _ => []) =
        some [Call.Invoke 1 DISPID_VALUE DISPATCH_PROPERTYGET
          { rgvarg := [], rgdispidNamedArgs := [] }] :=
  ⟨by decide, by decide, by decide,
    (indexed_get_index_argument sampleEnv [] sampleRoot 5 [] sampleRoot 1
      (by decide) (by decide) (by decide) (by decide)).2.2.2,
    by decide⟩

end NodeActiveX
